import Mathlib

/-!
Verification of the CosmoOS FunctionGemma training-data generator
(`scripts/generate_training_data.py`).

The generator is a single-threaded Python program: a shared pseudo-random
stream drives template selection and placeholder substitution, raw action
descriptors (Python dicts) or already-encoded strings are produced per
category, the corpus is concatenated, shuffled once, and split 90/10.

Shallow embedding conventions used throughout this file:
- the global `random` module is modelled as an infinite stream of naturals
  (`RNG`); `random.choice(xs)` reads one number `k` and returns
  `xs[k % len(xs)]`; `random.sample(xs, 3)` draws three distinct positions
  by erasing each chosen element before the next draw; `random.shuffle`
  is the Fisher-Yates swap loop that CPython implements.  All claims below
  are proved for every stream, so the particular distribution is irrelevant;
- Python dicts are association lists in insertion order (`JObj`);
  JSON-able values are `JVal`; `json.dumps(..., separators=(",", ":"))`
  is `dumps`;
- `str.replace` is `replaceCore` (leftmost, non-overlapping, the replaced
  span is not rescanned); the generator's `json.dumps` / `.replace` /
  `json.loads` round-trip is modelled structurally (`substJ`), which agrees
  with the textual substitution because every placeholder token starts with
  a brace and no vocabulary value contains a brace, a quote or a backslash;
- Python `str(n)` on integers is `intStr`; `str.capitalize()` is
  `pyCapitalize` (ASCII case table, all vocabulary is ASCII).
-/

namespace CosmoGen

set_option maxRecDepth 40000

/-- Infinite stream of naturals standing for the shared `random` state. -/
structure RNG where
  f : Nat → Nat

/-- Read one number from the stream and advance it. -/
def RNG.next (g : RNG) : Nat × RNG :=
  (g.f 0, ⟨fun n => g.f (n + 1)⟩)

/-- Model of `random.choice(xs)`: one draw, index reduced mod the length. -/
def choose {α : Type} [Inhabited α] (xs : List α) (g : RNG) : α × RNG :=
  let (k, g1) := g.next
  (xs.getD (k % xs.length) default, g1)

/-- Worker for Python `str.replace`.  In state `skip + 1` the next input
character belongs to an already-replaced span and is dropped; in state `0`
a match of `pat` emits `rep` and enters skip state `pat.length - 1`, so
occurrences are replaced leftmost, non-overlapping, and the substituted
span is not rescanned.  An empty pattern never matches here (the generator
only uses nonempty placeholder patterns). -/
def replaceAux (pat rep : List Char) : Nat → List Char → List Char
  | _, [] => []
  | skip + 1, _ :: rest => replaceAux pat rep skip rest
  | 0, c :: rest =>
    if pat ≠ [] ∧ pat.isPrefixOf (c :: rest) then
      rep ++ replaceAux pat rep (pat.length - 1) rest
    else
      c :: replaceAux pat rep 0 rest

/-- Core of Python `str.replace` on character lists. -/
def replaceCore (s pat rep : List Char) : List Char :=
  replaceAux pat rep 0 s

/-- Python `str.replace` on strings. -/
def replaceStr (s pat rep : String) : String :=
  ⟨replaceCore s.data pat.data rep.data⟩

/-- Fold a chain of `str.replace` calls (or a `str.format`) over `s`,
one `(pattern, replacement)` pair at a time, in order. -/
def substText (s : String) (ps : List (String × String)) : String :=
  ps.foldl (fun a p => replaceStr a p.1 p.2) s

/-- Bool test for substring occurrence, the model of Python `pat in s`. -/
def occursIn (s pat : List Char) : Bool :=
  match s with
  | [] => pat.isEmpty
  | _ :: rest => pat.isPrefixOf s || occursIn rest pat

/-- JSON-able Python values as they occur in the generator: strings,
ints, bools, lists and (insertion-ordered) dicts. -/
inductive JVal where
  | s (v : String)
  | n (v : Int)
  | b (v : Bool)
  | arr (vs : List JVal)
  | obj (kvs : List (String × JVal))

instance : Inhabited JVal := ⟨JVal.s ""⟩

/-- A Python dict in insertion order. -/
abbrev JObj := List (String × JVal)

/-- One template: the input pattern paired with the output skeleton dict. -/
abbrev RawTemplate := String × JObj

/-- Dict lookup (`d.get(k)` / `d[k]` / `k in d`). -/
def dlookup (d : JObj) (k : String) : Option JVal :=
  (d.find? (fun kv => kv.1 == k)).map (fun kv => kv.2)

/-- Decimal digits of a natural, the model of Python `str(n)` for `n ≥ 0`. -/
def digitChar (n : Nat) : Char :=
  ("0123456789".data).getD n '0'

/-- Fuelled digit expansion; `fuel = n` always exceeds the digit count,
so `natDigits n` below is the full decimal expansion for every `n`. -/
def natDigitsAux (fuel n : Nat) : List Char :=
  match fuel with
  | 0 => [digitChar n]
  | fuel + 1 =>
    if n < 10 then [digitChar n]
    else natDigitsAux fuel (n / 10) ++ [digitChar (n % 10)]

def natDigits (n : Nat) : List Char := natDigitsAux n n

def natStr (n : Nat) : String := ⟨natDigits n⟩

/-- Python `str(i)` for ints. -/
def intStr (i : Int) : String :=
  if i < 0 then "-" ++ natStr i.natAbs else natStr i.natAbs

/-- Lower-case hex digit. -/
def hexChar (n : Nat) : Char :=
  ("0123456789abcdef".data).getD n '0'

def hex4 (n : Nat) : String :=
  ⟨[hexChar (n / 4096 % 16), hexChar (n / 256 % 16), hexChar (n / 16 % 16), hexChar (n % 16)]⟩

/-- Per-character escaping of Python `json.dumps` (default `ensure_ascii`). -/
def jsonEscapeChar (c : Char) : String :=
  if c = '"' then "\\\""
  else if c = '\\' then "\\\\"
  else if c = '\n' then "\\n"
  else if c = '\t' then "\\t"
  else if c = '\r' then "\\r"
  else if c = '\x08' then "\\b"
  else if c = '\x0c' then "\\f"
  else if c.toNat < 32 then "\\u" ++ hex4 c.toNat
  else if 128 ≤ c.toNat then "\\u" ++ hex4 c.toNat
  else String.singleton c

/-- JSON string literal serialization. -/
def jsonEscapeStr (s : String) : String :=
  "\"" ++ ⟨(s.data.map (fun c => (jsonEscapeChar c).data)).flatten⟩ ++ "\""

/-- `",".join(parts)`. -/
def commaJoin : List String → String
  | [] => ""
  | [p] => p
  | p :: rest => p ++ "," ++ commaJoin rest

mutual

/-- `json.dumps(v, separators=(",", ":"))`: compact, insertion order
kept.  `dumpsArr` and `dumpsKVs` inline the comma join of the nested
serializations. -/
def dumps : JVal → String
  | JVal.s v => jsonEscapeStr v
  | JVal.n v => intStr v
  | JVal.b v => if v then "true" else "false"
  | JVal.arr vs => "[" ++ dumpsArr vs ++ "]"
  | JVal.obj kvs => "\x7b" ++ dumpsKVs kvs ++ "\x7d"

def dumpsArr : List JVal → String
  | [] => ""
  | [v] => dumps v
  | v :: rest => dumps v ++ "," ++ dumpsArr rest

def dumpsKVs : List (String × JVal) → String
  | [] => ""
  | [(k, v)] => jsonEscapeStr k ++ ":" ++ dumps v
  | (k, v) :: rest => jsonEscapeStr k ++ ":" ++ dumps v ++ "," ++ dumpsKVs rest

end

/-- `escape(value)` from the generator: dicts and lists go through compact
`json.dumps`, bools become lower-case text, ints their decimal text, and
everything else (strings) is passed through `str()` unchanged. -/
def escape : JVal → String
  | JVal.obj kvs => dumps (JVal.obj kvs)
  | JVal.arr vs => dumps (JVal.arr vs)
  | JVal.b v => if v then "true" else "false"
  | JVal.n v => intStr v
  | JVal.s v => v

/-- `make_function_call(func_name, params)`: the canonical wire string. -/
def make_function_call (func_name : String) (params : List (String × JVal)) : String :=
  "<start_function_call>call:" ++ func_name ++ "\x7b" ++
    commaJoin (params.map (fun kv => kv.1 ++ ":<escape>" ++ escape kv.2 ++ "<escape>")) ++
  "\x7d<end_function_call>"

/-- The output half of a generated example: either a legacy raw descriptor
(dict) or an already-encoded function-call string. -/
inductive Out where
  | raw (d : JObj)
  | str (s : String)

instance : Inhabited Out := ⟨Out.str ""⟩

/-- One generated training example. -/
structure Example where
  input : String
  output : Out

instance : Inhabited Example := ⟨⟨"", Out.str ""⟩⟩

mutual

/-- Structural substitution over a JSON value: the model of the
`json.dumps` / chain of `.replace` / `json.loads` round-trip the raw
generators perform.  Replacement is applied to every key and every string
leaf, pair by pair in order. -/
def substJ (ps : List (String × String)) : JVal → JVal
  | JVal.s v => JVal.s (substText v ps)
  | JVal.n v => JVal.n v
  | JVal.b v => JVal.b v
  | JVal.arr vs => JVal.arr (substArr ps vs)
  | JVal.obj kvs => JVal.obj (substKVs ps kvs)

def substArr (ps : List (String × String)) : List JVal → List JVal
  | [] => []
  | v :: rest => substJ ps v :: substArr ps rest

def substKVs (ps : List (String × String)) : List (String × JVal) → List (String × JVal)
  | [] => []
  | (k, v) :: rest => (substText k ps, substJ ps v) :: substKVs ps rest

end

/-- Substitution applied to a whole skeleton dict. -/
def substObj (ps : List (String × String)) (d : JObj) : JObj :=
  d.map (fun kv => (substText kv.1 ps, substJ ps kv.2))

/-- ASCII lower-case table (Python `str.lower` on the generator's data). -/
def lowerTable : List (Char × Char) :=
  [('A', 'a'), ('B', 'b'), ('C', 'c'), ('D', 'd'), ('E', 'e'), ('F', 'f'),
   ('G', 'g'), ('H', 'h'), ('I', 'i'), ('J', 'j'), ('K', 'k'), ('L', 'l'),
   ('M', 'm'), ('N', 'n'), ('O', 'o'), ('P', 'p'), ('Q', 'q'), ('R', 'r'),
   ('S', 's'), ('T', 't'), ('U', 'u'), ('V', 'v'), ('W', 'w'), ('X', 'x'),
   ('Y', 'y'), ('Z', 'z')]

def asciiLower (c : Char) : Char :=
  match lowerTable.find? (fun p => p.1 == c) with
  | some p => p.2
  | none => c

def asciiUpper (c : Char) : Char :=
  match lowerTable.find? (fun p => p.2 == c) with
  | some p => p.1
  | none => c

/-- Python `str.capitalize()`: first character upper-cased, the rest
lower-cased (ASCII model; the generator's vocabulary is ASCII). -/
def pyCapitalize (s : String) : String :=
  match s.data with
  | [] => ""
  | c :: rest => ⟨asciiUpper c :: rest.map asciiLower⟩

/-- Last whitespace-separated word of a simple string: the model of
Python `t.split()[-1]` for the task phrases (single spaces, no leading or
trailing whitespace). -/
def lastWord (s : String) : String :=
  ⟨s.data.foldl (fun acc c => if c = ' ' then [] else acc ++ [c]) []⟩


/-! ### Vocabulary banks and template tables, transcribed from the source -/

def TOPICS : List String := [
  "marketing strategy",
  "brand positioning",
  "customer acquisition",
  "retention metrics",
  "social media campaign",
  "content marketing",
  "SEO optimization",
  "email automation",
  "lead generation",
  "conversion funnel",
  "A/B testing",
  "user personas",
  "competitive analysis",
  "market research",
  "pricing strategy",
  "product launch",
  "feature architecture",
  "API design",
  "database schema",
  "caching strategy",
  "performance optimization",
  "code refactoring",
  "technical debt",
  "microservices",
  "authentication flow",
  "authorization patterns",
  "error handling",
  "logging strategy",
  "CI/CD pipeline",
  "deployment automation",
  "monitoring setup",
  "incident response",
  "mobile optimization",
  "offline support",
  "data migration",
  "versioning strategy",
  "user onboarding",
  "navigation patterns",
  "color scheme",
  "typography system",
  "component library",
  "design tokens",
  "accessibility improvements",
  "mobile UX",
  "dark mode implementation",
  "animation principles",
  "icon system",
  "layout grid",
  "form validation UX",
  "error messaging",
  "loading states",
  "empty states",
  "growth hacking",
  "viral loops",
  "referral program",
  "partnership strategy",
  "investor pitch",
  "fundraising deck",
  "unit economics",
  "market expansion",
  "international launch",
  "localization",
  "pricing tiers",
  "freemium model",
  "learning roadmap",
  "skill development",
  "reading list",
  "networking strategy",
  "time management",
  "productivity system",
  "habit formation",
  "goal setting",
  "morning routine",
  "evening routine",
  "meditation practice",
  "exercise plan",
  "blog post series",
  "newsletter topics",
  "podcast episodes",
  "video content",
  "case studies",
  "whitepapers",
  "documentation",
  "help articles",
  "social posts",
  "ad copy",
  "landing pages",
  "email sequences",
  "user research",
  "market trends",
  "competitor analysis",
  "technology evaluation",
  "framework comparison",
  "best practices",
  "industry benchmarks",
  "case study analysis"]

def TASKS : List String := [
  "call mom",
  "call dad",
  "call Sarah",
  "call John",
  "call the dentist",
  "email the team",
  "email investors",
  "email marketing",
  "email support",
  "text Alex",
  "text the group",
  "message the client",
  "follow up with leads",
  "schedule meeting with product",
  "book 1:1 with manager",
  "set up call with design",
  "finish the report",
  "review the PR",
  "update documentation",
  "fix the bug",
  "write tests",
  "deploy to staging",
  "merge the feature branch",
  "update dependencies",
  "create the presentation",
  "prepare for standup",
  "update the roadmap",
  "write specs",
  "review analytics",
  "check metrics",
  "update dashboards",
  "run experiments",
  "interview candidates",
  "review applications",
  "prepare interview questions",
  "buy groceries",
  "pick up laundry",
  "return package",
  "pay bills",
  "renew subscription",
  "cancel gym membership",
  "book dentist",
  "schedule haircut",
  "water plants",
  "clean apartment",
  "do laundry",
  "cook dinner",
  "exercise",
  "meditate",
  "read for 30 minutes",
  "practice Spanish",
  "take vitamins",
  "drink water",
  "go for a walk",
  "stretch",
  "order supplies",
  "buy birthday gift",
  "get flowers",
  "pick up prescription",
  "return shoes",
  "exchange jacket",
  "order office supplies",
  "buy charger",
  "drop off mail",
  "go to bank",
  "visit post office",
  "get car serviced",
  "renew license",
  "update passport",
  "file taxes",
  "submit expense report"]

def PROJECTS : List String := [
  "marketing",
  "product",
  "engineering",
  "design",
  "sales",
  "operations",
  "personal",
  "health",
  "finance",
  "learning",
  "side project",
  "home",
  "q1 goals",
  "q2 planning",
  "annual review",
  "strategic initiative",
  "app redesign",
  "backend migration",
  "mobile app",
  "web platform",
  "customer success",
  "support",
  "content",
  "growth",
  "partnerships"]

def PERSON_NAMES : List String := [
  "Michael",
  "Sarah",
  "John",
  "Emily",
  "David",
  "Lisa",
  "James",
  "Jennifer",
  "Robert",
  "Jessica",
  "William",
  "Ashley",
  "Christopher",
  "Amanda",
  "Daniel",
  "Nicole",
  "Matthew",
  "Stephanie",
  "Anthony",
  "Melissa",
  "Mark",
  "Michelle",
  "Andrew",
  "Elizabeth",
  "Joshua",
  "Kimberly",
  "Steven",
  "Rebecca",
  "Kevin",
  "Laura",
  "Brian",
  "Rachel",
  "Alex",
  "Chris",
  "Sam",
  "Jordan",
  "Taylor",
  "Morgan",
  "Casey",
  "Jamie",
  "Cameron",
  "Drew",
  "Pat",
  "Quinn",
  "Riley",
  "Dr. Smith",
  "Dr. Johnson",
  "Professor Lee",
  "Coach Williams"]

def COMPANY_NAMES : List String := [
  "Acme",
  "TechCorp",
  "GlobalSoft",
  "Innovate Inc",
  "StartupX",
  "ClientCo",
  "PartnerGroup",
  "VentureOne",
  "CloudNine",
  "DataDriven",
  "NextGen",
  "BlueChip",
  "GreenLeaf",
  "RedRock",
  "SilverLine",
  "GoldStar"]

def TIMES : List String := [
  "9am",
  "10am",
  "11am",
  "12pm",
  "1pm",
  "2pm",
  "3pm",
  "4pm",
  "5pm",
  "6pm",
  "9",
  "10",
  "11",
  "12",
  "1",
  "2",
  "3",
  "4",
  "5",
  "6",
  "9:30",
  "10:30",
  "11:30",
  "12:30",
  "1:30",
  "2:30",
  "3:30",
  "4:30",
  "morning",
  "afternoon",
  "evening",
  "noon",
  "end of day",
  "close of business"]

def RELATIVE_TIMES : List String := [
  "tomorrow",
  "next week",
  "next Monday",
  "next Tuesday",
  "next Wednesday",
  "this Friday",
  "this weekend",
  "in an hour",
  "in 2 hours",
  "in 30 minutes",
  "later today",
  "tonight",
  "this evening",
  "next month",
  "end of week"]

def DURATIONS : List (String × Nat) := [
  ("30 minutes", 30),
  ("1 hour", 60),
  ("1.5 hours", 90),
  ("2 hours", 120),
  ("45 minutes", 45),
  ("15 minutes", 15),
  ("3 hours", 180),
  ("half hour", 30),
  ("an hour", 60),
  ("couple hours", 120)]

def PRIORITIES : List String := [
  "low",
  "medium",
  "high"]

namespace Simple

def idea_templates : List RawTemplate := [
  ("Create idea about \x7btopic\x7d",
   [("action", JVal.s "create"), ("type", JVal.s "idea"), ("title", JVal.s "\x7btopic\x7d")]),
  ("New idea about \x7btopic\x7d",
   [("action", JVal.s "create"), ("type", JVal.s "idea"), ("title", JVal.s "\x7btopic\x7d")]),
  ("Add idea for \x7btopic\x7d",
   [("action", JVal.s "create"), ("type", JVal.s "idea"), ("title", JVal.s "\x7btopic\x7d")]),
  ("Jot down idea about \x7btopic\x7d",
   [("action", JVal.s "create"), ("type", JVal.s "idea"), ("title", JVal.s "\x7btopic\x7d")]),
  ("Note about \x7btopic\x7d",
   [("action", JVal.s "create"), ("type", JVal.s "idea"), ("title", JVal.s "\x7btopic\x7d")]),
  ("I have an idea about \x7btopic\x7d",
   [("action", JVal.s "create"), ("type", JVal.s "idea"), ("title", JVal.s "\x7btopic\x7d")]),
  ("Thought about \x7btopic\x7d",
   [("action", JVal.s "create"), ("type", JVal.s "idea"), ("title", JVal.s "\x7btopic\x7d")]),
  ("Add thought on \x7btopic\x7d",
   [("action", JVal.s "create"), ("type", JVal.s "idea"), ("title", JVal.s "\x7btopic\x7d")]),
  ("Capture idea for \x7btopic\x7d",
   [("action", JVal.s "create"), ("type", JVal.s "idea"), ("title", JVal.s "\x7btopic\x7d")]),
  ("Quick idea \x7btopic\x7d",
   [("action", JVal.s "create"), ("type", JVal.s "idea"), ("title", JVal.s "\x7btopic\x7d")]),
  ("Idea \x7btopic\x7d",
   [("action", JVal.s "create"), ("type", JVal.s "idea"), ("title", JVal.s "\x7btopic\x7d")]),
  ("\x7btopic\x7d idea",
   [("action", JVal.s "create"), ("type", JVal.s "idea"), ("title", JVal.s "\x7btopic\x7d")]),
  ("Brain dump about \x7btopic\x7d",
   [("action", JVal.s "create"), ("type", JVal.s "idea"), ("title", JVal.s "\x7btopic\x7d")]),
  ("Let me note down \x7btopic\x7d",
   [("action", JVal.s "create"), ("type", JVal.s "idea"), ("title", JVal.s "\x7btopic\x7d")]),
  ("Save idea about \x7btopic\x7d",
   [("action", JVal.s "create"), ("type", JVal.s "idea"), ("title", JVal.s "\x7btopic\x7d")])]

def task_templates : List RawTemplate := [
  ("Create task \x7btask\x7d",
   [("action", JVal.s "create"), ("type", JVal.s "task"), ("title", JVal.s "\x7btask\x7d")]),
  ("New task \x7btask\x7d",
   [("action", JVal.s "create"), ("type", JVal.s "task"), ("title", JVal.s "\x7btask\x7d")]),
  ("Add task \x7btask\x7d",
   [("action", JVal.s "create"), ("type", JVal.s "task"), ("title", JVal.s "\x7btask\x7d")]),
  ("I need to \x7btask\x7d",
   [("action", JVal.s "create"), ("type", JVal.s "task"), ("title", JVal.s "\x7btask\x7d")]),
  ("Remind me to \x7btask\x7d",
   [("action", JVal.s "create"), ("type", JVal.s "task"), ("title", JVal.s "\x7btask\x7d")]),
  ("Don\x27t let me forget to \x7btask\x7d",
   [("action", JVal.s "create"), ("type", JVal.s "task"), ("title", JVal.s "\x7btask\x7d")]),
  ("Add to my list \x7btask\x7d",
   [("action", JVal.s "create"), ("type", JVal.s "task"), ("title", JVal.s "\x7btask\x7d")]),
  ("Todo \x7btask\x7d",
   [("action", JVal.s "create"), ("type", JVal.s "task"), ("title", JVal.s "\x7btask\x7d")]),
  ("To do \x7btask\x7d",
   [("action", JVal.s "create"), ("type", JVal.s "task"), ("title", JVal.s "\x7btask\x7d")]),
  ("\x7btask\x7d",
   [("action", JVal.s "create"), ("type", JVal.s "task"), ("title", JVal.s "\x7btask\x7d")]),
  ("Make sure I \x7btask\x7d",
   [("action", JVal.s "create"), ("type", JVal.s "task"), ("title", JVal.s "\x7btask\x7d")]),
  ("Put on my list \x7btask\x7d",
   [("action", JVal.s "create"), ("type", JVal.s "task"), ("title", JVal.s "\x7btask\x7d")]),
  ("Add \x7btask\x7d to tasks",
   [("action", JVal.s "create"), ("type", JVal.s "task"), ("title", JVal.s "\x7btask\x7d")]),
  ("Task to \x7btask\x7d",
   [("action", JVal.s "create"), ("type", JVal.s "task"), ("title", JVal.s "\x7btask\x7d")]),
  ("Need to \x7btask\x7d",
   [("action", JVal.s "create"), ("type", JVal.s "task"), ("title", JVal.s "\x7btask\x7d")])]

def project_templates : List RawTemplate := [
  ("Create project called \x7bproject\x7d",
   [("action", JVal.s "create"), ("type", JVal.s "project"), ("title", JVal.s "\x7bproject\x7d")]),
  ("New project \x7bproject\x7d",
   [("action", JVal.s "create"), ("type", JVal.s "project"), ("title", JVal.s "\x7bproject\x7d")]),
  ("Start a project for \x7bproject\x7d",
   [("action", JVal.s "create"), ("type", JVal.s "project"), ("title", JVal.s "\x7bproject\x7d")]),
  ("Add project \x7bproject\x7d",
   [("action", JVal.s "create"), ("type", JVal.s "project"), ("title", JVal.s "\x7bproject\x7d")])]

def research_templates : List RawTemplate := [
  ("Save this article about \x7btopic\x7d",
   [("action", JVal.s "create"), ("type", JVal.s "research"), ("title", JVal.s "\x7btopic\x7d")]),
  ("Add to research \x7btopic\x7d",
   [("action", JVal.s "create"), ("type", JVal.s "research"), ("title", JVal.s "\x7btopic\x7d")]),
  ("Research about \x7btopic\x7d",
   [("action", JVal.s "create"), ("type", JVal.s "research"), ("title", JVal.s "\x7btopic\x7d")]),
  ("Look into \x7btopic\x7d",
   [("action", JVal.s "create"), ("type", JVal.s "research"), ("title", JVal.s "\x7btopic\x7d")]),
  ("Investigate \x7btopic\x7d",
   [("action", JVal.s "create"), ("type", JVal.s "research"), ("title", JVal.s "\x7btopic\x7d")])]

def note_templates : List RawTemplate := [
  ("Create note about \x7btopic\x7d",
   [("action", JVal.s "create"), ("type", JVal.s "note"), ("title", JVal.s "\x7btopic\x7d")]),
  ("New note \x7btopic\x7d",
   [("action", JVal.s "create"), ("type", JVal.s "note"), ("title", JVal.s "\x7btopic\x7d")]),
  ("Add note about \x7btopic\x7d",
   [("action", JVal.s "create"), ("type", JVal.s "note"), ("title", JVal.s "\x7btopic\x7d")]),
  ("Quick note \x7btopic\x7d",
   [("action", JVal.s "create"), ("type", JVal.s "note"), ("title", JVal.s "\x7btopic\x7d")]),
  ("Note \x7btopic\x7d",
   [("action", JVal.s "create"), ("type", JVal.s "note"), ("title", JVal.s "\x7btopic\x7d")]),
  ("Floating note \x7btopic\x7d",
   [("action", JVal.s "create"), ("type", JVal.s "note"), ("title", JVal.s "\x7btopic\x7d")]),
  ("Add floating note about \x7btopic\x7d",
   [("action", JVal.s "create"), ("type", JVal.s "note"), ("title", JVal.s "\x7btopic\x7d")]),
  ("Drop a note about \x7btopic\x7d",
   [("action", JVal.s "create"), ("type", JVal.s "note"), ("title", JVal.s "\x7btopic\x7d")])]

def thinkspace_templates : List RawTemplate := [
  ("Create thinkspace for \x7btopic\x7d",
   [("action", JVal.s "create"), ("type", JVal.s "thinkspace"), ("title", JVal.s "\x7btopic\x7d")]),
  ("New thinkspace \x7btopic\x7d",
   [("action", JVal.s "create"), ("type", JVal.s "thinkspace"), ("title", JVal.s "\x7btopic\x7d")]),
  ("Add thinkspace about \x7btopic\x7d",
   [("action", JVal.s "create"), ("type", JVal.s "thinkspace"), ("title", JVal.s "\x7btopic\x7d")]),
  ("Create canvas for \x7btopic\x7d",
   [("action", JVal.s "create"), ("type", JVal.s "thinkspace"), ("title", JVal.s "\x7btopic\x7d")]),
  ("New canvas \x7btopic\x7d",
   [("action", JVal.s "create"), ("type", JVal.s "thinkspace"), ("title", JVal.s "\x7btopic\x7d")]),
  ("Start a thinkspace for \x7btopic\x7d",
   [("action", JVal.s "create"), ("type", JVal.s "thinkspace"), ("title", JVal.s "\x7btopic\x7d")]),
  ("Make a thinking space for \x7btopic\x7d",
   [("action", JVal.s "create"), ("type", JVal.s "thinkspace"), ("title", JVal.s "\x7btopic\x7d")])]

def connection_templates : List RawTemplate := [
  ("Create connection about \x7btopic\x7d",
   [("action", JVal.s "create"), ("type", JVal.s "connection"), ("title", JVal.s "\x7btopic\x7d")]),
  ("New connection \x7btopic\x7d",
   [("action", JVal.s "create"), ("type", JVal.s "connection"), ("title", JVal.s "\x7btopic\x7d")]),
  ("Add connection for \x7btopic\x7d",
   [("action", JVal.s "create"), ("type", JVal.s "connection"), ("title", JVal.s "\x7btopic\x7d")]),
  ("Mental model for \x7btopic\x7d",
   [("action", JVal.s "create"), ("type", JVal.s "connection"), ("title", JVal.s "\x7btopic\x7d")]),
  ("Create mental model about \x7btopic\x7d",
   [("action", JVal.s "create"), ("type", JVal.s "connection"), ("title", JVal.s "\x7btopic\x7d")]),
  ("Link \x7btopic\x7d",
   [("action", JVal.s "create"), ("type", JVal.s "connection"), ("title", JVal.s "\x7btopic\x7d")]),
  ("Connect \x7btopic\x7d",
   [("action", JVal.s "create"), ("type", JVal.s "connection"), ("title", JVal.s "\x7btopic\x7d")])]

def idea_priority_templates : List RawTemplate := [
  ("Create \x7bpriority\x7d priority idea about \x7btopic\x7d",
   [("action", JVal.s "create"), ("type", JVal.s "idea"), ("title", JVal.s "\x7btopic\x7d"), ("metadata", JVal.obj [("priority", JVal.s "\x7bpriority\x7d")])]),
  ("High priority idea about \x7btopic\x7d",
   [("action", JVal.s "create"), ("type", JVal.s "idea"), ("title", JVal.s "\x7btopic\x7d"), ("metadata", JVal.obj [("priority", JVal.s "high")])]),
  ("Important idea about \x7btopic\x7d",
   [("action", JVal.s "create"), ("type", JVal.s "idea"), ("title", JVal.s "\x7btopic\x7d"), ("metadata", JVal.obj [("priority", JVal.s "high")])])]

def task_priority_templates : List RawTemplate := [
  ("Urgent task \x7btask\x7d",
   [("action", JVal.s "create"), ("type", JVal.s "task"), ("title", JVal.s "\x7btask\x7d"), ("metadata", JVal.obj [("priority", JVal.s "high")])]),
  ("High priority \x7btask\x7d",
   [("action", JVal.s "create"), ("type", JVal.s "task"), ("title", JVal.s "\x7btask\x7d"), ("metadata", JVal.obj [("priority", JVal.s "high")])]),
  ("Low priority \x7btask\x7d",
   [("action", JVal.s "create"), ("type", JVal.s "task"), ("title", JVal.s "\x7btask\x7d"), ("metadata", JVal.obj [("priority", JVal.s "low")])]),
  ("Important \x7btask\x7d",
   [("action", JVal.s "create"), ("type", JVal.s "task"), ("title", JVal.s "\x7btask\x7d"), ("metadata", JVal.obj [("priority", JVal.s "high")])]),
  ("When I get to it \x7btask\x7d",
   [("action", JVal.s "create"), ("type", JVal.s "task"), ("title", JVal.s "\x7btask\x7d"), ("metadata", JVal.obj [("priority", JVal.s "low")])])]

end Simple

namespace Project

def idea_for_project_templates : List RawTemplate := [
  ("Idea for \x7bproject_ref\x7d \x7btopic\x7d",
   [("action", JVal.s "create"), ("type", JVal.s "idea"), ("title", JVal.s "\x7btopic\x7d"), ("links", JVal.arr [JVal.obj [("type", JVal.s "project"), ("query", JVal.s "\x7bproject_ref\x7d")]])]),
  ("Idea for \x7bproject_ref\x7d about \x7btopic\x7d",
   [("action", JVal.s "create"), ("type", JVal.s "idea"), ("title", JVal.s "\x7btopic\x7d"), ("links", JVal.arr [JVal.obj [("type", JVal.s "project"), ("query", JVal.s "\x7bproject_ref\x7d")]])]),
  ("Idea for \x7bproject_ref\x7d: \x7btopic\x7d",
   [("action", JVal.s "create"), ("type", JVal.s "idea"), ("title", JVal.s "\x7btopic\x7d"), ("links", JVal.arr [JVal.obj [("type", JVal.s "project"), ("query", JVal.s "\x7bproject_ref\x7d")]])]),
  ("New idea for \x7bproject_ref\x7d \x7btopic\x7d",
   [("action", JVal.s "create"), ("type", JVal.s "idea"), ("title", JVal.s "\x7btopic\x7d"), ("links", JVal.arr [JVal.obj [("type", JVal.s "project"), ("query", JVal.s "\x7bproject_ref\x7d")]])]),
  ("New idea for \x7bproject_ref\x7d about \x7btopic\x7d",
   [("action", JVal.s "create"), ("type", JVal.s "idea"), ("title", JVal.s "\x7btopic\x7d"), ("links", JVal.arr [JVal.obj [("type", JVal.s "project"), ("query", JVal.s "\x7bproject_ref\x7d")]])]),
  ("I just got this idea for \x7bproject_ref\x7d \x7btopic\x7d",
   [("action", JVal.s "create"), ("type", JVal.s "idea"), ("title", JVal.s "\x7btopic\x7d"), ("links", JVal.arr [JVal.obj [("type", JVal.s "project"), ("query", JVal.s "\x7bproject_ref\x7d")]])]),
  ("I just had this idea for \x7bproject_ref\x7d \x7btopic\x7d",
   [("action", JVal.s "create"), ("type", JVal.s "idea"), ("title", JVal.s "\x7btopic\x7d"), ("links", JVal.arr [JVal.obj [("type", JVal.s "project"), ("query", JVal.s "\x7bproject_ref\x7d")]])]),
  ("Just got an idea for \x7bproject_ref\x7d \x7btopic\x7d",
   [("action", JVal.s "create"), ("type", JVal.s "idea"), ("title", JVal.s "\x7btopic\x7d"), ("links", JVal.arr [JVal.obj [("type", JVal.s "project"), ("query", JVal.s "\x7bproject_ref\x7d")]])]),
  ("Just had a thought for \x7bproject_ref\x7d \x7btopic\x7d",
   [("action", JVal.s "create"), ("type", JVal.s "idea"), ("title", JVal.s "\x7btopic\x7d"), ("links", JVal.arr [JVal.obj [("type", JVal.s "project"), ("query", JVal.s "\x7bproject_ref\x7d")]])]),
  ("Thought for \x7bproject_ref\x7d \x7btopic\x7d",
   [("action", JVal.s "create"), ("type", JVal.s "idea"), ("title", JVal.s "\x7btopic\x7d"), ("links", JVal.arr [JVal.obj [("type", JVal.s "project"), ("query", JVal.s "\x7bproject_ref\x7d")]])]),
  ("Quick thought for \x7bproject_ref\x7d \x7btopic\x7d",
   [("action", JVal.s "create"), ("type", JVal.s "idea"), ("title", JVal.s "\x7btopic\x7d"), ("links", JVal.arr [JVal.obj [("type", JVal.s "project"), ("query", JVal.s "\x7bproject_ref\x7d")]])]),
  ("Note for \x7bproject_ref\x7d \x7btopic\x7d",
   [("action", JVal.s "create"), ("type", JVal.s "idea"), ("title", JVal.s "\x7btopic\x7d"), ("links", JVal.arr [JVal.obj [("type", JVal.s "project"), ("query", JVal.s "\x7bproject_ref\x7d")]])]),
  ("Add note for \x7bproject_ref\x7d \x7btopic\x7d",
   [("action", JVal.s "create"), ("type", JVal.s "idea"), ("title", JVal.s "\x7btopic\x7d"), ("links", JVal.arr [JVal.obj [("type", JVal.s "project"), ("query", JVal.s "\x7bproject_ref\x7d")]])]),
  ("Add to \x7bproject_ref\x7d \x7btopic\x7d",
   [("action", JVal.s "create"), ("type", JVal.s "idea"), ("title", JVal.s "\x7btopic\x7d"), ("links", JVal.arr [JVal.obj [("type", JVal.s "project"), ("query", JVal.s "\x7bproject_ref\x7d")]])]),
  ("Add to \x7bproject_ref\x7d inbox \x7btopic\x7d",
   [("action", JVal.s "create"), ("type", JVal.s "idea"), ("title", JVal.s "\x7btopic\x7d"), ("links", JVal.arr [JVal.obj [("type", JVal.s "project"), ("query", JVal.s "\x7bproject_ref\x7d")]])]),
  ("Put in \x7bproject_ref\x7d inbox \x7btopic\x7d",
   [("action", JVal.s "create"), ("type", JVal.s "idea"), ("title", JVal.s "\x7btopic\x7d"), ("links", JVal.arr [JVal.obj [("type", JVal.s "project"), ("query", JVal.s "\x7bproject_ref\x7d")]])]),
  ("For \x7bproject_ref\x7d \x7btopic\x7d",
   [("action", JVal.s "create"), ("type", JVal.s "idea"), ("title", JVal.s "\x7btopic\x7d"), ("links", JVal.arr [JVal.obj [("type", JVal.s "project"), ("query", JVal.s "\x7bproject_ref\x7d")]])]),
  ("For \x7bproject_ref\x7d idea about \x7btopic\x7d",
   [("action", JVal.s "create"), ("type", JVal.s "idea"), ("title", JVal.s "\x7btopic\x7d"), ("links", JVal.arr [JVal.obj [("type", JVal.s "project"), ("query", JVal.s "\x7bproject_ref\x7d")]])]),
  ("Idea for \x7bproject_ref\x7d project \x7btopic\x7d",
   [("action", JVal.s "create"), ("type", JVal.s "idea"), ("title", JVal.s "\x7btopic\x7d"), ("links", JVal.arr [JVal.obj [("type", JVal.s "project"), ("query", JVal.s "\x7bproject_ref\x7d")]])]),
  ("Add idea to \x7bproject_ref\x7d project \x7btopic\x7d",
   [("action", JVal.s "create"), ("type", JVal.s "idea"), ("title", JVal.s "\x7btopic\x7d"), ("links", JVal.arr [JVal.obj [("type", JVal.s "project"), ("query", JVal.s "\x7bproject_ref\x7d")]])]),
  ("Capture for \x7bproject_ref\x7d \x7btopic\x7d",
   [("action", JVal.s "create"), ("type", JVal.s "idea"), ("title", JVal.s "\x7btopic\x7d"), ("links", JVal.arr [JVal.obj [("type", JVal.s "project"), ("query", JVal.s "\x7bproject_ref\x7d")]])]),
  ("Save for \x7bproject_ref\x7d \x7btopic\x7d",
   [("action", JVal.s "create"), ("type", JVal.s "idea"), ("title", JVal.s "\x7btopic\x7d"), ("links", JVal.arr [JVal.obj [("type", JVal.s "project"), ("query", JVal.s "\x7bproject_ref\x7d")]])])]

def task_for_project_templates : List RawTemplate := [
  ("Task for \x7bproject_ref\x7d \x7btask\x7d",
   [("action", JVal.s "create"), ("type", JVal.s "task"), ("title", JVal.s "\x7btask\x7d"), ("links", JVal.arr [JVal.obj [("type", JVal.s "project"), ("query", JVal.s "\x7bproject_ref\x7d")]])]),
  ("New task for \x7bproject_ref\x7d \x7btask\x7d",
   [("action", JVal.s "create"), ("type", JVal.s "task"), ("title", JVal.s "\x7btask\x7d"), ("links", JVal.arr [JVal.obj [("type", JVal.s "project"), ("query", JVal.s "\x7bproject_ref\x7d")]])]),
  ("Add task for \x7bproject_ref\x7d \x7btask\x7d",
   [("action", JVal.s "create"), ("type", JVal.s "task"), ("title", JVal.s "\x7btask\x7d"), ("links", JVal.arr [JVal.obj [("type", JVal.s "project"), ("query", JVal.s "\x7bproject_ref\x7d")]])]),
  ("Add task to \x7bproject_ref\x7d \x7btask\x7d",
   [("action", JVal.s "create"), ("type", JVal.s "task"), ("title", JVal.s "\x7btask\x7d"), ("links", JVal.arr [JVal.obj [("type", JVal.s "project"), ("query", JVal.s "\x7bproject_ref\x7d")]])]),
  ("Create task in \x7bproject_ref\x7d \x7btask\x7d",
   [("action", JVal.s "create"), ("type", JVal.s "task"), ("title", JVal.s "\x7btask\x7d"), ("links", JVal.arr [JVal.obj [("type", JVal.s "project"), ("query", JVal.s "\x7bproject_ref\x7d")]])]),
  ("For \x7bproject_ref\x7d \x7btask\x7d",
   [("action", JVal.s "create"), ("type", JVal.s "task"), ("title", JVal.s "\x7btask\x7d"), ("links", JVal.arr [JVal.obj [("type", JVal.s "project"), ("query", JVal.s "\x7bproject_ref\x7d")]])]),
  ("For \x7bproject_ref\x7d task to \x7btask\x7d",
   [("action", JVal.s "create"), ("type", JVal.s "task"), ("title", JVal.s "\x7btask\x7d"), ("links", JVal.arr [JVal.obj [("type", JVal.s "project"), ("query", JVal.s "\x7bproject_ref\x7d")]])]),
  ("I need to \x7btask\x7d for \x7bproject_ref\x7d",
   [("action", JVal.s "create"), ("type", JVal.s "task"), ("title", JVal.s "\x7btask\x7d"), ("links", JVal.arr [JVal.obj [("type", JVal.s "project"), ("query", JVal.s "\x7bproject_ref\x7d")]])]),
  ("Need to \x7btask\x7d for \x7bproject_ref\x7d",
   [("action", JVal.s "create"), ("type", JVal.s "task"), ("title", JVal.s "\x7btask\x7d"), ("links", JVal.arr [JVal.obj [("type", JVal.s "project"), ("query", JVal.s "\x7bproject_ref\x7d")]])]),
  ("Remind me for \x7bproject_ref\x7d to \x7btask\x7d",
   [("action", JVal.s "create"), ("type", JVal.s "task"), ("title", JVal.s "\x7btask\x7d"), ("links", JVal.arr [JVal.obj [("type", JVal.s "project"), ("query", JVal.s "\x7bproject_ref\x7d")]])]),
  ("Task for \x7bproject_ref\x7d project \x7btask\x7d",
   [("action", JVal.s "create"), ("type", JVal.s "task"), ("title", JVal.s "\x7btask\x7d"), ("links", JVal.arr [JVal.obj [("type", JVal.s "project"), ("query", JVal.s "\x7bproject_ref\x7d")]])]),
  ("\x7btask\x7d for \x7bproject_ref\x7d project",
   [("action", JVal.s "create"), ("type", JVal.s "task"), ("title", JVal.s "\x7btask\x7d"), ("links", JVal.arr [JVal.obj [("type", JVal.s "project"), ("query", JVal.s "\x7bproject_ref\x7d")]])]),
  ("Todo for \x7bproject_ref\x7d \x7btask\x7d",
   [("action", JVal.s "create"), ("type", JVal.s "task"), ("title", JVal.s "\x7btask\x7d"), ("links", JVal.arr [JVal.obj [("type", JVal.s "project"), ("query", JVal.s "\x7bproject_ref\x7d")]])]),
  ("To do for \x7bproject_ref\x7d \x7btask\x7d",
   [("action", JVal.s "create"), ("type", JVal.s "task"), ("title", JVal.s "\x7btask\x7d"), ("links", JVal.arr [JVal.obj [("type", JVal.s "project"), ("query", JVal.s "\x7bproject_ref\x7d")]])])]

def research_for_project_templates : List RawTemplate := [
  ("Research for \x7bproject_ref\x7d \x7btopic\x7d",
   [("action", JVal.s "create"), ("type", JVal.s "research"), ("title", JVal.s "\x7btopic\x7d"), ("links", JVal.arr [JVal.obj [("type", JVal.s "project"), ("query", JVal.s "\x7bproject_ref\x7d")]])]),
  ("Add research for \x7bproject_ref\x7d about \x7btopic\x7d",
   [("action", JVal.s "create"), ("type", JVal.s "research"), ("title", JVal.s "\x7btopic\x7d"), ("links", JVal.arr [JVal.obj [("type", JVal.s "project"), ("query", JVal.s "\x7bproject_ref\x7d")]])]),
  ("Save for \x7bproject_ref\x7d research \x7btopic\x7d",
   [("action", JVal.s "create"), ("type", JVal.s "research"), ("title", JVal.s "\x7btopic\x7d"), ("links", JVal.arr [JVal.obj [("type", JVal.s "project"), ("query", JVal.s "\x7bproject_ref\x7d")]])])]

def ending_with_for_templates : List RawTemplate := [
  ("\x7btopic\x7d idea for \x7bproject_ref\x7d",
   [("action", JVal.s "create"), ("type", JVal.s "idea"), ("title", JVal.s "\x7btopic\x7d"), ("links", JVal.arr [JVal.obj [("type", JVal.s "project"), ("query", JVal.s "\x7bproject_ref\x7d")]])]),
  ("Idea about \x7btopic\x7d for \x7bproject_ref\x7d",
   [("action", JVal.s "create"), ("type", JVal.s "idea"), ("title", JVal.s "\x7btopic\x7d"), ("links", JVal.arr [JVal.obj [("type", JVal.s "project"), ("query", JVal.s "\x7bproject_ref\x7d")]])]),
  ("New idea about \x7btopic\x7d for \x7bproject_ref\x7d",
   [("action", JVal.s "create"), ("type", JVal.s "idea"), ("title", JVal.s "\x7btopic\x7d"), ("links", JVal.arr [JVal.obj [("type", JVal.s "project"), ("query", JVal.s "\x7bproject_ref\x7d")]])]),
  ("Thought about \x7btopic\x7d for \x7bproject_ref\x7d",
   [("action", JVal.s "create"), ("type", JVal.s "idea"), ("title", JVal.s "\x7btopic\x7d"), ("links", JVal.arr [JVal.obj [("type", JVal.s "project"), ("query", JVal.s "\x7bproject_ref\x7d")]])]),
  ("\x7btask\x7d for \x7bproject_ref\x7d",
   [("action", JVal.s "create"), ("type", JVal.s "task"), ("title", JVal.s "\x7btask\x7d"), ("links", JVal.arr [JVal.obj [("type", JVal.s "project"), ("query", JVal.s "\x7bproject_ref\x7d")]])]),
  ("Task \x7btask\x7d for \x7bproject_ref\x7d",
   [("action", JVal.s "create"), ("type", JVal.s "task"), ("title", JVal.s "\x7btask\x7d"), ("links", JVal.arr [JVal.obj [("type", JVal.s "project"), ("query", JVal.s "\x7bproject_ref\x7d")]])])]

end Project

namespace Timed

def timed_task_templates : List RawTemplate := [
  ("Task \x7btask\x7d at \x7btime\x7d",
   [("action", JVal.s "create"), ("type", JVal.s "task"), ("title", JVal.s "\x7btask\x7d"), ("metadata", JVal.obj [("startTime", JVal.s "\x7btime\x7d")])]),
  ("\x7btask\x7d at \x7btime\x7d",
   [("action", JVal.s "create"), ("type", JVal.s "task"), ("title", JVal.s "\x7btask\x7d"), ("metadata", JVal.obj [("startTime", JVal.s "\x7btime\x7d")])]),
  ("Remind me to \x7btask\x7d at \x7btime\x7d",
   [("action", JVal.s "create"), ("type", JVal.s "task"), ("title", JVal.s "\x7btask\x7d"), ("metadata", JVal.obj [("startTime", JVal.s "\x7btime\x7d")])]),
  ("Schedule \x7btask\x7d for \x7btime\x7d",
   [("action", JVal.s "create"), ("type", JVal.s "task"), ("title", JVal.s "\x7btask\x7d"), ("metadata", JVal.obj [("startTime", JVal.s "\x7btime\x7d")])]),
  ("\x7btask\x7d scheduled for \x7btime\x7d",
   [("action", JVal.s "create"), ("type", JVal.s "task"), ("title", JVal.s "\x7btask\x7d"), ("metadata", JVal.obj [("startTime", JVal.s "\x7btime\x7d")])]),
  ("Put \x7btask\x7d at \x7btime\x7d",
   [("action", JVal.s "create"), ("type", JVal.s "task"), ("title", JVal.s "\x7btask\x7d"), ("metadata", JVal.obj [("startTime", JVal.s "\x7btime\x7d")])])]

def relative_task_templates : List RawTemplate := [
  ("\x7btask\x7d \x7brelative_time\x7d",
   [("action", JVal.s "create"), ("type", JVal.s "task"), ("title", JVal.s "\x7btask\x7d"), ("metadata", JVal.obj [("startTime", JVal.s "\x7brelative_time\x7d")])]),
  ("Remind me \x7brelative_time\x7d to \x7btask\x7d",
   [("action", JVal.s "create"), ("type", JVal.s "task"), ("title", JVal.s "\x7btask\x7d"), ("metadata", JVal.obj [("startTime", JVal.s "\x7brelative_time\x7d")])]),
  ("Schedule \x7btask\x7d for \x7brelative_time\x7d",
   [("action", JVal.s "create"), ("type", JVal.s "task"), ("title", JVal.s "\x7btask\x7d"), ("metadata", JVal.obj [("startTime", JVal.s "\x7brelative_time\x7d")])]),
  ("\x7brelative_time\x7d \x7btask\x7d",
   [("action", JVal.s "create"), ("type", JVal.s "task"), ("title", JVal.s "\x7btask\x7d"), ("metadata", JVal.obj [("startTime", JVal.s "\x7brelative_time\x7d")])])]

def block_range_templates : List RawTemplate := [
  ("Block \x7bstart_time\x7d to \x7bend_time\x7d for \x7bblock_name\x7d",
   [("action", JVal.s "create"), ("type", JVal.s "schedule_block"), ("title", JVal.s "\x7bblock_name\x7d"), ("metadata", JVal.obj [("startTime", JVal.s "\x7bstart_time\x7d"), ("endTime", JVal.s "\x7bend_time\x7d"), ("blockType", JVal.s "focus")])]),
  ("Deep work from \x7bstart_time\x7d to \x7bend_time\x7d",
   [("action", JVal.s "create"), ("type", JVal.s "schedule_block"), ("title", JVal.s "Deep work"), ("metadata", JVal.obj [("startTime", JVal.s "\x7bstart_time\x7d"), ("endTime", JVal.s "\x7bend_time\x7d"), ("blockType", JVal.s "focus")])]),
  ("Focus time \x7bstart_time\x7d to \x7bend_time\x7d",
   [("action", JVal.s "create"), ("type", JVal.s "schedule_block"), ("title", JVal.s "Focus time"), ("metadata", JVal.obj [("startTime", JVal.s "\x7bstart_time\x7d"), ("endTime", JVal.s "\x7bend_time\x7d"), ("blockType", JVal.s "focus")])]),
  ("Meeting from \x7bstart_time\x7d to \x7bend_time\x7d \x7bblock_name\x7d",
   [("action", JVal.s "create"), ("type", JVal.s "schedule_block"), ("title", JVal.s "\x7bblock_name\x7d"), ("metadata", JVal.obj [("startTime", JVal.s "\x7bstart_time\x7d"), ("endTime", JVal.s "\x7bend_time\x7d"), ("blockType", JVal.s "event")])]),
  ("\x7bblock_name\x7d from \x7bstart_time\x7d to \x7bend_time\x7d",
   [("action", JVal.s "create"), ("type", JVal.s "schedule_block"), ("title", JVal.s "\x7bblock_name\x7d"), ("metadata", JVal.obj [("startTime", JVal.s "\x7bstart_time\x7d"), ("endTime", JVal.s "\x7bend_time\x7d"), ("blockType", JVal.s "task")])])]

def block_duration_templates : List RawTemplate := [
  ("Block \x7bduration\x7d for \x7bblock_name\x7d at \x7btime\x7d",
   [("action", JVal.s "create"), ("type", JVal.s "schedule_block"), ("title", JVal.s "\x7bblock_name\x7d"), ("metadata", JVal.obj [("startTime", JVal.s "\x7btime\x7d"), ("duration", JVal.s "\x7bduration\x7d"), ("blockType", JVal.s "task")])]),
  ("\x7bduration\x7d of \x7bblock_name\x7d at \x7btime\x7d",
   [("action", JVal.s "create"), ("type", JVal.s "schedule_block"), ("title", JVal.s "\x7bblock_name\x7d"), ("metadata", JVal.obj [("startTime", JVal.s "\x7btime\x7d"), ("duration", JVal.s "\x7bduration\x7d"), ("blockType", JVal.s "task")])]),
  ("Schedule \x7bduration\x7d for \x7bblock_name\x7d",
   [("action", JVal.s "create"), ("type", JVal.s "schedule_block"), ("title", JVal.s "\x7bblock_name\x7d"), ("metadata", JVal.obj [("duration", JVal.s "\x7bduration\x7d"), ("blockType", JVal.s "task")])])]

def meeting_templates : List RawTemplate := [
  ("Meeting with \x7bperson\x7d at \x7btime\x7d",
   [("action", JVal.s "create"), ("type", JVal.s "schedule_block"), ("title", JVal.s "Meeting with \x7bperson\x7d"), ("metadata", JVal.obj [("startTime", JVal.s "\x7btime\x7d"), ("blockType", JVal.s "event")])]),
  ("Call with \x7bperson\x7d at \x7btime\x7d",
   [("action", JVal.s "create"), ("type", JVal.s "schedule_block"), ("title", JVal.s "Call with \x7bperson\x7d"), ("metadata", JVal.obj [("startTime", JVal.s "\x7btime\x7d"), ("blockType", JVal.s "event")])]),
  ("1:1 with \x7bperson\x7d at \x7btime\x7d",
   [("action", JVal.s "create"), ("type", JVal.s "schedule_block"), ("title", JVal.s "1:1 with \x7bperson\x7d"), ("metadata", JVal.obj [("startTime", JVal.s "\x7btime\x7d"), ("blockType", JVal.s "event")])]),
  ("Sync with \x7bperson\x7d \x7brelative_time\x7d",
   [("action", JVal.s "create"), ("type", JVal.s "schedule_block"), ("title", JVal.s "Sync with \x7bperson\x7d"), ("metadata", JVal.obj [("startTime", JVal.s "\x7brelative_time\x7d"), ("blockType", JVal.s "event")])])]

def timed_task_project_templates : List RawTemplate := [
  ("Task for \x7bproject_ref\x7d \x7btask\x7d at \x7btime\x7d",
   [("action", JVal.s "create"), ("type", JVal.s "task"), ("title", JVal.s "\x7btask\x7d"), ("metadata", JVal.obj [("startTime", JVal.s "\x7btime\x7d")]), ("links", JVal.arr [JVal.obj [("type", JVal.s "project"), ("query", JVal.s "\x7bproject_ref\x7d")]])]),
  ("\x7btask\x7d for \x7bproject_ref\x7d at \x7btime\x7d",
   [("action", JVal.s "create"), ("type", JVal.s "task"), ("title", JVal.s "\x7btask\x7d"), ("metadata", JVal.obj [("startTime", JVal.s "\x7btime\x7d")]), ("links", JVal.arr [JVal.obj [("type", JVal.s "project"), ("query", JVal.s "\x7bproject_ref\x7d")]])]),
  ("Remind me for \x7bproject_ref\x7d to \x7btask\x7d at \x7btime\x7d",
   [("action", JVal.s "create"), ("type", JVal.s "task"), ("title", JVal.s "\x7btask\x7d"), ("metadata", JVal.obj [("startTime", JVal.s "\x7btime\x7d")]), ("links", JVal.arr [JVal.obj [("type", JVal.s "project"), ("query", JVal.s "\x7bproject_ref\x7d")]])])]

def people : List String := [
  "John",
  "Sarah",
  "Alex",
  "Mike",
  "Lisa",
  "David",
  "Emily",
  "Chris",
  "Rachel",
  "Tom",
  "the team",
  "marketing",
  "design",
  "engineering",
  "product"]

def block_names : List String := [
  "deep work",
  "focused coding",
  "writing time",
  "review session",
  "planning",
  "research",
  "reading",
  "admin tasks",
  "emails",
  "brainstorming"]

end Timed

namespace Modification

def status_templates : List RawTemplate := [
  ("Mark as complete",
   [("action", JVal.s "update"), ("target", JVal.s "context"), ("metadata", JVal.obj [("status", JVal.s "completed")])]),
  ("Done",
   [("action", JVal.s "update"), ("target", JVal.s "context"), ("metadata", JVal.obj [("status", JVal.s "completed")])]),
  ("Complete",
   [("action", JVal.s "update"), ("target", JVal.s "context"), ("metadata", JVal.obj [("status", JVal.s "completed")])]),
  ("Finish this",
   [("action", JVal.s "update"), ("target", JVal.s "context"), ("metadata", JVal.obj [("status", JVal.s "completed")])]),
  ("Check this off",
   [("action", JVal.s "update"), ("target", JVal.s "context"), ("metadata", JVal.obj [("status", JVal.s "completed")])]),
  ("I finished this",
   [("action", JVal.s "update"), ("target", JVal.s "context"), ("metadata", JVal.obj [("status", JVal.s "completed")])]),
  ("That\x27s done",
   [("action", JVal.s "update"), ("target", JVal.s "context"), ("metadata", JVal.obj [("status", JVal.s "completed")])]),
  ("Mark in progress",
   [("action", JVal.s "update"), ("target", JVal.s "context"), ("metadata", JVal.obj [("status", JVal.s "in_progress")])]),
  ("Start working on this",
   [("action", JVal.s "update"), ("target", JVal.s "context"), ("metadata", JVal.obj [("status", JVal.s "in_progress")])]),
  ("Working on it",
   [("action", JVal.s "update"), ("target", JVal.s "context"), ("metadata", JVal.obj [("status", JVal.s "in_progress")])]),
  ("Reopen this",
   [("action", JVal.s "update"), ("target", JVal.s "context"), ("metadata", JVal.obj [("status", JVal.s "todo")])]),
  ("Not done yet",
   [("action", JVal.s "update"), ("target", JVal.s "context"), ("metadata", JVal.obj [("status", JVal.s "todo")])]),
  ("Undo complete",
   [("action", JVal.s "update"), ("target", JVal.s "context"), ("metadata", JVal.obj [("status", JVal.s "todo")])])]

def time_templates : List RawTemplate := [
  ("Move to \x7btime\x7d",
   [("action", JVal.s "update"), ("target", JVal.s "context"), ("metadata", JVal.obj [("startTime", JVal.s "\x7btime\x7d")])]),
  ("Reschedule to \x7btime\x7d",
   [("action", JVal.s "update"), ("target", JVal.s "context"), ("metadata", JVal.obj [("startTime", JVal.s "\x7btime\x7d")])]),
  ("Push to \x7btime\x7d",
   [("action", JVal.s "update"), ("target", JVal.s "context"), ("metadata", JVal.obj [("startTime", JVal.s "\x7btime\x7d")])]),
  ("Change time to \x7btime\x7d",
   [("action", JVal.s "update"), ("target", JVal.s "context"), ("metadata", JVal.obj [("startTime", JVal.s "\x7btime\x7d")])]),
  ("Move this to \x7brelative_time\x7d",
   [("action", JVal.s "update"), ("target", JVal.s "context"), ("metadata", JVal.obj [("startTime", JVal.s "\x7brelative_time\x7d")])]),
  ("Delay to \x7brelative_time\x7d",
   [("action", JVal.s "update"), ("target", JVal.s "context"), ("metadata", JVal.obj [("startTime", JVal.s "\x7brelative_time\x7d")])]),
  ("Extend to \x7btime\x7d",
   [("action", JVal.s "update"), ("target", JVal.s "context"), ("metadata", JVal.obj [("endTime", JVal.s "\x7btime\x7d")])]),
  ("End at \x7btime\x7d",
   [("action", JVal.s "update"), ("target", JVal.s "context"), ("metadata", JVal.obj [("endTime", JVal.s "\x7btime\x7d")])]),
  ("Make it end at \x7btime\x7d",
   [("action", JVal.s "update"), ("target", JVal.s "context"), ("metadata", JVal.obj [("endTime", JVal.s "\x7btime\x7d")])])]

def priority_templates : List RawTemplate := [
  ("Make this high priority",
   [("action", JVal.s "update"), ("target", JVal.s "context"), ("metadata", JVal.obj [("priority", JVal.s "high")])]),
  ("High priority",
   [("action", JVal.s "update"), ("target", JVal.s "context"), ("metadata", JVal.obj [("priority", JVal.s "high")])]),
  ("This is urgent",
   [("action", JVal.s "update"), ("target", JVal.s "context"), ("metadata", JVal.obj [("priority", JVal.s "high")])]),
  ("Important",
   [("action", JVal.s "update"), ("target", JVal.s "context"), ("metadata", JVal.obj [("priority", JVal.s "high")])]),
  ("Lower the priority",
   [("action", JVal.s "update"), ("target", JVal.s "context"), ("metadata", JVal.obj [("priority", JVal.s "low")])]),
  ("Low priority",
   [("action", JVal.s "update"), ("target", JVal.s "context"), ("metadata", JVal.obj [("priority", JVal.s "low")])]),
  ("Not that important",
   [("action", JVal.s "update"), ("target", JVal.s "context"), ("metadata", JVal.obj [("priority", JVal.s "low")])]),
  ("Normal priority",
   [("action", JVal.s "update"), ("target", JVal.s "context"), ("metadata", JVal.obj [("priority", JVal.s "medium")])]),
  ("Medium priority",
   [("action", JVal.s "update"), ("target", JVal.s "context"), ("metadata", JVal.obj [("priority", JVal.s "medium")])])]

def project_templates : List RawTemplate := [
  ("Add to \x7bproject\x7d project",
   [("action", JVal.s "update"), ("target", JVal.s "context"), ("links", JVal.arr [JVal.obj [("type", JVal.s "project"), ("query", JVal.s "\x7bproject\x7d")]])]),
  ("Move to \x7bproject\x7d",
   [("action", JVal.s "update"), ("target", JVal.s "context"), ("links", JVal.arr [JVal.obj [("type", JVal.s "project"), ("query", JVal.s "\x7bproject\x7d")]])]),
  ("Put this in \x7bproject\x7d",
   [("action", JVal.s "update"), ("target", JVal.s "context"), ("links", JVal.arr [JVal.obj [("type", JVal.s "project"), ("query", JVal.s "\x7bproject\x7d")]])]),
  ("Assign to \x7bproject\x7d",
   [("action", JVal.s "update"), ("target", JVal.s "context"), ("links", JVal.arr [JVal.obj [("type", JVal.s "project"), ("query", JVal.s "\x7bproject\x7d")]])]),
  ("This belongs in \x7bproject\x7d",
   [("action", JVal.s "update"), ("target", JVal.s "context"), ("links", JVal.arr [JVal.obj [("type", JVal.s "project"), ("query", JVal.s "\x7bproject\x7d")]])]),
  ("Add to \x7bperson_name\x7d",
   [("action", JVal.s "update"), ("target", JVal.s "context"), ("links", JVal.arr [JVal.obj [("type", JVal.s "project"), ("query", JVal.s "\x7bperson_name\x7d")]])]),
  ("Move to \x7bperson_name\x7d",
   [("action", JVal.s "update"), ("target", JVal.s "context"), ("links", JVal.arr [JVal.obj [("type", JVal.s "project"), ("query", JVal.s "\x7bperson_name\x7d")]])]),
  ("Put in \x7bperson_name\x7d inbox",
   [("action", JVal.s "update"), ("target", JVal.s "context"), ("links", JVal.arr [JVal.obj [("type", JVal.s "project"), ("query", JVal.s "\x7bperson_name\x7d")]])]),
  ("Send to \x7bperson_name\x7d",
   [("action", JVal.s "update"), ("target", JVal.s "context"), ("links", JVal.arr [JVal.obj [("type", JVal.s "project"), ("query", JVal.s "\x7bperson_name\x7d")]])])]

def content_templates : List RawTemplate := [
  ("Rename to \x7btask\x7d",
   [("action", JVal.s "update"), ("target", JVal.s "context"), ("title", JVal.s "\x7btask\x7d")]),
  ("Change title to \x7btask\x7d",
   [("action", JVal.s "update"), ("target", JVal.s "context"), ("title", JVal.s "\x7btask\x7d")]),
  ("Call it \x7btask\x7d instead",
   [("action", JVal.s "update"), ("target", JVal.s "context"), ("title", JVal.s "\x7btask\x7d")]),
  ("Actually make it \x7btask\x7d",
   [("action", JVal.s "update"), ("target", JVal.s "context"), ("title", JVal.s "\x7btask\x7d")])]

def delete_templates : List RawTemplate := [
  ("Delete this",
   [("action", JVal.s "delete"), ("target", JVal.s "context")]),
  ("Remove this",
   [("action", JVal.s "delete"), ("target", JVal.s "context")]),
  ("Delete that",
   [("action", JVal.s "delete"), ("target", JVal.s "context")]),
  ("Get rid of this",
   [("action", JVal.s "delete"), ("target", JVal.s "context")]),
  ("Remove it",
   [("action", JVal.s "delete"), ("target", JVal.s "context")]),
  ("Cancel this",
   [("action", JVal.s "delete"), ("target", JVal.s "context")]),
  ("Never mind",
   [("action", JVal.s "delete"), ("target", JVal.s "context")])]

end Modification

namespace Search

def type_search_templates : List RawTemplate := [
  ("Find ideas about \x7bquery\x7d",
   [("action", JVal.s "search"), ("type", JVal.s "idea"), ("query", JVal.s "\x7bquery\x7d")]),
  ("Show ideas about \x7bquery\x7d",
   [("action", JVal.s "search"), ("type", JVal.s "idea"), ("query", JVal.s "\x7bquery\x7d")]),
  ("Search ideas for \x7bquery\x7d",
   [("action", JVal.s "search"), ("type", JVal.s "idea"), ("query", JVal.s "\x7bquery\x7d")]),
  ("What ideas do I have about \x7bquery\x7d",
   [("action", JVal.s "search"), ("type", JVal.s "idea"), ("query", JVal.s "\x7bquery\x7d")]),
  ("Find tasks about \x7bquery\x7d",
   [("action", JVal.s "search"), ("type", JVal.s "task"), ("query", JVal.s "\x7bquery\x7d")]),
  ("Show tasks for \x7bquery\x7d",
   [("action", JVal.s "search"), ("type", JVal.s "task"), ("query", JVal.s "\x7bquery\x7d")]),
  ("What tasks are related to \x7bquery\x7d",
   [("action", JVal.s "search"), ("type", JVal.s "task"), ("query", JVal.s "\x7bquery\x7d")]),
  ("Find research on \x7bquery\x7d",
   [("action", JVal.s "search"), ("type", JVal.s "research"), ("query", JVal.s "\x7bquery\x7d")]),
  ("Show me research about \x7bquery\x7d",
   [("action", JVal.s "search"), ("type", JVal.s "research"), ("query", JVal.s "\x7bquery\x7d")]),
  ("What research do I have on \x7bquery\x7d",
   [("action", JVal.s "search"), ("type", JVal.s "research"), ("query", JVal.s "\x7bquery\x7d")]),
  ("Find notes about \x7bquery\x7d",
   [("action", JVal.s "search"), ("type", JVal.s "note"), ("query", JVal.s "\x7bquery\x7d")]),
  ("Show notes about \x7bquery\x7d",
   [("action", JVal.s "search"), ("type", JVal.s "note"), ("query", JVal.s "\x7bquery\x7d")]),
  ("Search notes for \x7bquery\x7d",
   [("action", JVal.s "search"), ("type", JVal.s "note"), ("query", JVal.s "\x7bquery\x7d")]),
  ("What notes do I have about \x7bquery\x7d",
   [("action", JVal.s "search"), ("type", JVal.s "note"), ("query", JVal.s "\x7bquery\x7d")]),
  ("Find thinkspaces about \x7bquery\x7d",
   [("action", JVal.s "search"), ("type", JVal.s "thinkspace"), ("query", JVal.s "\x7bquery\x7d")]),
  ("Show thinkspaces for \x7bquery\x7d",
   [("action", JVal.s "search"), ("type", JVal.s "thinkspace"), ("query", JVal.s "\x7bquery\x7d")]),
  ("What canvases do I have about \x7bquery\x7d",
   [("action", JVal.s "search"), ("type", JVal.s "thinkspace"), ("query", JVal.s "\x7bquery\x7d")]),
  ("Find connections about \x7bquery\x7d",
   [("action", JVal.s "search"), ("type", JVal.s "connection"), ("query", JVal.s "\x7bquery\x7d")]),
  ("Show connections for \x7bquery\x7d",
   [("action", JVal.s "search"), ("type", JVal.s "connection"), ("query", JVal.s "\x7bquery\x7d")]),
  ("What mental models do I have about \x7bquery\x7d",
   [("action", JVal.s "search"), ("type", JVal.s "connection"), ("query", JVal.s "\x7bquery\x7d")])]

def general_search_templates : List RawTemplate := [
  ("Search for \x7bquery\x7d",
   [("action", JVal.s "search"), ("query", JVal.s "\x7bquery\x7d")]),
  ("Find \x7bquery\x7d",
   [("action", JVal.s "search"), ("query", JVal.s "\x7bquery\x7d")]),
  ("Look for \x7bquery\x7d",
   [("action", JVal.s "search"), ("query", JVal.s "\x7bquery\x7d")]),
  ("What do I have about \x7bquery\x7d",
   [("action", JVal.s "search"), ("query", JVal.s "\x7bquery\x7d")]),
  ("Search \x7bquery\x7d",
   [("action", JVal.s "search"), ("query", JVal.s "\x7bquery\x7d")]),
  ("Find anything about \x7bquery\x7d",
   [("action", JVal.s "search"), ("query", JVal.s "\x7bquery\x7d")])]

def time_search_templates : List RawTemplate := [
  ("What tasks are due today",
   [("action", JVal.s "search"), ("type", JVal.s "task"), ("filter", JVal.obj [("dueDate", JVal.s "today")])]),
  ("Show me today\x27s tasks",
   [("action", JVal.s "search"), ("type", JVal.s "task"), ("filter", JVal.obj [("dueDate", JVal.s "today")])]),
  ("What\x27s due this week",
   [("action", JVal.s "search"), ("type", JVal.s "task"), ("filter", JVal.obj [("dueDate", JVal.s "this week")])]),
  ("Tasks for tomorrow",
   [("action", JVal.s "search"), ("type", JVal.s "task"), ("filter", JVal.obj [("dueDate", JVal.s "tomorrow")])]),
  ("What do I have scheduled today",
   [("action", JVal.s "search"), ("type", JVal.s "schedule_block"), ("filter", JVal.obj [("date", JVal.s "today")])]),
  ("Show my schedule for tomorrow",
   [("action", JVal.s "search"), ("type", JVal.s "schedule_block"), ("filter", JVal.obj [("date", JVal.s "tomorrow")])])]

def status_search_templates : List RawTemplate := [
  ("Show completed tasks",
   [("action", JVal.s "search"), ("type", JVal.s "task"), ("filter", JVal.obj [("status", JVal.s "completed")])]),
  ("What have I finished",
   [("action", JVal.s "search"), ("type", JVal.s "task"), ("filter", JVal.obj [("status", JVal.s "completed")])]),
  ("Show open tasks",
   [("action", JVal.s "search"), ("type", JVal.s "task"), ("filter", JVal.obj [("status", JVal.s "todo")])]),
  ("What\x27s left to do",
   [("action", JVal.s "search"), ("type", JVal.s "task"), ("filter", JVal.obj [("status", JVal.s "todo")])]),
  ("Tasks in progress",
   [("action", JVal.s "search"), ("type", JVal.s "task"), ("filter", JVal.obj [("status", JVal.s "in_progress")])]),
  ("What am I working on",
   [("action", JVal.s "search"), ("type", JVal.s "task"), ("filter", JVal.obj [("status", JVal.s "in_progress")])])]

def project_search_templates : List RawTemplate := [
  ("Show tasks in \x7bproject\x7d",
   [("action", JVal.s "search"), ("type", JVal.s "task"), ("filter", JVal.obj [("project", JVal.s "\x7bproject\x7d")])]),
  ("What\x27s in \x7bproject\x7d project",
   [("action", JVal.s "search"), ("filter", JVal.obj [("project", JVal.s "\x7bproject\x7d")])]),
  ("Ideas for \x7bproject\x7d",
   [("action", JVal.s "search"), ("type", JVal.s "idea"), ("filter", JVal.obj [("project", JVal.s "\x7bproject\x7d")])]),
  ("Everything in \x7bproject\x7d",
   [("action", JVal.s "search"), ("filter", JVal.obj [("project", JVal.s "\x7bproject\x7d")])]),
  ("Show ideas for \x7bperson_name\x7d",
   [("action", JVal.s "search"), ("type", JVal.s "idea"), ("filter", JVal.obj [("project", JVal.s "\x7bperson_name\x7d")])]),
  ("What\x27s in \x7bperson_name\x7d",
   [("action", JVal.s "search"), ("filter", JVal.obj [("project", JVal.s "\x7bperson_name\x7d")])]),
  ("Tasks for \x7bperson_name\x7d",
   [("action", JVal.s "search"), ("type", JVal.s "task"), ("filter", JVal.obj [("project", JVal.s "\x7bperson_name\x7d")])]),
  ("\x7bperson_name\x7d inbox",
   [("action", JVal.s "search"), ("filter", JVal.obj [("project", JVal.s "\x7bperson_name\x7d")])]),
  ("Show \x7bperson_name\x7d project",
   [("action", JVal.s "search"), ("filter", JVal.obj [("project", JVal.s "\x7bperson_name\x7d")])])]

def semantic_templates : List RawTemplate := [
  ("What\x27s relevant to this",
   [("action", JVal.s "search"), ("target", JVal.s "context"), ("mode", JVal.s "semantic")]),
  ("Find related items",
   [("action", JVal.s "search"), ("target", JVal.s "context"), ("mode", JVal.s "semantic")]),
  ("Show similar things",
   [("action", JVal.s "search"), ("target", JVal.s "context"), ("mode", JVal.s "semantic")]),
  ("What connects to this",
   [("action", JVal.s "search"), ("target", JVal.s "context"), ("mode", JVal.s "semantic")])]

def navigation_templates : List RawTemplate := [
  ("Open projects",
   [("action", JVal.s "navigate"), ("destination", JVal.s "projects")]),
  ("Go to ideas",
   [("action", JVal.s "navigate"), ("destination", JVal.s "ideas")]),
  ("Show me tasks",
   [("action", JVal.s "navigate"), ("destination", JVal.s "tasks")]),
  ("Open today",
   [("action", JVal.s "navigate"), ("destination", JVal.s "today")]),
  ("Go to schedule",
   [("action", JVal.s "navigate"), ("destination", JVal.s "schedule")]),
  ("Show research",
   [("action", JVal.s "navigate"), ("destination", JVal.s "research")]),
  ("Open settings",
   [("action", JVal.s "navigate"), ("destination", JVal.s "settings")]),
  ("Go home",
   [("action", JVal.s "navigate"), ("destination", JVal.s "home")]),
  ("Open plannerum",
   [("action", JVal.s "navigate"), ("destination", JVal.s "plannerum")]),
  ("Go to planner",
   [("action", JVal.s "navigate"), ("destination", JVal.s "plannerum")]),
  ("Show planner",
   [("action", JVal.s "navigate"), ("destination", JVal.s "plannerum")]),
  ("Open thinkspace",
   [("action", JVal.s "navigate"), ("destination", JVal.s "thinkspace")]),
  ("Go to canvas",
   [("action", JVal.s "navigate"), ("destination", JVal.s "thinkspace")]),
  ("Show canvas",
   [("action", JVal.s "navigate"), ("destination", JVal.s "thinkspace")]),
  ("Open inbox",
   [("action", JVal.s "navigate"), ("destination", JVal.s "inbox")]),
  ("Go to inbox",
   [("action", JVal.s "navigate"), ("destination", JVal.s "inbox")]),
  ("Open notes",
   [("action", JVal.s "navigate"), ("destination", JVal.s "notes")]),
  ("Go to notes",
   [("action", JVal.s "navigate"), ("destination", JVal.s "notes")])]

end Search

namespace Batch

def two_item_templates : List RawTemplate := [
  ("I need to \x7btask1\x7d and \x7btask2\x7d",
   [("action", JVal.s "batch"), ("items", JVal.arr [JVal.obj [("type", JVal.s "task"), ("title", JVal.s "\x7btask1\x7d")], JVal.obj [("type", JVal.s "task"), ("title", JVal.s "\x7btask2\x7d")]])]),
  ("\x7btask1\x7d and \x7btask2\x7d",
   [("action", JVal.s "batch"), ("items", JVal.arr [JVal.obj [("type", JVal.s "task"), ("title", JVal.s "\x7btask1\x7d")], JVal.obj [("type", JVal.s "task"), ("title", JVal.s "\x7btask2\x7d")]])]),
  ("Create tasks \x7btask1\x7d and \x7btask2\x7d",
   [("action", JVal.s "batch"), ("items", JVal.arr [JVal.obj [("type", JVal.s "task"), ("title", JVal.s "\x7btask1\x7d")], JVal.obj [("type", JVal.s "task"), ("title", JVal.s "\x7btask2\x7d")]])]),
  ("Add \x7btask1\x7d and also \x7btask2\x7d",
   [("action", JVal.s "batch"), ("items", JVal.arr [JVal.obj [("type", JVal.s "task"), ("title", JVal.s "\x7btask1\x7d")], JVal.obj [("type", JVal.s "task"), ("title", JVal.s "\x7btask2\x7d")]])])]

def three_item_templates : List RawTemplate := [
  ("I need to \x7btask1\x7d, \x7btask2\x7d, and \x7btask3\x7d",
   [("action", JVal.s "batch"), ("items", JVal.arr [JVal.obj [("type", JVal.s "task"), ("title", JVal.s "\x7btask1\x7d")], JVal.obj [("type", JVal.s "task"), ("title", JVal.s "\x7btask2\x7d")], JVal.obj [("type", JVal.s "task"), ("title", JVal.s "\x7btask3\x7d")]])]),
  ("\x7btask1\x7d, \x7btask2\x7d, and \x7btask3\x7d",
   [("action", JVal.s "batch"), ("items", JVal.arr [JVal.obj [("type", JVal.s "task"), ("title", JVal.s "\x7btask1\x7d")], JVal.obj [("type", JVal.s "task"), ("title", JVal.s "\x7btask2\x7d")], JVal.obj [("type", JVal.s "task"), ("title", JVal.s "\x7btask3\x7d")]])]),
  ("Create tasks for \x7btask1\x7d, \x7btask2\x7d, and \x7btask3\x7d",
   [("action", JVal.s "batch"), ("items", JVal.arr [JVal.obj [("type", JVal.s "task"), ("title", JVal.s "\x7btask1\x7d")], JVal.obj [("type", JVal.s "task"), ("title", JVal.s "\x7btask2\x7d")], JVal.obj [("type", JVal.s "task"), ("title", JVal.s "\x7btask3\x7d")]])]),
  ("Add to my list \x7btask1\x7d, \x7btask2\x7d, \x7btask3\x7d",
   [("action", JVal.s "batch"), ("items", JVal.arr [JVal.obj [("type", JVal.s "task"), ("title", JVal.s "\x7btask1\x7d")], JVal.obj [("type", JVal.s "task"), ("title", JVal.s "\x7btask2\x7d")], JVal.obj [("type", JVal.s "task"), ("title", JVal.s "\x7btask3\x7d")]])])]

def mixed_templates : List RawTemplate := [
  ("Idea about \x7btopic\x7d and task to \x7btask1\x7d",
   [("action", JVal.s "batch"), ("items", JVal.arr [JVal.obj [("type", JVal.s "idea"), ("title", JVal.s "\x7btopic\x7d")], JVal.obj [("type", JVal.s "task"), ("title", JVal.s "\x7btask1\x7d")]])]),
  ("Note about \x7btopic\x7d and remind me to \x7btask1\x7d",
   [("action", JVal.s "batch"), ("items", JVal.arr [JVal.obj [("type", JVal.s "idea"), ("title", JVal.s "\x7btopic\x7d")], JVal.obj [("type", JVal.s "task"), ("title", JVal.s "\x7btask1\x7d")]])])]

def batch_project_templates : List RawTemplate := [
  ("For \x7bproject_ref\x7d \x7btask1\x7d and \x7btask2\x7d",
   [("action", JVal.s "batch"), ("items", JVal.arr [JVal.obj [("type", JVal.s "task"), ("title", JVal.s "\x7btask1\x7d"), ("links", JVal.arr [JVal.obj [("type", JVal.s "project"), ("query", JVal.s "\x7bproject_ref\x7d")]])], JVal.obj [("type", JVal.s "task"), ("title", JVal.s "\x7btask2\x7d"), ("links", JVal.arr [JVal.obj [("type", JVal.s "project"), ("query", JVal.s "\x7bproject_ref\x7d")]])]])]),
  ("Add to \x7bproject_ref\x7d \x7btask1\x7d and \x7btask2\x7d",
   [("action", JVal.s "batch"), ("items", JVal.arr [JVal.obj [("type", JVal.s "task"), ("title", JVal.s "\x7btask1\x7d"), ("links", JVal.arr [JVal.obj [("type", JVal.s "project"), ("query", JVal.s "\x7bproject_ref\x7d")]])], JVal.obj [("type", JVal.s "task"), ("title", JVal.s "\x7btask2\x7d"), ("links", JVal.arr [JVal.obj [("type", JVal.s "project"), ("query", JVal.s "\x7bproject_ref\x7d")]])]])])]

end Batch

def LEVEL_QUERY_TYPES : List (String × List String) := [
  ("levelStatus", ["What\x27s my level", "What level am I", "Show my level", "Level status", "My current level"]),
  ("xpToday", ["How much XP today", "XP earned today", "Today\x27s XP", "Show XP today", "What XP did I get"]),
  ("xpBreakdown", ["XP breakdown", "Show XP by dimension", "Break down my XP", "XP details"]),
  ("dimensionStatus", ["How\x27s my cognitive dimension", "Show creative status", "What\x27s my physiological progress", "Knowledge dimension status"]),
  ("streakStatus", ["What\x27s my streak", "How long is my streak", "Current streak", "Show my streak", "Am I on a streak"]),
  ("allStreaks", ["Show all streaks", "What streaks do I have", "All my streaks", "Streak summary"]),
  ("badgesEarned", ["What badges have I earned", "Show my badges", "My achievements", "Badges unlocked", "Show achievements"]),
  ("badgeProgress", ["Badge progress", "How close am I to badges", "Which badges am I close to", "Upcoming badges"]),
  ("activeQuests", ["What quests are active", "Show my quests", "Active quests", "Current quests"]),
  ("questProgress", ["Quest progress", "How are my quests going", "Quest status"]),
  ("readinessScore", ["What\x27s my readiness", "Am I ready to work", "Readiness score", "How ready am I"]),
  ("hrvStatus", ["What\x27s my HRV", "Heart rate variability", "HRV status", "How\x27s my HRV"]),
  ("sleepScore", ["How did I sleep", "Sleep score", "Sleep quality", "How was my sleep", "Last night\x27s sleep"]),
  ("todayHealth", ["Today\x27s health", "Health metrics", "How healthy am I today", "Vitals today"]),
  ("dailySummary", ["Daily summary", "How was my day", "Today\x27s summary", "Summarize today"]),
  ("weeklySummary", ["Weekly summary", "How was my week", "This week\x27s summary", "Week review"]),
  ("contentPerformance", ["How\x27s my content doing", "Content performance", "Content stats", "Post performance"]),
  ("totalReach", ["What\x27s my total reach", "How many people have I reached", "Reach metrics", "Content reach"]),
  ("viralCount", ["How many viral posts", "Viral content", "Which posts went viral", "Viral count"]),
  ("pipelineStatus", ["Content pipeline status", "What\x27s in the pipeline", "Pipeline review"]),
  ("creativeDimension", ["Creative dimension status", "How\x27s my creative side", "Creative progress"])]

def DIMENSIONS : List String := [
  "cognitive",
  "creative",
  "physiological",
  "behavioral",
  "knowledge",
  "reflection"]

def DEEP_WORK_DURATIONS : List (Nat × List String) := [
  (30, ["30 minutes", "half hour", "half an hour"]),
  (45, ["45 minutes"]),
  (60, ["1 hour", "an hour", "one hour", "60 minutes"]),
  (90, ["90 minutes", "hour and a half", "1.5 hours"]),
  (120, ["2 hours", "two hours", "couple hours"]),
  (180, ["3 hours", "three hours"])]

namespace DeepWork

def start_templates : List String := [
  "Start deep work",
  "Begin focus mode",
  "Let\x27s do deep work",
  "Enter focus mode",
  "Start focused time",
  "Begin concentration mode",
  "Go into deep work",
  "I want to focus",
  "Time to focus",
  "Focus time",
  "Deep work mode",
  "Heads down time",
  "No distractions mode"]

def start_with_duration_templates : List String := [
  "Start deep work for \x7bduration\x7d",
  "Focus for \x7bduration\x7d",
  "Deep work \x7bduration\x7d",
  "Let\x27s focus for \x7bduration\x7d",
  "Begin focus mode for \x7bduration\x7d",
  "\x7bduration\x7d of deep work",
  "I want to focus for \x7bduration\x7d"]

def start_pomodoro_templates : List String := [
  "Start pomodoro",
  "Pomodoro mode",
  "Begin pomodoro session",
  "Let\x27s do pomodoro",
  "Start pomodoro deep work"]

def stop_templates : List String := [
  "Stop deep work",
  "End focus mode",
  "Done focusing",
  "Stop focus mode",
  "End deep work",
  "Finish focus session",
  "Exit focus mode",
  "I\x27m done focusing",
  "End concentration mode",
  "Stop the timer"]

def extend_templates : List String := [
  "Extend deep work by \x7bduration\x7d",
  "Add \x7bduration\x7d to focus time",
  "Extend focus \x7bduration\x7d",
  "Keep going for \x7bduration\x7d more",
  "Add \x7bduration\x7d more",
  "Continue for \x7bduration\x7d",
  "\x7bduration\x7d more of deep work"]

end DeepWork

def JOURNAL_ENTRY_TYPES : List (String × List String) := [
  ("gratitude", ["I\x27m grateful for \x7bcontent\x7d", "Grateful for \x7bcontent\x7d", "Thankful for \x7bcontent\x7d", "I appreciate \x7bcontent\x7d", "Gratitude: \x7bcontent\x7d"]),
  ("mood", ["I\x27m feeling \x7bfeeling\x7d", "Feeling \x7bfeeling\x7d", "My mood is \x7bfeeling\x7d", "I feel \x7bfeeling\x7d today"]),
  ("learning", ["I learned that \x7bcontent\x7d", "Today I learned \x7bcontent\x7d", "Learned: \x7bcontent\x7d", "TIL \x7bcontent\x7d", "I discovered that \x7bcontent\x7d"]),
  ("reflection", ["Reflecting on \x7bcontent\x7d", "I\x27ve been thinking about \x7bcontent\x7d", "Thought: \x7bcontent\x7d", "Reflection: \x7bcontent\x7d"]),
  ("goal", ["My goal is to \x7bcontent\x7d", "I want to \x7bcontent\x7d", "Goal: \x7bcontent\x7d", "I\x27m aiming to \x7bcontent\x7d"]),
  ("challenge", ["I\x27m struggling with \x7bcontent\x7d", "Challenge: \x7bcontent\x7d", "My challenge is \x7bcontent\x7d", "I\x27m working through \x7bcontent\x7d"]),
  ("celebration", ["I achieved \x7bcontent\x7d", "Celebrating \x7bcontent\x7d", "Win: \x7bcontent\x7d", "I\x27m proud of \x7bcontent\x7d", "Victory: \x7bcontent\x7d"]),
  ("intention", ["My intention today is \x7bcontent\x7d", "I intend to \x7bcontent\x7d", "Today I will \x7bcontent\x7d", "Setting intention: \x7bcontent\x7d"]),
  ("freeform", ["Journal: \x7bcontent\x7d", "Note to self: \x7bcontent\x7d", "Dear diary: \x7bcontent\x7d", "\x7bcontent\x7d"])]

def GRATITUDE_CONTENT : List String := [
  "my team",
  "my health",
  "my family",
  "good sleep",
  "productive day",
  "the sunshine",
  "my morning coffee",
  "finishing the project",
  "supportive friends",
  "learning something new",
  "a good workout",
  "peaceful morning",
  "nice weather"]

def FEELINGS : List String := [
  "great",
  "amazing",
  "tired",
  "energized",
  "focused",
  "stressed",
  "calm",
  "happy",
  "productive",
  "creative",
  "motivated",
  "relaxed",
  "anxious",
  "excited",
  "peaceful",
  "content",
  "overwhelmed",
  "optimistic"]

def LEARNING_CONTENT : List String := [
  "how to optimize database queries",
  "a new design pattern",
  "the importance of rest",
  "better communication skills",
  "time management techniques",
  "a new Swift feature",
  "how to handle errors gracefully",
  "the value of deep work",
  "how to prioritize"]

def GENERAL_CONTENT : List String := [
  "my work-life balance",
  "improving my productivity",
  "building better habits",
  "being more present",
  "focusing on what matters",
  "taking care of my health",
  "learning new skills",
  "connecting with others",
  "simplifying my life"]

def WORKOUT_TYPES : List (String × List String) := [
  ("run", ["run", "running", "went for a run", "jogged", "jogging"]),
  ("walk", ["walk", "walked", "went for a walk", "walking"]),
  ("swim", ["swim", "swimming", "swam", "went swimming"]),
  ("cycle", ["bike", "cycling", "biked", "went cycling", "rode my bike"]),
  ("strength", ["lifted weights", "strength training", "weight training", "gym workout", "lifted"]),
  ("yoga", ["yoga", "did yoga", "yoga session"]),
  ("hiit", ["HIIT", "hiit workout", "interval training", "tabata"])]

def EXERCISES : List String := [
  "push ups",
  "pull ups",
  "squats",
  "deadlifts",
  "bench press",
  "lunges",
  "planks",
  "burpees",
  "jumping jacks",
  "sit ups"]

namespace Workout

def workout_templates : List String := [
  "Log \x7bworkout_type\x7d",
  "I did a \x7bworkout_type\x7d",
  "Just finished \x7bworkout_type\x7d",
  "Completed \x7bworkout_type\x7d workout",
  "\x7bworkout_type\x7d done"]

def workout_with_duration_templates : List String := [
  "Log \x7bduration\x7d minute \x7bworkout_type\x7d",
  "\x7bworkout_type\x7d for \x7bduration\x7d minutes",
  "Did \x7bduration\x7d minutes of \x7bworkout_type\x7d",
  "Just finished \x7bduration\x7d minute \x7bworkout_type\x7d"]

def run_with_distance_templates : List String := [
  "Ran \x7bdistance\x7d km",
  "Ran \x7bdistance\x7d kilometers",
  "\x7bdistance\x7d km run",
  "Went for a \x7bdistance\x7d km run"]

def strength_templates : List String := [
  "Did \x7bsets\x7d sets of \x7breps\x7d \x7bexercise\x7d",
  "\x7bexercise\x7d \x7bsets\x7d by \x7breps\x7d",
  "Completed \x7bsets\x7d sets of \x7bexercise\x7d",
  "\x7breps\x7d \x7bexercise\x7d"]

end Workout

def NAVIGATION_DESTINATIONS : List (String × List String) := [
  ("home", ["go home", "open home", "show home", "home screen"]),
  ("today", ["go to today", "open today", "show today", "today view"]),
  ("projects", ["go to projects", "open projects", "show projects", "my projects"]),
  ("ideas", ["go to ideas", "open ideas", "show ideas", "idea list"]),
  ("tasks", ["go to tasks", "open tasks", "show tasks", "task list", "my tasks"]),
  ("schedule", ["go to schedule", "open schedule", "show schedule", "my calendar", "calendar"]),
  ("research", ["go to research", "open research", "show research"]),
  ("focus", ["go to focus", "open focus mode", "focus screen"]),
  ("settings", ["go to settings", "open settings", "settings"]),
  ("sanctuary", ["go to sanctuary", "open sanctuary", "sanctuary view", "show sanctuary"]),
  ("dashboard", ["go to dashboard", "open dashboard", "show dashboard", "main dashboard"]),
  ("plannerum", ["go to plannerum", "open plannerum", "show plannerum", "planner", "plan", "planning", "open planner", "go to planner"]),
  ("thinkspace", ["go to thinkspace", "open thinkspace", "show thinkspace", "canvas", "think", "open canvas", "go to canvas", "thinking space"]),
  ("inbox", ["go to inbox", "open inbox", "show inbox", "my inbox", "inbox view"]),
  ("notes", ["go to notes", "open notes", "show notes", "my notes", "notes view"])]

/-! ### Generators -/

/-- Generic per-category loop: `for _ in range(n): examples.append(step())`,
threading the random stream. -/
def genList (step : RNG → Example × RNG) : Nat → RNG → List Example × RNG
  | 0, g => ([], g)
  | n + 1, g =>
    let e := step g
    let rest := genList step n e.2
    (e.1 :: rest.1, rest.2)

/-- `get_project_references()`: person, company, then generic project
references with their tags. -/
def PROJECT_REFERENCES : List (String × String) :=
  PERSON_NAMES.map (fun nm => (nm, "person")) ++
  COMPANY_NAMES.map (fun nm => (nm, "company")) ++
  PROJECTS.map (fun nm => (nm, "project"))

/-- Model of `random.sample(xs, 3)`: three draws without replacement
(each drawn element is erased before the next draw). -/
def sampleDistinct3 (xs : List String) (g : RNG) : (String × String × String) × RNG :=
  let (k1, g1) := g.next
  let a := xs.getD (k1 % xs.length) ""
  let xs1 := xs.eraseIdx (k1 % xs.length)
  let (k2, g2) := g1.next
  let b := xs1.getD (k2 % xs1.length) ""
  let xs2 := xs1.eraseIdx (k2 % xs1.length)
  let (k3, g3) := g2.next
  let c := xs2.getD (k3 % xs2.length) ""
  ((a, b, c), g3)

namespace Simple

/-- Weighted pool: ideas x3, tasks x4, notes x2, the rest x1. -/
def all_templates : List RawTemplate :=
  idea_templates ++ idea_templates ++ idea_templates ++
  task_templates ++ task_templates ++ task_templates ++ task_templates ++
  project_templates ++
  research_templates ++
  note_templates ++ note_templates ++
  thinkspace_templates ++
  connection_templates ++
  idea_priority_templates ++
  task_priority_templates

/-- One iteration of `generate_simple_creation_examples`: draw a template,
then a topic, task, project and priority, and substitute. -/
def step (g : RNG) : Example × RNG :=
  let (tpl, g) := choose all_templates g
  let (topic, g) := choose TOPICS g
  let (task, g) := choose TASKS g
  let (project, g) := choose PROJECTS g
  let (priority, g) := choose PRIORITIES g
  let ps := [("\x7btopic\x7d", topic), ("\x7btask\x7d", task),
             ("\x7bproject\x7d", project), ("\x7bpriority\x7d", priority)]
  ({ input := substText tpl.1 ps, output := Out.raw (substObj ps tpl.2) }, g)

end Simple

def generate_simple_creation_examples (n : Nat) (g : RNG) : List Example × RNG :=
  genList Simple.step n g

namespace Project

/-- Weighted pool: idea-for x4, task-for x3, ending-with-for x2. -/
def all_templates : List RawTemplate :=
  idea_for_project_templates ++ idea_for_project_templates ++
  idea_for_project_templates ++ idea_for_project_templates ++
  task_for_project_templates ++ task_for_project_templates ++ task_for_project_templates ++
  research_for_project_templates ++
  ending_with_for_templates ++ ending_with_for_templates

/-- One iteration of `generate_project_specific_examples`. -/
def step (g : RNG) : Example × RNG :=
  let (tpl, g) := choose all_templates g
  let (pr, g) := choose PROJECT_REFERENCES g
  let (topic, g) := choose TOPICS g
  let (task, g) := choose TASKS g
  let ps := [("\x7bproject_ref\x7d", pr.1), ("\x7btopic\x7d", topic), ("\x7btask\x7d", task)]
  ({ input := substText tpl.1 ps, output := Out.raw (substObj ps tpl.2) }, g)

end Project

def generate_project_specific_examples (n : Nat) (g : RNG) : List Example × RNG :=
  genList Project.step n g

namespace Timed

def template_type_choices : List String :=
  ["timed_task", "relative_task", "block_range", "block_duration", "meeting", "timed_project"]

/-- `hours = list(range(8, 18))`. -/
def hours : List Nat := [8, 9, 10, 11, 12, 13, 14, 15, 16, 17]

/-- `hours[:-2]`. -/
def hoursTrunc : List Nat := hours.take (hours.length - 2)

/-- `f"{h}{'pm' if h >= 12 else 'am'}"`. -/
def hourStr (h : Nat) : String :=
  natStr h ++ (if 12 ≤ h then "pm" else "am")

/-- One iteration of `generate_timed_creation_examples`: pick a branch,
then draw that branch's template and values in source order. -/
def step (g : RNG) : Example × RNG :=
  let (tt, g) := choose template_type_choices g
  if tt = "timed_task" then
    let (tpl, g) := choose timed_task_templates g
    let (task, g) := choose TASKS g
    let (time, g) := choose TIMES g
    let ps := [("\x7btask\x7d", task), ("\x7btime\x7d", time)]
    ({ input := substText tpl.1 ps, output := Out.raw (substObj ps tpl.2) }, g)
  else if tt = "relative_task" then
    let (tpl, g) := choose relative_task_templates g
    let (task, g) := choose TASKS g
    let (rt, g) := choose RELATIVE_TIMES g
    let ps := [("\x7btask\x7d", task), ("\x7brelative_time\x7d", rt)]
    ({ input := substText tpl.1 ps, output := Out.raw (substObj ps tpl.2) }, g)
  else if tt = "block_range" then
    let (tpl, g) := choose block_range_templates g
    let (sh, g) := choose hoursTrunc g
    let (d, g) := choose [1, 2, 3] g
    let (bn, g) := choose block_names g
    let ps := [("\x7bstart_time\x7d", hourStr sh), ("\x7bend_time\x7d", hourStr (sh + d)),
               ("\x7bblock_name\x7d", bn)]
    ({ input := substText tpl.1 ps, output := Out.raw (substObj ps tpl.2) }, g)
  else if tt = "block_duration" then
    let (tpl, g) := choose block_duration_templates g
    let (dur, g) := choose DURATIONS g
    let (bn, g) := choose block_names g
    let (time, g) := choose TIMES g
    let ps := [("\x7bduration\x7d", dur.1), ("\x7bblock_name\x7d", bn), ("\x7btime\x7d", time)]
    ({ input := substText tpl.1 ps, output := Out.raw (substObj ps tpl.2) }, g)
  else if tt = "timed_project" then
    let (tpl, g) := choose timed_task_project_templates g
    let (task, g) := choose TASKS g
    let (time, g) := choose TIMES g
    let (pr, g) := choose PROJECT_REFERENCES g
    let ps := [("\x7btask\x7d", task), ("\x7btime\x7d", time), ("\x7bproject_ref\x7d", pr.1)]
    ({ input := substText tpl.1 ps, output := Out.raw (substObj ps tpl.2) }, g)
  else
    let (tpl, g) := choose meeting_templates g
    let (person, g) := choose people g
    let (time, g) := choose TIMES g
    let (rt, g) := choose RELATIVE_TIMES g
    let ps := [("\x7bperson\x7d", person), ("\x7btime\x7d", time), ("\x7brelative_time\x7d", rt)]
    ({ input := substText tpl.1 ps, output := Out.raw (substObj ps tpl.2) }, g)

end Timed

def generate_timed_creation_examples (n : Nat) (g : RNG) : List Example × RNG :=
  genList Timed.step n g

namespace Modification

/-- Weighted pool: status x3, time x2, priority x2, project x3, content x1,
delete x2. -/
def all_templates : List RawTemplate :=
  status_templates ++ status_templates ++ status_templates ++
  time_templates ++ time_templates ++
  priority_templates ++ priority_templates ++
  project_templates ++ project_templates ++ project_templates ++
  content_templates ++
  delete_templates ++ delete_templates

/-- One iteration of `generate_modification_examples`. -/
def step (g : RNG) : Example × RNG :=
  let (tpl, g) := choose all_templates g
  let (time, g) := choose TIMES g
  let (rt, g) := choose RELATIVE_TIMES g
  let (project, g) := choose PROJECTS g
  let (person, g) := choose PERSON_NAMES g
  let (task, g) := choose TASKS g
  let ps := [("\x7btime\x7d", time), ("\x7brelative_time\x7d", rt), ("\x7bproject\x7d", project),
             ("\x7bperson_name\x7d", person), ("\x7btask\x7d", task)]
  ({ input := substText tpl.1 ps, output := Out.raw (substObj ps tpl.2) }, g)

end Modification

def generate_modification_examples (n : Nat) (g : RNG) : List Example × RNG :=
  genList Modification.step n g

namespace Search

/-- Weighted pool: type x3, general x3, time x2, status x2, project x3,
semantic x1, navigation x2. -/
def all_templates : List RawTemplate :=
  type_search_templates ++ type_search_templates ++ type_search_templates ++
  general_search_templates ++ general_search_templates ++ general_search_templates ++
  time_search_templates ++ time_search_templates ++
  status_search_templates ++ status_search_templates ++
  project_search_templates ++ project_search_templates ++ project_search_templates ++
  semantic_templates ++
  navigation_templates ++ navigation_templates

/-- `TOPICS + list(set(t.split()[-1] for t in TASKS))`.  CPython's set
iteration order is unspecified; this model fixes first-occurrence order.
No claim below depends on the order of this pool. -/
def search_queries : List String :=
  TOPICS ++ (TASKS.map lastWord).dedup

/-- One iteration of `generate_search_examples`. -/
def step (g : RNG) : Example × RNG :=
  let (tpl, g) := choose all_templates g
  let (query, g) := choose search_queries g
  let (project, g) := choose PROJECTS g
  let (person, g) := choose PERSON_NAMES g
  let ps := [("\x7bquery\x7d", query), ("\x7bproject\x7d", project), ("\x7bperson_name\x7d", person)]
  ({ input := substText tpl.1 ps, output := Out.raw (substObj ps tpl.2) }, g)

end Search

def generate_search_examples (n : Nat) (g : RNG) : List Example × RNG :=
  genList Search.step n g

namespace Batch

/-- Weighted pool: two-item x3, three-item x2, mixed x1, project x2. -/
def all_templates : List RawTemplate :=
  two_item_templates ++ two_item_templates ++ two_item_templates ++
  three_item_templates ++ three_item_templates ++
  mixed_templates ++
  batch_project_templates ++ batch_project_templates

/-- One iteration of `generate_batch_examples`: a template, three distinct
tasks via `random.sample`, a topic and a project reference.  The input
pattern receives the third task only when the template mentions it
(`tasks[2] if "{task3}" in template else ""`); the output skeleton is
substituted with all three tasks unconditionally, as in the source. -/
def step (g : RNG) : Example × RNG :=
  let (tpl, g) := choose all_templates g
  let (ts, g) := sampleDistinct3 TASKS g
  let (topic, g) := choose TOPICS g
  let (pr, g) := choose PROJECT_REFERENCES g
  let t3input := if occursIn tpl.1.data ("\x7btask3\x7d".data) then ts.2.2 else ""
  let inPs := [("\x7btask1\x7d", ts.1), ("\x7btask2\x7d", ts.2.1), ("\x7btask3\x7d", t3input),
               ("\x7btopic\x7d", topic), ("\x7bproject_ref\x7d", pr.1)]
  let outPs := [("\x7btask1\x7d", ts.1), ("\x7btask2\x7d", ts.2.1), ("\x7btask3\x7d", ts.2.2),
                ("\x7btopic\x7d", topic), ("\x7bproject_ref\x7d", pr.1)]
  ({ input := substText tpl.1 inPs, output := Out.raw (substObj outPs tpl.2) }, g)

end Batch

def generate_batch_examples (n : Nat) (g : RNG) : List Example × RNG :=
  genList Batch.step n g

namespace LevelSystem

/-- The four dimension-specific phrasings re-picked for `dimensionStatus`. -/
def dimension_templates (d : String) : List String :=
  ["How\x27s my " ++ d ++ " dimension",
   "Show " ++ d ++ " status",
   "What\x27s my " ++ d ++ " progress",
   pyCapitalize d ++ " dimension status"]

/-- One iteration of `generate_level_system_examples`: query type and a
phrasing; `dimensionStatus` re-picks a dimension and a phrasing that
mentions it, and adds the `dimension` parameter after `query_type`. -/
def step (g : RNG) : Example × RNG :=
  let (q, g) := choose LEVEL_QUERY_TYPES g
  let (tpl, g) := choose q.2 g
  if q.1 = "dimensionStatus" then
    let (dim, g) := choose DIMENSIONS g
    let (tpl2, g) := choose (dimension_templates dim) g
    ({ input := tpl2,
       output := Out.str (make_function_call "query_level_system"
         [("query_type", JVal.s q.1), ("dimension", JVal.s dim)]) }, g)
  else
    ({ input := tpl,
       output := Out.str (make_function_call "query_level_system"
         [("query_type", JVal.s q.1)]) }, g)

end LevelSystem

def generate_level_system_examples (n : Nat) (g : RNG) : List Example × RNG :=
  genList LevelSystem.step n g

namespace DeepWork

def stepStart (g : RNG) : Example × RNG :=
  let (tpl, g) := choose start_templates g
  ({ input := tpl, output := Out.str (make_function_call "start_deep_work" []) }, g)

def stepDuration (g : RNG) : Example × RNG :=
  let (dp, g) := choose DEEP_WORK_DURATIONS g
  let (dtxt, g) := choose dp.2 g
  let (tpl, g) := choose start_with_duration_templates g
  ({ input := replaceStr tpl "\x7bduration\x7d" dtxt,
     output := Out.str (make_function_call "start_deep_work"
       [("duration_minutes", JVal.n dp.1)]) }, g)

def stepPomodoro (g : RNG) : Example × RNG :=
  let (tpl, g) := choose start_pomodoro_templates g
  ({ input := tpl,
     output := Out.str (make_function_call "start_deep_work"
       [("duration_minutes", JVal.n 25), ("pomodoro_mode", JVal.b true)]) }, g)

def stepStop (g : RNG) : Example × RNG :=
  let (tpl, g) := choose stop_templates g
  ({ input := tpl, output := Out.str (make_function_call "stop_deep_work" []) }, g)

def stepExtend (g : RNG) : Example × RNG :=
  let (dp, g) := choose DEEP_WORK_DURATIONS g
  let (dtxt, g) := choose dp.2 g
  let (tpl, g) := choose extend_templates g
  ({ input := replaceStr tpl "\x7bduration\x7d" dtxt,
     output := Out.str (make_function_call "extend_deep_work"
       [("additional_minutes", JVal.n dp.1)]) }, g)

end DeepWork

/-- Five sequential sub-loops: `n//4` bare starts, `n//3` starts with a
duration, `n//10` pomodoros, `n//5` stops, `n//6` extends. -/
def generate_deep_work_examples (n : Nat) (g : RNG) : List Example × RNG :=
  let a := genList DeepWork.stepStart (n / 4) g
  let b := genList DeepWork.stepDuration (n / 3) a.2
  let c := genList DeepWork.stepPomodoro (n / 10) b.2
  let d := genList DeepWork.stepStop (n / 5) c.2
  let e := genList DeepWork.stepExtend (n / 6) d.2
  (a.1 ++ b.1 ++ c.1 ++ d.1 ++ e.1, e.2)

namespace Journal

/-- Content pool for an entry type. -/
def contentFor (et : String) (g : RNG) : String × RNG :=
  if et = "gratitude" then choose GRATITUDE_CONTENT g
  else if et = "mood" then choose FEELINGS g
  else if et = "learning" then choose LEARNING_CONTENT g
  else choose GENERAL_CONTENT g

/-- One iteration of `generate_journal_examples`.  For mood entries the
template's content slot is renamed to the feeling slot before formatting,
and the title becomes `Feeling <content>`; otherwise the title is the
capitalized content, truncated to 47 characters plus an ellipsis when 50
or more characters long. -/
def step (g : RNG) : Example × RNG :=
  let (jt, g) := choose JOURNAL_ENTRY_TYPES g
  let (tpl, g) := choose jt.2 g
  let (content, g) := contentFor jt.1 g
  let tpl2 := if jt.1 = "mood" then replaceStr tpl "\x7bcontent\x7d" "\x7bfeeling\x7d" else tpl
  let input := substText tpl2 [("\x7bcontent\x7d", content), ("\x7bfeeling\x7d", content)]
  let title :=
    if jt.1 = "mood" then "Feeling " ++ content
    else if content.length < 50 then pyCapitalize content
    else ⟨content.data.take 47⟩ ++ "..."
  ({ input := input,
     output := Out.str (make_function_call "create_atom"
       [("atom_type", JVal.s "journalEntry"), ("title", JVal.s title),
        ("metadata", JVal.obj [("entryType", JVal.s jt.1)])]) }, g)

end Journal

def generate_journal_examples (n : Nat) (g : RNG) : List Example × RNG :=
  genList Journal.step n g

namespace Workout

def durations : List Nat := [15, 20, 30, 45, 60, 90]
def distances : List Nat := [3, 5, 7, 10, 15, 21]
def setChoices : List Nat := [3, 4, 5]
def repChoices : List Nat := [8, 10, 12, 15, 20]

def stepBasic (g : RNG) : Example × RNG :=
  let (wt, g) := choose WORKOUT_TYPES g
  let (wtxt, g) := choose wt.2 g
  let (tpl, g) := choose workout_templates g
  ({ input := replaceStr tpl "\x7bworkout_type\x7d" wtxt,
     output := Out.str (make_function_call "log_workout"
       [("workout_type", JVal.s wt.1)]) }, g)

def stepDuration (g : RNG) : Example × RNG :=
  let (wt, g) := choose WORKOUT_TYPES g
  let (wtxt, g) := choose wt.2 g
  let (dur, g) := choose durations g
  let (tpl, g) := choose workout_with_duration_templates g
  ({ input := substText tpl [("\x7bworkout_type\x7d", wtxt), ("\x7bduration\x7d", natStr dur)],
     output := Out.str (make_function_call "log_workout"
       [("workout_type", JVal.s wt.1), ("duration_minutes", JVal.n dur)]) }, g)

def stepDistance (g : RNG) : Example × RNG :=
  let (dist, g) := choose distances g
  let (tpl, g) := choose run_with_distance_templates g
  ({ input := replaceStr tpl "\x7bdistance\x7d" (natStr dist),
     output := Out.str (make_function_call "log_workout"
       [("workout_type", JVal.s "run"), ("distance_km", JVal.n dist)]) }, g)

def stepStrength (g : RNG) : Example × RNG :=
  let (ex, g) := choose EXERCISES g
  let (st, g) := choose setChoices g
  let (rp, g) := choose repChoices g
  let (tpl, g) := choose strength_templates g
  ({ input := substText tpl [("\x7bexercise\x7d", ex), ("\x7bsets\x7d", natStr st),
                             ("\x7breps\x7d", natStr rp)],
     output := Out.str (make_function_call "log_workout"
       [("workout_type", JVal.s "strength"), ("exercise", JVal.s ex),
        ("sets", JVal.n st), ("reps", JVal.n rp)]) }, g)

end Workout

/-- Four sequential sub-loops: `n//3` basic logs, `n//3` with a duration,
`n//6` runs with a distance, `n//6` strength sets. -/
def generate_workout_examples (n : Nat) (g : RNG) : List Example × RNG :=
  let a := genList Workout.stepBasic (n / 3) g
  let b := genList Workout.stepDuration (n / 3) a.2
  let c := genList Workout.stepDistance (n / 6) b.2
  let d := genList Workout.stepStrength (n / 6) c.2
  (a.1 ++ b.1 ++ c.1 ++ d.1, d.2)

namespace Navigation

/-- One iteration of `generate_navigation_examples`. -/
def step (g : RNG) : Example × RNG :=
  let (dest, g) := choose NAVIGATION_DESTINATIONS g
  let (tpl, g) := choose dest.2 g
  ({ input := tpl,
     output := Out.str (make_function_call "navigate"
       [("destination", JVal.s dest.1)]) }, g)

end Navigation

def generate_navigation_examples (n : Nat) (g : RNG) : List Example × RNG :=
  genList Navigation.step n g

/-! ### Legacy encoder, validator, corpus assembly -/

/-- Optional parameter: `if k in d: params[k] = d[k]`. -/
def optParam (d : JObj) (k : String) : List (String × JVal) :=
  match dlookup d k with
  | some v => [(k, v)]
  | none => []

/-- Items list of a batch descriptor (`d.get("items", [])`). -/
def batchItemsOf (d : JObj) : List JVal :=
  match dlookup d "items" with
  | some (JVal.arr vs) => vs
  | _ => []

/-- Rebuild one batch item: `atom_type` (default `task`), `title`
(default `Untitled`), and the optional `links`.  A non-dict item would
raise in Python; it is mapped to the defaults here (never produced by the
generators). -/
def batchItemParams (v : JVal) : JVal :=
  match v with
  | JVal.obj o =>
      JVal.obj ([("atom_type", (dlookup o "type").getD (JVal.s "task")),
                 ("title", (dlookup o "title").getD (JVal.s "Untitled"))] ++
                optParam o "links")
  | _ => JVal.obj [("atom_type", JVal.s "task"), ("title", JVal.s "Untitled")]

/-- Filter entries of a search descriptor (`d["filter"].items()`);
a non-dict filter would raise in Python and is mapped to no entries. -/
def filterEntriesOf (d : JObj) : List (String × JVal) :=
  match dlookup d "filter" with
  | some (JVal.obj kvs) => kvs
  | _ => []

/-- `make_function_call_from_dict`: the legacy bridge from a raw
descriptor dict to the wire string, using the fixed verb-to-function
table and its fixed parameter order. -/
def make_function_call_from_dict (d : JObj) : String :=
  match dlookup d "action" with
  | some (JVal.s "create") =>
      make_function_call "create_atom"
        ([("atom_type", (dlookup d "type").getD (JVal.s "idea")),
          ("title", (dlookup d "title").getD (JVal.s "Untitled"))] ++
         optParam d "body" ++ optParam d "metadata" ++ optParam d "links")
  | some (JVal.s "update") =>
      make_function_call "update_atom"
        ([("target", (dlookup d "target").getD (JVal.s "context"))] ++
         optParam d "title" ++ optParam d "body" ++ optParam d "metadata" ++ optParam d "links")
  | some (JVal.s "delete") =>
      make_function_call "delete_atom"
        [("target", (dlookup d "target").getD (JVal.s "context"))]
  | some (JVal.s "search") =>
      make_function_call "search_atoms"
        (optParam d "query" ++
         (match dlookup d "type" with
          | some t => [("types", JVal.arr [t])]
          | none => []) ++
         filterEntriesOf d ++
         optParam d "mode" ++ optParam d "target")
  | some (JVal.s "batch") =>
      make_function_call "batch_create"
        [("items", JVal.arr ((batchItemsOf d).map batchItemParams))]
  | some (JVal.s "navigate") =>
      make_function_call "navigate"
        [("destination", (dlookup d "destination").getD (JVal.s "home"))]
  | _ =>
      make_function_call "create_atom"
        [("atom_type", JVal.s "idea"), ("title", JVal.s "Unknown")]

/-- Modelled from the spec: section 4.3's verb-to-function mapping table,
written from the table's own rows (function name plus the fixed parameter
order for each of the six verbs; flattened filter fields keep the filter
mapping's own order, as the table lists them between `types` and `mode`).
This is the spec-side definition that claim C7 compares against the
source-side `make_function_call_from_dict`. -/
def specEncodeFromTable (d : JObj) : String :=
  match dlookup d "action" with
  | some (JVal.s "create") =>
      make_function_call "create_atom"
        ([("atom_type", (dlookup d "type").getD (JVal.s "idea")),
          ("title", (dlookup d "title").getD (JVal.s "Untitled"))] ++
         optParam d "body" ++ optParam d "metadata" ++ optParam d "links")
  | some (JVal.s "update") =>
      make_function_call "update_atom"
        ([("target", (dlookup d "target").getD (JVal.s "context"))] ++
         optParam d "title" ++ optParam d "body" ++ optParam d "metadata" ++ optParam d "links")
  | some (JVal.s "delete") =>
      make_function_call "delete_atom"
        [("target", (dlookup d "target").getD (JVal.s "context"))]
  | some (JVal.s "search") =>
      make_function_call "search_atoms"
        (optParam d "query" ++
         (match dlookup d "type" with
          | some t => [("types", JVal.arr [t])]
          | none => []) ++
         filterEntriesOf d ++
         optParam d "mode" ++ optParam d "target")
  | some (JVal.s "batch") =>
      make_function_call "batch_create"
        [("items", JVal.arr ((batchItemsOf d).map batchItemParams))]
  | some (JVal.s "navigate") =>
      make_function_call "navigate"
        [("destination", (dlookup d "destination").getD (JVal.s "home"))]
  | _ =>
      make_function_call "create_atom"
        [("atom_type", JVal.s "idea"), ("title", JVal.s "Unknown")]

/-- Encode one example's output the way `format_for_mlx_lm` does:
strings pass through, raw descriptors go through the legacy bridge. -/
def encodeOut : Out → String
  | Out.str s => s
  | Out.raw d => make_function_call_from_dict d

/-- The fixed system prompt (first turn of every conversation envelope). -/
def FUNCTIONGEMMA_SYSTEM_PROMPT : String :=
  "You are FunctionGemma, the CosmoOS Micro-Brain. You interpret user voice commands and output exactly ONE function call.\nYou NEVER reason, explain, or generate text. You ONLY output function calls in the format:\n<start_function_call>call:FUNCTION_NAME\x7bparams\x7d<end_function_call>\n\nAvailable functions: create_atom, update_atom, delete_atom, search_atoms, batch_create, navigate, query_level_system, start_deep_work, stop_deep_work, extend_deep_work, log_workout, trigger_correlation_analysis"

/-- One role-tagged turn of the conversation envelope. -/
structure Message where
  role : String
  content : String

/-- `format_for_mlx_lm`: wrap every pair in the fixed 3-turn envelope. -/
def format_for_mlx_lm (es : List Example) : List (List Message) :=
  es.map (fun ex =>
    [⟨"developer", FUNCTIONGEMMA_SYSTEM_PROMPT⟩,
     ⟨"user", ex.input⟩,
     ⟨"model", encodeOut ex.output⟩])

/-- The validator's 12-name allow-list. -/
def valid_functions : List String :=
  ["create_atom", "update_atom", "delete_atom", "search_atoms",
   "batch_create", "navigate", "query_level_system",
   "start_deep_work", "stop_deep_work", "extend_deep_work",
   "log_workout", "trigger_correlation_analysis"]

/-- The validator's 6-verb allow-list for legacy descriptors. -/
def valid_actions : List String :=
  ["create", "update", "delete", "search", "batch", "navigate"]

/-- ASCII `\w` (the generator's names and data are ASCII). -/
def isWordChar (c : Char) : Bool :=
  c.isAlpha || c.isDigit || c == '_'

/-- Python `s.startswith(p)`. -/
def pyStartsWith (s p : String) : Bool :=
  p.data.isPrefixOf s.data

/-- Python `s.endswith(p)`. -/
def pyEndsWith (s p : String) : Bool :=
  p.data.isSuffixOf s.data

/-- Leftmost match of `re.search(r"call:(\w+)\{", s)`: scan left to right
for `call:` followed by a nonempty word-character run followed by `{`;
return the run. -/
def findCallName : List Char → Option String
  | [] => none
  | c :: rest =>
    if ("call:".data).isPrefixOf (c :: rest) then
      let after := (c :: rest).drop 5
      let run := after.takeWhile isWordChar
      if run ≠ [] ∧ (after.drop run.length).head? = some '\x7b' then some ⟨run⟩
      else findCallName rest
    else findCallName rest

/-- Python truthiness of a JSON-able value. -/
def truthyJ : JVal → Bool
  | JVal.s v => !(v == "")
  | JVal.n v => !(v == 0)
  | JVal.b v => v
  | JVal.arr vs => !vs.isEmpty
  | JVal.obj kvs => !kvs.isEmpty

/-- Text of a value inside an f-string.  Python's `str()` of a composite
differs (repr quoting); only string actions reach this in generated data. -/
def jvalText : JVal → String
  | JVal.s a => a
  | v => escape v

/-- Findings for one example (index `i`), exactly the strings
`validate_examples` appends. -/
def validateOne (i : Nat) (ex : Example) : List String :=
  match ex.output with
  | Out.str s =>
      if !pyStartsWith s "<start_function_call>" then
        ["Example " ++ natStr i ++ ": Missing <start_function_call> prefix"]
      else if !pyEndsWith s "<end_function_call>" then
        ["Example " ++ natStr i ++ ": Missing <end_function_call> suffix"]
      else
        match findCallName s.data with
        | some nm =>
            if valid_functions.contains nm then []
            else ["Example " ++ natStr i ++ ": Unknown function \x27" ++ nm ++ "\x27"]
        | none => ["Example " ++ natStr i ++ ": Could not parse function name"]
  | Out.raw d =>
      match dlookup d "action" with
      | some v =>
          let inActions :=
            match v with
            | JVal.s a => valid_actions.contains a
            | _ => false
          if truthyJ v && !inActions then
            ["Example " ++ natStr i ++ ": Invalid action \x27" ++ jvalText v ++ "\x27"]
          else []
      | none => []

/-- `validate_examples`: advisory findings over the enumerated corpus.
It returns only the findings; the examples themselves are not touched. -/
def validate_examples (es : List Example) : List String :=
  (es.enum.map (fun p => validateOne p.1 p.2)).flatten

/-- Swap two positions of a list (`x[i], x[j] = x[j], x[i]`). -/
def swapIdx {α : Type} [Inhabited α] (xs : List α) (i j : Nat) : List α :=
  (xs.set i (xs.getD j default)).set j (xs.getD i default)

/-- Fisher-Yates loop of CPython's `random.shuffle`: for `i` from
`len-1` down to `1`, swap position `i` with a drawn `j ≤ i` (the uniform
`randbelow(i+1)` is modelled as one stream draw reduced mod `i+1`). -/
def fyAux {α : Type} [Inhabited α] : Nat → List α → RNG → List α × RNG
  | 0, xs, g => (xs, g)
  | m + 1, xs, g =>
    let (r, g1) := g.next
    fyAux m (swapIdx xs (m + 1) (r % (m + 2))) g1

/-- `random.shuffle(xs)` as a function of the stream. -/
def pyShuffle {α : Type} [Inhabited α] (xs : List α) (g : RNG) : List α × RNG :=
  fyAux (xs.length - 1) xs g

/-- `split_idx = int(total * 0.9)`.  Modelled as `9 * total / 10` in `Nat`;
CPython's double rounding agrees with this floor at the corpus sizes this
file evaluates it on (in particular at 15647). -/
def split_index (total : Nat) : Nat :=
  9 * total / 10

/-- The ten generator calls of `main`, threaded on one stream, and the
concatenation of their outputs in call order.  `main` never invokes
`generate_search_examples`. -/
def gen_phase (g : RNG) : List Example × RNG :=
  let a := generate_simple_creation_examples 4000 g
  let b := generate_project_specific_examples 2500 a.2
  let c := generate_timed_creation_examples 2000 b.2
  let d := generate_modification_examples 1500 c.2
  let e := generate_level_system_examples 2000 d.2
  let f := generate_deep_work_examples 1000 e.2
  let h := generate_journal_examples 1000 f.2
  let i := generate_workout_examples 500 h.2
  let j := generate_navigation_examples 600 i.2
  let k := generate_batch_examples 500 j.2
  (a.1 ++ b.1 ++ c.1 ++ d.1 ++ e.1 ++ f.1 ++ h.1 ++ i.1 ++ j.1 ++ k.1, k.2)

/-- Shuffle then split, as `main` does after validation, for an arbitrary
example list. -/
def assemble_split (es : List Example) (g : RNG) : List Example × List Example :=
  let sh := (pyShuffle es g).1
  (sh.take (split_index sh.length), sh.drop (split_index sh.length))

/-- The shuffled corpus of a `main` run. -/
def shuffled_corpus (g : RNG) : List Example × RNG :=
  let p := gen_phase g
  pyShuffle p.1 p.2

/-- `train_examples = all_examples[:split_idx]`. -/
def train_examples (g : RNG) : List Example :=
  let sh := (shuffled_corpus g).1
  sh.take (split_index sh.length)

/-- `valid_examples = all_examples[split_idx:]`. -/
def valid_examples (g : RNG) : List Example :=
  let sh := (shuffled_corpus g).1
  sh.drop (split_index sh.length)

/-! ### Predicates used by the claims -/

/-- Not a newline (the one character class the wire grammar's `.*`
excludes). -/
def cleanChar (c : Char) : Bool :=
  !(c == '\n')

/-- Not whitespace (for the no-inserted-whitespace serialization claim). -/
def wsFreeChar (c : Char) : Bool :=
  !(c == ' ') && !(c == '\n') && !(c == '\t') && !(c == '\r')

/-- Every character of `s` satisfies `p`. -/
def strAll (p : Char → Bool) (s : String) : Bool :=
  s.data.all p

/-- No newline characters. -/
def strCleanB (s : String) : Bool :=
  strAll cleanChar s

/-- No brace characters (placeholder patterns start with a brace, so a
brace-free string is untouched by substitution). -/
def braceFreeB (s : String) : Bool :=
  s.data.all (fun c => !(c == '\x7b'))

mutual

/-- Every key and string leaf of a value satisfies `p`, recursively. -/
def vAll (p : Char → Bool) : JVal → Bool
  | JVal.s v => strAll p v
  | JVal.n _ => true
  | JVal.b _ => true
  | JVal.arr vs => vAllArr p vs
  | JVal.obj kvs => vAllKVs p kvs

def vAllArr (p : Char → Bool) : List JVal → Bool
  | [] => true
  | v :: rest => vAll p v && vAllArr p rest

def vAllKVs (p : Char → Bool) : List (String × JVal) → Bool
  | [] => true
  | (k, v) :: rest => strAll p k && vAll p v && vAllKVs p rest

end

/-- All keys and string leaves (and recursively all nested values) are
newline-free. -/
def cleanV (v : JVal) : Bool :=
  vAll cleanChar v

/-- All keys and string leaves are whitespace-free. -/
def vWsFree (v : JVal) : Bool :=
  vAll wsFreeChar v

/-- No whitespace characters. -/
def wsFreeStr (s : String) : Bool :=
  strAll wsFreeChar s

/-- Every fixed character the serializer can emit on its own (JSON
punctuation, escape letters, hex digits, the sign, and the boolean
literals). -/
def jsonFixedChars : List Char :=
  "[]\x7b\x7d,:\"\\ntrbfu0123456789abcdef-else".data

/-- Clean encoder parameters: newline-free keys and newline-free escaped
values. -/
def pcleanB (ps : List (String × JVal)) : Bool :=
  ps.all (fun kv => strCleanB kv.1 && strCleanB (escape kv.2))

/-- The anchored wire-grammar pattern
`^<start_function_call>call:\w+\{.*\}<end_function_call>$`: the string
decomposes into the fixed prefix, a nonempty word-character name, an
opening brace, a newline-free body, and the closing brace plus marker. -/
def matchesCallPattern (s : String) : Prop :=
  ∃ nm body : String,
    s = "<start_function_call>call:" ++ nm ++ "\x7b" ++ body ++ "\x7d<end_function_call>" ∧
    nm ≠ "" ∧ nm.data.all isWordChar = true ∧ strCleanB body = true

/-- The text between `call:` and the first brace (the function name slot
of the wire grammar; the fixed prefix is 26 characters long). -/
def callNameOf (s : String) : String :=
  ⟨(s.data.drop 26).takeWhile (fun c => !(c == '\x7b'))⟩

/-- A raw descriptor whose verb is `search`. -/
def isSearchExample (ex : Example) : Prop :=
  ∃ d : JObj, ex.output = Out.raw d ∧ dlookup d "action" = some (JVal.s "search")

/-- Item dicts of a batch descriptor. -/
def itemObjs (d : JObj) : List JObj :=
  (batchItemsOf d).filterMap (fun v =>
    match v with
    | JVal.obj o => some o
    | _ => none)

/-- Title string of one batch item. -/
def itemTitleStr (o : JObj) : String :=
  match dlookup o "title" with
  | some (JVal.s t) => t
  | _ => ""

/-- Titles of a batch descriptor's items, in order. -/
def itemTitles (d : JObj) : List String :=
  (itemObjs d).map itemTitleStr

/-- Keys of a dict are pairwise distinct (every Python dict satisfies
this by construction). -/
def NodupKeys (d : JObj) : Prop :=
  (d.map Prod.fst).Nodup

/-- The four verbs the ten invoked generators actually emit in raw
descriptors. -/
def rawActs : List String :=
  ["create", "update", "delete", "batch"]

/-- A good raw output: fully newline-free, with a brace-free string verb
from `acts`. -/
def RawGoodP (acts : List String) (d : JObj) : Prop :=
  cleanV (JVal.obj d) = true ∧
  ∃ a, dlookup d "action" = some (JVal.s a) ∧ a ∈ acts

/-- A good encoded output: produced by `make_function_call` from an
allow-listed name and clean parameters. -/
def StrGoodP (s : String) : Prop :=
  ∃ nm ps, s = make_function_call nm ps ∧ nm ∈ valid_functions ∧ pcleanB ps = true

/-- Every corpus output is one of the two good shapes. -/
def GoodOutP : Out → Prop
  | Out.raw d => RawGoodP rawActs d
  | Out.str s => StrGoodP s

/-- Brace-free keys of a skeleton dict (so substitution leaves them
alone). -/
def keysBF (d : JObj) : Bool :=
  d.all (fun kv => braceFreeB kv.1)

/-- Bool check on one raw template: clean skeleton, brace-free keys, and
a brace-free string verb from `acts`. -/
def rawTemplateOK (acts : List String) (tpl : RawTemplate) : Bool :=
  cleanV (JVal.obj tpl.2) && keysBF tpl.2 &&
  (match dlookup tpl.2 "action" with
   | some (JVal.s a) => acts.contains a && braceFreeB a
   | _ => false)

/-- The all-zero stream, used to instantiate theorems on a concrete run. -/
def g0 : RNG := ⟨fun _ => 0⟩

/-- The substitution patterns drawn by the raw generators all start with
an opening brace. -/
def patsBraced (ps : List (String × String)) : Prop :=
  ∀ pr ∈ ps, pr.1.data.head? = some '\x7b'

/-- The substitution replacement values are newline-free. -/
def repsClean (ps : List (String × String)) : Prop :=
  ∀ pr ∈ ps, strCleanB pr.2 = true

/-- One batch item of a skeleton is a dict with brace-free keys and a
string `title`. -/
def batchItemOK : JVal → Bool
  | JVal.obj o =>
      keysBF o &&
      (match dlookup o "title" with
       | some (JVal.s _) => true
       | _ => false)
  | _ => false

/-- Shape of a batch skeleton: brace-free keys and well-shaped items. -/
def batchShapeOK (d : JObj) : Bool :=
  keysBF d && (batchItemsOf d).all batchItemOK

/-- Bool check on one batch template: well shaped, 2 or 3 items, and the
item title slots are one of the three placeholder layouts the batch
generator uses. -/
def batchTplOK (tpl : RawTemplate) : Bool :=
  batchShapeOK tpl.2 &&
  ((batchItemsOf tpl.2).length == 2 || (batchItemsOf tpl.2).length == 3) &&
  (itemTitles tpl.2 == ["\x7btask1\x7d", "\x7btask2\x7d"] ||
   itemTitles tpl.2 == ["\x7btask1\x7d", "\x7btask2\x7d", "\x7btask3\x7d"] ||
   itemTitles tpl.2 == ["\x7btopic\x7d", "\x7btask1\x7d"])

/-- A good batch output: a raw descriptor whose item list has 2 or 3
entries with pairwise-distinct titles. -/
def BatchGoodP : Out → Prop
  | Out.raw d =>
      2 ≤ (batchItemsOf d).length ∧ (batchItemsOf d).length ≤ 3 ∧
      (itemTitles d).Nodup
  | Out.str _ => False

/-! ### Lemmas: replacement, substitution, draws, loops -/

theorem replaceAux_nil (pat rep : List Char) (skip : Nat) :
    replaceAux pat rep skip [] = [] := by
  cases skip <;> rfl

theorem replaceAux_chars (pat rep : List Char) :
    ∀ (s : List Char) (skip : Nat), ∀ c ∈ replaceAux pat rep skip s, c ∈ s ∨ c ∈ rep := by
  intro s
  induction s with
  | nil =>
    intro skip c hc
    rw [replaceAux_nil] at hc
    simp at hc
  | cons a rest ih =>
    intro skip c hc
    match skip with
    | k + 1 =>
      rw [replaceAux] at hc
      rcases ih k c hc with h | h
      · exact Or.inl (List.mem_cons_of_mem _ h)
      · exact Or.inr h
    | 0 =>
      rw [replaceAux] at hc
      by_cases hm : pat ≠ [] ∧ pat.isPrefixOf (a :: rest)
      · rw [if_pos hm] at hc
        rcases List.mem_append.mp hc with h | h
        · exact Or.inr h
        · rcases ih _ c h with h2 | h2
          · exact Or.inl (List.mem_cons_of_mem _ h2)
          · exact Or.inr h2
      · rw [if_neg hm] at hc
        rcases List.mem_cons.mp hc with h | h
        · exact Or.inl (h ▸ List.mem_cons_self a rest)
        · rcases ih 0 c h with h2 | h2
          · exact Or.inl (List.mem_cons_of_mem _ h2)
          · exact Or.inr h2

theorem replaceStr_strAll {p : Char → Bool} {s rep : String} (pat : String)
    (hs : strAll p s = true) (hr : strAll p rep = true) :
    strAll p (replaceStr s pat rep) = true := by
  unfold strAll at *
  rw [List.all_eq_true] at *
  intro c hc
  rcases replaceAux_chars pat.data rep.data s.data 0 c hc with h | h
  · exact hs c h
  · exact hr c h

theorem substText_strAll {p : Char → Bool} :
    ∀ (ps : List (String × String)) (s : String), strAll p s = true →
      (∀ pr ∈ ps, strAll p pr.2 = true) → strAll p (substText s ps) = true := by
  intro ps
  induction ps with
  | nil => intro s hs _; exact hs
  | cons pr rest ih =>
    intro s hs hps
    have h1 : strAll p (replaceStr s pr.1 pr.2) = true :=
      replaceStr_strAll pr.1 hs (hps pr (List.mem_cons_self pr rest))
    exact ih _ h1 (fun q hq => hps q (List.mem_cons_of_mem pr hq))

theorem replaceAux_id_of_head_notMem {pc : Char} {pt rep : List Char} :
    ∀ s : List Char, (∀ c ∈ s, ¬(c = pc)) →
      replaceAux (pc :: pt) rep 0 s = s := by
  intro s
  induction s with
  | nil => intro _; rfl
  | cons a rest ih =>
    intro h
    rw [replaceAux]
    have hnp : ¬(pc :: pt ≠ [] ∧ (pc :: pt).isPrefixOf (a :: rest)) := by
      rintro ⟨_, h2⟩
      rw [List.isPrefixOf_iff_prefix, List.cons_prefix_cons] at h2
      exact h a (List.mem_cons_self a rest) h2.1.symm
    rw [if_neg hnp]
    exact congrArg (a :: ·) (ih (fun c hc => h c (List.mem_cons_of_mem a hc)))

theorem replaceStr_id_of_braceFree {s pat : String} (rep : String)
    (hs : braceFreeB s = true) (hpat : pat.data.head? = some '\x7b') :
    replaceStr s pat rep = s := by
  match hd : pat.data with
  | [] => rw [hd] at hpat; simp at hpat
  | pc :: pt =>
    rw [hd] at hpat
    simp at hpat
    unfold replaceStr replaceCore
    rw [hd]
    unfold braceFreeB at hs
    rw [List.all_eq_true] at hs
    have : ∀ c ∈ s.data, ¬(c = pc) := by
      intro c hc he
      have := hs c hc
      rw [he, hpat] at this
      simp at this
    rw [replaceAux_id_of_head_notMem s.data this]

theorem substText_id_of_braceFree {s : String} {ps : List (String × String)}
    (hs : braceFreeB s = true) (hps : patsBraced ps) :
    substText s ps = s := by
  induction ps with
  | nil => rfl
  | cons pr rest ih =>
    unfold substText
    rw [List.foldl_cons]
    rw [replaceStr_id_of_braceFree pr.2 hs (hps pr (List.mem_cons_self pr rest))]
    exact ih (fun q hq => hps q (List.mem_cons_of_mem pr hq))

theorem replaceAux_skip_all (pat rep : List Char) :
    ∀ (t : List Char) (skip : Nat), t.length ≤ skip → replaceAux pat rep skip t = [] := by
  intro t
  induction t with
  | nil => intro skip _; exact replaceAux_nil pat rep skip
  | cons a rest ih =>
    intro skip hlen
    match skip with
    | 0 => simp at hlen
    | k + 1 =>
      rw [replaceAux]
      exact ih k (by simpa using hlen)

theorem replaceStr_self {pat : String} (rep : String) (h : pat.data ≠ []) :
    replaceStr pat pat rep = rep := by
  unfold replaceStr replaceCore
  match hd : pat.data, h with
  | pc :: pt, _ =>
    rw [replaceAux]
    rw [if_pos ⟨by simp, List.isPrefixOf_iff_prefix.mpr (List.prefix_refl _)⟩]
    have : (pc :: pt).length - 1 = pt.length := by simp
    rw [this, replaceAux_skip_all (pc :: pt) rep.data pt pt.length (le_refl pt.length)]
    simp

theorem choose_mem {α : Type} [Inhabited α] {xs : List α} (h : xs ≠ []) (g : RNG) :
    (choose xs g).1 ∈ xs := by
  unfold choose RNG.next
  have hl : 0 < xs.length := List.length_pos.mpr h
  have hm : g.f 0 % xs.length < xs.length := Nat.mod_lt _ hl
  simp only [List.getD_eq_getElem?_getD, List.getElem?_eq_getElem hm, Option.getD_some]
  exact List.getElem_mem hm

theorem choose_all {α : Type} [Inhabited α] {xs : List α} {p : α → Bool}
    (hall : xs.all p = true) (h : xs ≠ []) (g : RNG) :
    p (choose xs g).1 = true :=
  List.all_eq_true.mp hall _ (choose_mem h g)

theorem genList_length (step : RNG → Example × RNG) :
    ∀ (n : Nat) (g : RNG), (genList step n g).1.length = n := by
  intro n
  induction n with
  | zero => intro g; rfl
  | succ n ih => intro g; simp [genList, ih]

theorem genList_succ_fst (step : RNG → Example × RNG) (n : Nat) (g : RNG) :
    (genList step (n + 1) g).1 = (step g).1 :: (genList step n (step g).2).1 := rfl

theorem genList_mem (P : Example → Prop) {step : RNG → Example × RNG}
    (hstep : ∀ g : RNG, P (step g).1) :
    ∀ (n : Nat) (g : RNG), ∀ e ∈ (genList step n g).1, P e := by
  intro n
  induction n with
  | zero => intro g e he; simp [genList] at he
  | succ n ih =>
    intro g e he
    rw [genList_succ_fst] at he
    rcases List.mem_cons.mp he with h | h
    · exact h ▸ hstep g
    · exact ih _ e h

/-! ### Lemmas: Fisher-Yates shuffle -/

theorem swap_head_perm {α : Type} [Inhabited α] :
    ∀ (t : List α) (m : Nat) (x : α), m < t.length →
      ((t.getD m default) :: t.set m x).Perm (x :: t) := by
  intro t
  induction t with
  | nil => intro m x hm; simp at hm
  | cons y t2 ih =>
    intro m x hm
    match m with
    | 0 =>
      simp only [List.getD_cons_zero, List.set_cons_zero]
      exact List.Perm.swap x y t2
    | k + 1 =>
      simp only [List.getD_cons_succ, List.set_cons_succ]
      have hk : k < t2.length := by simpa using hm
      exact ((List.Perm.swap y (t2.getD k default) (t2.set k x)).trans
        (List.Perm.cons y (ih k x hk))).trans (List.Perm.swap x y t2)

theorem swapIdx_perm {α : Type} [Inhabited α] :
    ∀ (xs : List α) (i j : Nat), i < xs.length → j < xs.length →
      (swapIdx xs i j).Perm xs := by
  intro xs
  induction xs with
  | nil => intro i j hi _; simp at hi
  | cons y t ih =>
    intro i j hi hj
    match i, j with
    | 0, 0 =>
      simp [swapIdx]
    | 0, m + 1 =>
      have hm : m < t.length := by simpa using hj
      unfold swapIdx
      simp only [List.getD_cons_zero, List.getD_cons_succ, List.set_cons_zero,
        List.set_cons_succ]
      exact swap_head_perm t m y hm
    | k + 1, 0 =>
      have hk : k < t.length := by simpa using hi
      unfold swapIdx
      simp only [List.getD_cons_zero, List.getD_cons_succ, List.set_cons_zero,
        List.set_cons_succ]
      exact swap_head_perm t k y hk
    | k + 1, m + 1 =>
      have hk : k < t.length := by simpa using hi
      have hm : m < t.length := by simpa using hj
      unfold swapIdx
      simp only [List.getD_cons_succ, List.set_cons_succ]
      exact List.Perm.cons y (ih k m hk hm)

theorem swapIdx_length {α : Type} [Inhabited α] (xs : List α) (i j : Nat) :
    (swapIdx xs i j).length = xs.length := by
  simp [swapIdx]

theorem fyAux_fst_length {α : Type} [Inhabited α] :
    ∀ (m : Nat) (xs : List α) (g : RNG), ((fyAux m xs g).1).length = xs.length := by
  intro m
  induction m with
  | zero => intro xs g; rfl
  | succ m ih =>
    intro xs g
    rw [fyAux]
    rw [ih]
    exact swapIdx_length xs (m + 1) _

theorem fyAux_perm {α : Type} [Inhabited α] :
    ∀ (m : Nat) (xs : List α) (g : RNG), m < xs.length → ((fyAux m xs g).1).Perm xs := by
  intro m
  induction m with
  | zero => intro xs g _; exact List.Perm.refl xs
  | succ m ih =>
    intro xs g hm
    rw [fyAux]
    have hj : (g.next.1 % (m + 2)) < xs.length :=
      Nat.lt_of_lt_of_le (Nat.mod_lt _ (by omega)) (by omega)
    have hswap := swapIdx_perm xs (m + 1) (g.next.1 % (m + 2)) hm hj
    have hlen : (swapIdx xs (m + 1) (g.next.1 % (m + 2))).length = xs.length :=
      swapIdx_length xs _ _
    have hm2 : m < (swapIdx xs (m + 1) (g.next.1 % (m + 2))).length := by omega
    exact (ih _ _ hm2).trans hswap

theorem pyShuffle_perm {α : Type} [Inhabited α] (xs : List α) (g : RNG) :
    ((pyShuffle xs g).1).Perm xs := by
  match xs with
  | [] => exact List.Perm.refl _
  | a :: t =>
    unfold pyShuffle
    exact fyAux_perm _ _ g (by simp)

theorem pyShuffle_length {α : Type} [Inhabited α] (xs : List α) (g : RNG) :
    (pyShuffle xs g).1.length = xs.length :=
  fyAux_fst_length _ xs g

/-! ### Lemmas: structural substitution and lookups -/

theorem mk_data_eq (s : String) : (⟨s.data⟩ : String) = s := rfl

theorem strAll_append (p : Char → Bool) (a b : String) :
    strAll p (a ++ b) = (strAll p a && strAll p b) := by
  unfold strAll
  rw [String.data_append, List.all_append]

theorem substKVs_eq_substObj (ps : List (String × String)) :
    ∀ kvs : JObj, substKVs ps kvs = substObj ps kvs := by
  intro kvs
  induction kvs with
  | nil => rfl
  | cons kv rest ih =>
    obtain ⟨k, v⟩ := kv
    rw [substKVs, substObj, List.map_cons]
    rw [substObj] at ih
    rw [ih]

theorem dlookup_cons (k0 : String) (v0 : JVal) (rest : JObj) (k : String) :
    dlookup ((k0, v0) :: rest) k = if k0 == k then some v0 else dlookup rest k := by
  unfold dlookup
  rw [List.find?_cons]
  by_cases h : k0 == k
  · simp [h]
  · simp [h]

theorem dlookup_substObj {ps : List (String × String)} (hps : patsBraced ps) :
    ∀ (d : JObj) (k : String), keysBF d = true →
      dlookup (substObj ps d) k = (dlookup d k).map (substJ ps) := by
  intro d
  induction d with
  | nil => intro k _; rfl
  | cons kv rest ih =>
    intro k hk
    obtain ⟨k0, v0⟩ := kv
    unfold keysBF at hk
    rw [List.all_cons] at hk
    rcases Bool.and_eq_true_iff.mp hk with ⟨hk0, hkrest⟩
    have hid : substText k0 ps = k0 := substText_id_of_braceFree hk0 hps
    show dlookup ((substText k0 ps, substJ ps v0) :: substObj ps rest) k = _
    rw [hid, dlookup_cons, dlookup_cons]
    by_cases h : k0 == k
    · simp [h]
    · simp only [h, if_false, Bool.false_eq_true]
      exact ih k hkrest

theorem vAllKVs_mem {p : Char → Bool} :
    ∀ {d : JObj}, vAllKVs p d = true → ∀ kv ∈ d, strAll p kv.1 = true ∧ vAll p kv.2 = true := by
  intro d
  induction d with
  | nil => intro _ kv hkv; simp at hkv
  | cons kv0 rest ih =>
    intro hall kv hkv
    obtain ⟨k0, v0⟩ := kv0
    rw [vAllKVs] at hall
    rcases Bool.and_eq_true_iff.mp hall with ⟨h1, h2⟩
    rcases Bool.and_eq_true_iff.mp h1 with ⟨h3, h4⟩
    rcases List.mem_cons.mp hkv with h | h
    · subst h; exact ⟨h3, h4⟩
    · exact ih h2 kv h

theorem dlookup_vAll {p : Char → Bool} {d : JObj} {k : String} {v : JVal}
    (hd : vAllKVs p d = true) (hv : dlookup d k = some v) : vAll p v = true := by
  unfold dlookup at hv
  match hfind : d.find? (fun kv => kv.1 == k) with
  | none => rw [hfind] at hv; simp at hv
  | some kv =>
    rw [hfind] at hv
    simp at hv
    have hmem := List.mem_of_find?_eq_some hfind
    have := (vAllKVs_mem hd kv hmem).2
    rw [hv] at this
    exact this

theorem sizeOf_jval_pos (v : JVal) : 1 ≤ sizeOf v := by
  cases v <;> simp

theorem vAll_substJ_aux (p : Char → Bool) (ps : List (String × String))
    (hps : ∀ pr ∈ ps, strAll p pr.2 = true) :
    ∀ fuel : Nat,
      (∀ v : JVal, sizeOf v ≤ fuel → vAll p v = true → vAll p (substJ ps v) = true) ∧
      (∀ vs : List JVal, sizeOf vs ≤ fuel → vAllArr p vs = true →
        vAllArr p (substArr ps vs) = true) ∧
      (∀ kvs : JObj, sizeOf kvs ≤ fuel → vAllKVs p kvs = true →
        vAllKVs p (substKVs ps kvs) = true) := by
  intro fuel
  induction fuel with
  | zero =>
    refine ⟨fun v hv => absurd hv (by have := sizeOf_jval_pos v; omega),
            fun vs hvs => absurd hvs (by cases vs <;> simp),
            fun kvs hkvs => absurd hkvs (by cases kvs <;> simp)⟩
  | succ fuel ih =>
    refine ⟨?_, ?_, ?_⟩
    · intro v hv hall
      match v with
      | JVal.s str =>
        rw [substJ]
        rw [vAll] at hall ⊢
        exact substText_strAll ps str hall hps
      | JVal.n _ => exact hall
      | JVal.b _ => exact hall
      | JVal.arr vs =>
        rw [substJ]
        rw [vAll] at hall ⊢
        refine ih.2.1 vs ?_ hall
        have : sizeOf (JVal.arr vs) = 1 + sizeOf vs := by simp
        omega
      | JVal.obj kvs =>
        rw [substJ]
        rw [vAll] at hall ⊢
        refine ih.2.2 kvs ?_ hall
        have : sizeOf (JVal.obj kvs) = 1 + sizeOf kvs := by simp
        omega
    · intro vs hvs hall
      match vs with
      | [] => exact hall
      | v :: rest =>
        rw [substArr]
        rw [vAllArr] at hall ⊢
        rcases Bool.and_eq_true_iff.mp hall with ⟨h1, h2⟩
        have hsz : sizeOf (v :: rest) = 1 + sizeOf v + sizeOf rest := by simp
        rw [Bool.and_eq_true]
        exact ⟨ih.1 v (by omega) h1, ih.2.1 rest (by omega) h2⟩
    · intro kvs hkvs hall
      match kvs with
      | [] => exact hall
      | (k, v) :: rest =>
        rw [substKVs]
        rw [vAllKVs] at hall ⊢
        rcases Bool.and_eq_true_iff.mp hall with ⟨h1, h2⟩
        rcases Bool.and_eq_true_iff.mp h1 with ⟨h3, h4⟩
        have hsz : sizeOf ((k, v) :: rest) = 1 + (1 + sizeOf k + sizeOf v) + sizeOf rest := by
          simp
        rw [Bool.and_eq_true, Bool.and_eq_true]
        refine ⟨⟨substText_strAll ps k h3 hps, ih.1 v (by omega) h4⟩, ih.2.2 rest (by omega) h2⟩

theorem vAll_substJ {p : Char → Bool} {ps : List (String × String)}
    (hps : ∀ pr ∈ ps, strAll p pr.2 = true) (v : JVal) (hv : vAll p v = true) :
    vAll p (substJ ps v) = true :=
  (vAll_substJ_aux p ps hps (sizeOf v)).1 v (le_refl _) hv

/-! ### Lemmas: serializer characters -/

theorem getD_mem_of_default_mem {α : Type} {xs : List α} {d : α} (hd : d ∈ xs) (n : Nat) :
    xs.getD n d ∈ xs := by
  rw [List.getD_eq_getElem?_getD]
  match h : xs[n]? with
  | none => simpa using hd
  | some a =>
    have := List.getElem?_mem h
    simpa using this

theorem mem_of_all_mem {l target : List Char}
    (hsub : l.all (fun x => decide (x ∈ target)) = true) {c : Char} (h : c ∈ l) :
    c ∈ target := by
  have := List.all_eq_true.mp hsub c h
  simpa using this

theorem digitChar_mem (n : Nat) : digitChar n ∈ ("0123456789".data) := by
  unfold digitChar
  exact getD_mem_of_default_mem (by decide) n

theorem natDigitsAux_chars :
    ∀ (fuel n : Nat), ∀ c ∈ natDigitsAux fuel n, c ∈ ("0123456789".data) := by
  intro fuel
  induction fuel with
  | zero =>
    intro n c hc
    rw [natDigitsAux] at hc
    exact (List.mem_singleton.mp hc) ▸ digitChar_mem n
  | succ fuel ih =>
    intro n c hc
    rw [natDigitsAux] at hc
    by_cases h : n < 10
    · rw [if_pos h] at hc
      exact (List.mem_singleton.mp hc) ▸ digitChar_mem n
    · rw [if_neg h] at hc
      rcases List.mem_append.mp hc with h2 | h2
      · exact ih _ c h2
      · exact (List.mem_singleton.mp h2) ▸ digitChar_mem (n % 10)

theorem intStr_chars (i : Int) : ∀ c ∈ (intStr i).data, c ∈ ("-0123456789".data) := by
  intro c hc
  unfold intStr at hc
  by_cases h : i < 0
  · rw [if_pos h, String.data_append] at hc
    rcases List.mem_append.mp hc with h2 | h2
    · exact mem_of_all_mem (by decide) h2
    · exact mem_of_all_mem (by decide) (natDigitsAux_chars _ _ c h2)
  · rw [if_neg h] at hc
    exact mem_of_all_mem (by decide) (natDigitsAux_chars _ _ c hc)

theorem hexChar_mem (n : Nat) : hexChar n ∈ ("0123456789abcdef".data) := by
  unfold hexChar
  exact getD_mem_of_default_mem (by decide) n

theorem hex4_chars {n : Nat} {c2 : Char} (h : c2 ∈ (hex4 n).data) : c2 ∈ jsonFixedChars := by
  have h2 : c2 ∈ [hexChar (n / 4096 % 16), hexChar (n / 256 % 16),
      hexChar (n / 16 % 16), hexChar (n % 16)] := h
  simp only [List.mem_cons, List.not_mem_nil, or_false] at h2
  rcases h2 with h2 | h2 | h2 | h2 <;>
    exact h2 ▸ mem_of_all_mem (by decide) (hexChar_mem _)

theorem jsonEscapeChar_chars {c c2 : Char} (h : c2 ∈ (jsonEscapeChar c).data) :
    (c2 = c ∧ 32 ≤ c.toNat ∧ c.toNat < 128) ∨ c2 ∈ jsonFixedChars := by
  unfold jsonEscapeChar at h
  split_ifs at h with h1 h2 h3 h4 h5 h6 h7 h8 h9
  · exact Or.inr (mem_of_all_mem (by decide) h)
  · exact Or.inr (mem_of_all_mem (by decide) h)
  · exact Or.inr (mem_of_all_mem (by decide) h)
  · exact Or.inr (mem_of_all_mem (by decide) h)
  · exact Or.inr (mem_of_all_mem (by decide) h)
  · exact Or.inr (mem_of_all_mem (by decide) h)
  · exact Or.inr (mem_of_all_mem (by decide) h)
  · rw [String.data_append] at h
    rcases List.mem_append.mp h with hx | hx
    · exact Or.inr (mem_of_all_mem (by decide) hx)
    · exact Or.inr (hex4_chars hx)
  · rw [String.data_append] at h
    rcases List.mem_append.mp h with hx | hx
    · exact Or.inr (mem_of_all_mem (by decide) hx)
    · exact Or.inr (hex4_chars hx)
  · left
    have hc2 : c2 = c := by
      have hs : (String.singleton c).data = [c] := rfl
      rw [hs] at h
      simpa using h
    exact ⟨hc2, by omega, by omega⟩

theorem jsonEscapeStr_strAll {p : Char → Bool} (hfix : jsonFixedChars.all p = true)
    (s : String) (hs : ∀ c ∈ s.data, (32 ≤ c.toNat ∧ c.toNat < 128) → p c = true) :
    strAll p (jsonEscapeStr s) = true := by
  unfold jsonEscapeStr strAll
  rw [String.data_append, String.data_append]
  rw [List.all_append, List.all_append]
  have hq : (("\"" : String).data).all p = true := by
    rw [List.all_eq_true]
    intro x hx
    exact List.all_eq_true.mp hfix x (mem_of_all_mem (by decide) hx)
  rw [hq]
  have hmid : ((⟨(s.data.map (fun c => (jsonEscapeChar c).data)).flatten⟩ : String).data).all p
      = true := by
    rw [List.all_eq_true]
    intro c2 hc2
    have hc2l : c2 ∈ (s.data.map (fun c => (jsonEscapeChar c).data)).flatten := hc2
    rcases List.mem_flatten.mp hc2l with ⟨l, hl, hcl⟩
    rcases List.mem_map.mp hl with ⟨c, hcmem, hceq⟩
    rcases jsonEscapeChar_chars (hceq ▸ hcl) with ⟨heq, hb⟩ | hmemf
    · exact heq ▸ hs c hcmem hb
    · exact List.all_eq_true.mp hfix c2 hmemf
  rw [hmid]
  rfl

theorem commaJoin_strAll {p : Char → Bool} (hcomma : strAll p "," = true) :
    ∀ parts : List String, (∀ x ∈ parts, strAll p x = true) →
      strAll p (commaJoin parts) = true := by
  intro parts
  induction parts with
  | nil => intro _; rfl
  | cons x rest ih =>
    intro hall
    match rest with
    | [] => exact hall x (List.mem_singleton.mpr rfl)
    | y :: t =>
      have hcc : commaJoin (x :: y :: t) = x ++ "," ++ commaJoin (y :: t) := rfl
      rw [hcc]
      rw [strAll_append, strAll_append]
      rw [hall x (List.mem_cons_self x _), hcomma]
      rw [ih (fun z hz => hall z (List.mem_cons_of_mem x hz))]
      rfl

/-! ### Lemmas: serialization is newline-free, wire-pattern shape -/

theorem strAll_of_sub {s : String} {target : List Char} {p : Char → Bool}
    (hsub : ∀ c ∈ s.data, c ∈ target) (hall : target.all p = true) :
    strAll p s = true := by
  unfold strAll
  rw [List.all_eq_true]
  intro c hc
  exact List.all_eq_true.mp hall c (hsub c hc)

theorem dumps_strAll_aux (p : Char → Bool) (hfix : jsonFixedChars.all p = true) :
    ∀ fuel : Nat,
      (∀ v : JVal, sizeOf v ≤ fuel → vAll p v = true → strAll p (dumps v) = true) ∧
      (∀ vs : List JVal, sizeOf vs ≤ fuel → vAllArr p vs = true →
        strAll p (dumpsArr vs) = true) ∧
      (∀ kvs : JObj, sizeOf kvs ≤ fuel → vAllKVs p kvs = true →
        strAll p (dumpsKVs kvs) = true) := by
  have hesc : ∀ s : String, strAll p s = true → strAll p (jsonEscapeStr s) = true := by
    intro s hs
    refine jsonEscapeStr_strAll hfix s (fun c hc _ => ?_)
    exact List.all_eq_true.mp hs c hc
  intro fuel
  induction fuel with
  | zero =>
    refine ⟨fun v hv => absurd hv (by have := sizeOf_jval_pos v; omega),
            fun vs hvs => absurd hvs (by cases vs <;> simp),
            fun kvs hkvs => absurd hkvs (by cases kvs <;> simp)⟩
  | succ fuel ih =>
    refine ⟨?_, ?_, ?_⟩
    · intro v hv hall
      match v with
      | JVal.s str =>
        rw [dumps]
        exact hesc str hall
      | JVal.n k =>
        rw [dumps]
        exact strAll_of_sub (intStr_chars k) (by
          rw [List.all_eq_true]
          intro x hx
          exact List.all_eq_true.mp hfix x (mem_of_all_mem (by decide) hx))
      | JVal.b bv =>
        rw [dumps]
        cases bv
        · simp only [Bool.false_eq_true, if_false]
          exact strAll_of_sub (fun c hc => mem_of_all_mem (by decide) hc) hfix
        · simp only [if_true]
          exact strAll_of_sub (fun c hc => mem_of_all_mem (by decide) hc) hfix
      | JVal.arr vs =>
        rw [dumps]
        rw [vAll] at hall
        rw [strAll_append, strAll_append]
        have h1 : strAll p "[" = true :=
          strAll_of_sub (fun c hc => mem_of_all_mem (by decide) hc) hfix
        have h2 : strAll p "]" = true :=
          strAll_of_sub (fun c hc => mem_of_all_mem (by decide) hc) hfix
        have h3 : strAll p (dumpsArr vs) = true := by
          refine ih.2.1 vs ?_ hall
          have : sizeOf (JVal.arr vs) = 1 + sizeOf vs := by simp
          omega
        rw [h1, h2, h3]
        rfl
      | JVal.obj kvs =>
        rw [dumps]
        rw [vAll] at hall
        rw [strAll_append, strAll_append]
        have h1 : strAll p "\x7b" = true :=
          strAll_of_sub (fun c hc => mem_of_all_mem (by decide) hc) hfix
        have h2 : strAll p "\x7d" = true :=
          strAll_of_sub (fun c hc => mem_of_all_mem (by decide) hc) hfix
        have h3 : strAll p (dumpsKVs kvs) = true := by
          refine ih.2.2 kvs ?_ hall
          have : sizeOf (JVal.obj kvs) = 1 + sizeOf kvs := by simp
          omega
        rw [h1, h2, h3]
        rfl
    · intro vs hvs hall
      match vs with
      | [] => rfl
      | [v] =>
        rw [dumpsArr]
        rw [vAllArr, vAllArr] at hall
        rcases Bool.and_eq_true_iff.mp hall with ⟨h1, _⟩
        refine ih.1 v ?_ h1
        have : sizeOf [v] = 1 + sizeOf v + 1 := by simp
        omega
      | v :: w :: t =>
        have hd : dumpsArr (v :: w :: t) = dumps v ++ "," ++ dumpsArr (w :: t) := rfl
        rw [hd]
        rw [vAllArr] at hall
        rcases Bool.and_eq_true_iff.mp hall with ⟨h1, h2⟩
        rw [strAll_append, strAll_append]
        have hsz : sizeOf (v :: w :: t) = 1 + sizeOf v + sizeOf (w :: t) := by simp
        rw [ih.1 v (by omega) h1]
        rw [ih.2.1 (w :: t) (by omega) h2]
        have hcm : strAll p "," = true :=
          strAll_of_sub (fun c hc => mem_of_all_mem (by decide) hc) hfix
        rw [hcm]
        rfl
    · intro kvs hkvs hall
      match kvs with
      | [] => rfl
      | [(k, v)] =>
        rw [dumpsKVs]
        rw [vAllKVs, vAllKVs] at hall
        rcases Bool.and_eq_true_iff.mp hall with ⟨h1, _⟩
        rcases Bool.and_eq_true_iff.mp h1 with ⟨h3, h4⟩
        rw [strAll_append, strAll_append]
        have hsz : sizeOf [(k, v)] = 1 + (1 + sizeOf k + sizeOf v) + 1 := by simp
        rw [hesc k h3, ih.1 v (by omega) h4]
        have hcl : strAll p ":" = true :=
          strAll_of_sub (fun c hc => mem_of_all_mem (by decide) hc) hfix
        rw [hcl]
        rfl
      | (k, v) :: w :: t =>
        have hd : dumpsKVs ((k, v) :: w :: t)
            = jsonEscapeStr k ++ ":" ++ dumps v ++ "," ++ dumpsKVs (w :: t) := rfl
        rw [hd]
        rw [vAllKVs] at hall
        rcases Bool.and_eq_true_iff.mp hall with ⟨h1, h2⟩
        rcases Bool.and_eq_true_iff.mp h1 with ⟨h3, h4⟩
        rw [strAll_append, strAll_append, strAll_append, strAll_append]
        have hsz : sizeOf ((k, v) :: w :: t) = 1 + (1 + sizeOf k + sizeOf v) + sizeOf (w :: t) := by
          simp
        rw [hesc k h3, ih.1 v (by omega) h4, ih.2.2 (w :: t) (by omega) h2]
        have hcl : strAll p ":" = true :=
          strAll_of_sub (fun c hc => mem_of_all_mem (by decide) hc) hfix
        have hcm : strAll p "," = true :=
          strAll_of_sub (fun c hc => mem_of_all_mem (by decide) hc) hfix
        rw [hcl, hcm]
        rfl

theorem dumps_strAll {p : Char → Bool} (hfix : jsonFixedChars.all p = true)
    {v : JVal} (hv : vAll p v = true) : strAll p (dumps v) = true :=
  (dumps_strAll_aux p hfix (sizeOf v)).1 v (le_refl _) hv

theorem escape_strAll {p : Char → Bool} (hfix : jsonFixedChars.all p = true)
    {v : JVal} (hv : vAll p v = true) : strAll p (escape v) = true := by
  match v with
  | JVal.s str => exact hv
  | JVal.n k =>
    rw [escape]
    exact strAll_of_sub (intStr_chars k) (by
      rw [List.all_eq_true]
      intro x hx
      exact List.all_eq_true.mp hfix x (mem_of_all_mem (by decide) hx))
  | JVal.b bv =>
    rw [escape]
    cases bv
    · simp only [Bool.false_eq_true, if_false]
      exact strAll_of_sub (fun c hc => mem_of_all_mem (by decide) hc) hfix
    · simp only [if_true]
      exact strAll_of_sub (fun c hc => mem_of_all_mem (by decide) hc) hfix
  | JVal.arr vs => exact dumps_strAll hfix hv
  | JVal.obj kvs => exact dumps_strAll hfix hv

theorem escape_clean {v : JVal} (hv : cleanV v = true) : strCleanB (escape v) = true :=
  escape_strAll (by decide) hv

theorem mfc_matches {nm : String} {ps : List (String × JVal)} (h1 : nm ≠ "")
    (h2 : nm.data.all isWordChar = true) (h3 : pcleanB ps = true) :
    matchesCallPattern (make_function_call nm ps) := by
  unfold matchesCallPattern
  refine ⟨nm, commaJoin (ps.map (fun kv => kv.1 ++ ":<escape>" ++ escape kv.2 ++ "<escape>")),
    ?_, h1, h2, ?_⟩
  · unfold make_function_call
    rfl
  apply commaJoin_strAll (by decide)
  intro x hx
  rcases List.mem_map.mp hx with ⟨kv, hkv, hxe⟩
  have hcl := List.all_eq_true.mp h3 kv hkv
  simp only [Bool.and_eq_true] at hcl
  rw [← hxe]
  show strAll cleanChar (kv.1 ++ ":<escape>" ++ escape kv.2 ++ "<escape>") = true
  rw [strAll_append, strAll_append, strAll_append]
  unfold strCleanB at hcl
  rw [hcl.1, hcl.2]
  have hc1 : strAll cleanChar ":<escape>" = true := by decide
  have hc2 : strAll cleanChar "<escape>" = true := by decide
  rw [hc1, hc2]
  rfl

theorem takeWhile_append_cons {p : Char → Bool} :
    ∀ (xs : List Char) (y : Char) (ys : List Char),
      (∀ c ∈ xs, p c = true) → p y = false →
      ((xs ++ y :: ys).takeWhile p) = xs := by
  intro xs
  induction xs with
  | nil =>
    intro y ys _ hy
    rw [List.nil_append, List.takeWhile_cons, hy, if_neg (by decide)]
  | cons a rest ih =>
    intro y ys hall hy
    rw [List.cons_append, List.takeWhile_cons, hall a (List.mem_cons_self a rest),
      if_pos rfl, ih y ys (fun c hc => hall c (List.mem_cons_of_mem a hc)) hy]

theorem callNameOf_mfc (nm : String) (ps : List (String × JVal))
    (hb : braceFreeB nm = true) : callNameOf (make_function_call nm ps) = nm := by
  unfold callNameOf make_function_call
  rw [String.data_append, String.data_append, String.data_append, String.data_append]
  rw [List.append_assoc, List.append_assoc, List.append_assoc]
  have hbl : ("\x7b" : String).data = ['\x7b'] := rfl
  rw [hbl]
  rw [List.singleton_append]
  have hdrop : ∀ tail : List Char,
      (("<start_function_call>call:" : String).data ++ tail).drop 26 = tail := by
    intro tail
    exact List.drop_left' (by decide)
  rw [hdrop]
  rw [takeWhile_append_cons nm.data '\x7b' _ ?_ (by decide)]
  intro c hc
  unfold braceFreeB at hb
  exact List.all_eq_true.mp hb c hc

/-! ### Lemmas: the legacy bridge emits well-shaped allow-listed calls -/

theorem vAllArr_iff {p : Char → Bool} :
    ∀ {l : List JVal}, vAllArr p l = true ↔ ∀ v ∈ l, vAll p v = true := by
  intro l
  induction l with
  | nil => simp [vAllArr]
  | cons v rest ih =>
    rw [vAllArr, Bool.and_eq_true]
    constructor
    · rintro ⟨h1, h2⟩ w hw
      rcases List.mem_cons.mp hw with h | h
      · exact h ▸ h1
      · exact ih.mp h2 w h
    · intro h
      exact ⟨h v (List.mem_cons_self v rest), ih.mpr (fun w hw => h w (List.mem_cons_of_mem v hw))⟩

theorem vAllKVs_append {p : Char → Bool} :
    ∀ (a b : JObj), vAllKVs p (a ++ b) = (vAllKVs p a && vAllKVs p b) := by
  intro a b
  induction a with
  | nil => simp [vAllKVs]
  | cons kv rest ih =>
    obtain ⟨k, v⟩ := kv
    rw [List.cons_append, vAllKVs, vAllKVs, ih]
    simp [Bool.and_assoc]

theorem pcleanB_append {ps qs : List (String × JVal)} (h1 : pcleanB ps = true)
    (h2 : pcleanB qs = true) : pcleanB (ps ++ qs) = true := by
  unfold pcleanB at *
  rw [List.all_append, h1, h2]
  rfl

theorem pcleanB_pair {k : String} {v : JVal} (hk : strCleanB k = true)
    (hv : strCleanB (escape v) = true) : pcleanB [(k, v)] = true := by
  simp [pcleanB, hk, hv]

theorem getD_escape_clean {d : JObj} {k : String} (hd : vAllKVs cleanChar d = true)
    (dflt : JVal) (hdflt : strCleanB (escape dflt) = true) :
    strCleanB (escape ((dlookup d k).getD dflt)) = true := by
  match h : dlookup d k with
  | none => exact hdflt
  | some v => exact escape_clean (dlookup_vAll hd h)

theorem optParam_pclean {d : JObj} {k : String} (hd : vAllKVs cleanChar d = true)
    (hk : strCleanB k = true) : pcleanB (optParam d k) = true := by
  unfold optParam
  match h : dlookup d k with
  | none => rfl
  | some v => exact pcleanB_pair hk (escape_clean (dlookup_vAll hd h))

theorem filterEntries_pclean {d : JObj} (hd : vAllKVs cleanChar d = true) :
    pcleanB (filterEntriesOf d) = true := by
  unfold filterEntriesOf
  split
  · rename_i kvs heq
    have hv : vAll cleanChar (JVal.obj kvs) = true := dlookup_vAll hd heq
    rw [vAll] at hv
    unfold pcleanB
    rw [List.all_eq_true]
    intro kv hkv
    have := vAllKVs_mem hv kv hkv
    simp only [Bool.and_eq_true]
    exact ⟨this.1, escape_clean this.2⟩
  · rfl

theorem batchItemParams_clean {v : JVal} (hv : cleanV v = true) :
    cleanV (batchItemParams v) = true := by
  unfold batchItemParams
  match v, hv with
  | JVal.obj o, hv =>
    rw [cleanV, vAll] at hv ⊢
    rw [vAllKVs_append]
    have h1 : vAllKVs cleanChar
        [("atom_type", (dlookup o "type").getD (JVal.s "task")),
         ("title", (dlookup o "title").getD (JVal.s "Untitled"))] = true := by
      rw [vAllKVs, vAllKVs, vAllKVs]
      have ha : vAll cleanChar ((dlookup o "type").getD (JVal.s "task")) = true := by
        match h : dlookup o "type" with
        | none => decide
        | some w => exact dlookup_vAll hv h
      have hb : vAll cleanChar ((dlookup o "title").getD (JVal.s "Untitled")) = true := by
        match h : dlookup o "title" with
        | none => decide
        | some w => exact dlookup_vAll hv h
      simp only [ha, hb, strAll, Bool.and_true, Bool.true_and]
      decide
    have h2 : vAllKVs cleanChar (optParam o "links") = true := by
      unfold optParam
      match h : dlookup o "links" with
      | none => rfl
      | some w =>
        rw [vAllKVs, vAllKVs]
        simp only [dlookup_vAll hv h, strAll, Bool.and_true, Bool.true_and]
        decide
    rw [h1, h2]
    rfl
  | JVal.s _, _ => rfl
  | JVal.n _, _ => rfl
  | JVal.b _, _ => rfl
  | JVal.arr _, _ => rfl

theorem batchItems_clean {d : JObj} (hd : vAllKVs cleanChar d = true) :
    ∀ v ∈ batchItemsOf d, cleanV v = true := by
  unfold batchItemsOf
  split
  · rename_i vs heq
    have hv : vAll cleanChar (JVal.arr vs) = true := dlookup_vAll hd heq
    rw [vAll] at hv
    intro v hvmem
    exact vAllArr_iff.mp hv v hvmem
  · intro v hvmem
    simp at hvmem

theorem from_dict_good (d : JObj) (hd0 : cleanV (JVal.obj d) = true) :
    matchesCallPattern (make_function_call_from_dict d) ∧
    callNameOf (make_function_call_from_dict d) ∈ valid_functions := by
  have hd : vAllKVs cleanChar d = true := by
    rw [cleanV, vAll] at hd0
    exact hd0
  have hGen : ∀ (nm : String) (ps : List (String × JVal)),
      nm ≠ "" → nm.data.all isWordChar = true → braceFreeB nm = true →
      nm ∈ valid_functions → pcleanB ps = true →
      matchesCallPattern (make_function_call nm ps) ∧
      callNameOf (make_function_call nm ps) ∈ valid_functions := by
    intro nm ps hne hw hb hmem hp
    exact ⟨mfc_matches hne hw hp, by rw [callNameOf_mfc nm ps hb]; exact hmem⟩
  unfold make_function_call_from_dict
  split
  · -- create
    refine hGen _ _ (by decide) (by decide) (by decide) (by decide) ?_
    refine pcleanB_append (pcleanB_append (pcleanB_append ?_ ?_) ?_) ?_
    · refine pcleanB_append (pcleanB_pair (by decide) ?_) (pcleanB_pair (by decide) ?_)
      · exact getD_escape_clean hd _ (by decide)
      · exact getD_escape_clean hd _ (by decide)
    · exact optParam_pclean hd (by decide)
    · exact optParam_pclean hd (by decide)
    · exact optParam_pclean hd (by decide)
  · -- update
    refine hGen _ _ (by decide) (by decide) (by decide) (by decide) ?_
    refine pcleanB_append (pcleanB_append (pcleanB_append (pcleanB_append ?_ ?_) ?_) ?_) ?_
    · exact pcleanB_pair (by decide) (getD_escape_clean hd _ (by decide))
    · exact optParam_pclean hd (by decide)
    · exact optParam_pclean hd (by decide)
    · exact optParam_pclean hd (by decide)
    · exact optParam_pclean hd (by decide)
  · -- delete
    refine hGen _ _ (by decide) (by decide) (by decide) (by decide) ?_
    exact pcleanB_pair (by decide) (getD_escape_clean hd _ (by decide))
  · -- search
    refine hGen _ _ (by decide) (by decide) (by decide) (by decide) ?_
    refine pcleanB_append (pcleanB_append (pcleanB_append (pcleanB_append ?_ ?_) ?_) ?_) ?_
    · exact optParam_pclean hd (by decide)
    · -- types
      split
      · rename_i t heq
        refine pcleanB_pair (by decide) ?_
        have ht : vAll cleanChar t = true := dlookup_vAll hd heq
        refine escape_strAll (by decide) ?_
        rw [vAll, vAllArr, vAllArr, ht]
        rfl
      · rfl
    · exact filterEntries_pclean hd
    · exact optParam_pclean hd (by decide)
    · exact optParam_pclean hd (by decide)
  · -- batch
    refine hGen _ _ (by decide) (by decide) (by decide) (by decide) ?_
    refine pcleanB_pair (by decide) ?_
    refine escape_strAll (by decide) ?_
    rw [vAll]
    rw [vAllArr_iff]
    intro v hv
    rcases List.mem_map.mp hv with ⟨w, hw, hwe⟩
    rw [← hwe]
    exact batchItemParams_clean (batchItems_clean hd w hw)
  · -- navigate
    refine hGen _ _ (by decide) (by decide) (by decide) (by decide) ?_
    exact pcleanB_pair (by decide) (getD_escape_clean hd _ (by decide))
  · -- fallback
    refine hGen _ _ (by decide) (by decide) (by decide) (by decide) ?_
    exact pcleanB_append (pcleanB_pair (by decide) (by decide)) (pcleanB_pair (by decide) (by decide))

/-! ### Lemmas: raw generator steps produce good outputs -/

theorem mem_getD_mod {α : Type} [Inhabited α] {xs : List α} (h : 0 < xs.length) (k : Nat) :
    xs.getD (k % xs.length) default ∈ xs := by
  have hm : k % xs.length < xs.length := Nat.mod_lt _ h
  rw [List.getD_eq_getElem?_getD, List.getElem?_eq_getElem hm, Option.getD_some]
  exact List.getElem_mem hm

theorem all_getD_mod {α : Type} [Inhabited α] {xs : List α} {p : α → Bool}
    (hall : xs.all p = true) (h : 0 < xs.length) (k : Nat) :
    p (xs.getD (k % xs.length) default) = true :=
  List.all_eq_true.mp hall _ (mem_getD_mod h k)

theorem contains_mem {a : String} {l : List String} (h : l.contains a = true) : a ∈ l := by
  have := List.elem_iff.mp h
  exact this

theorem substObj_rawGood {acts : List String} {tpl : RawTemplate}
    (htpl : rawTemplateOK acts tpl = true) {ps : List (String × String)}
    (hp : patsBraced ps) (hr : repsClean ps) :
    RawGoodP acts (substObj ps tpl.2) := by
  unfold rawTemplateOK at htpl
  rw [Bool.and_eq_true, Bool.and_eq_true] at htpl
  obtain ⟨⟨hclean, hkeys⟩, hact⟩ := htpl
  constructor
  · have h1 : vAll cleanChar (substJ ps (JVal.obj tpl.2)) = true :=
      vAll_substJ (p := cleanChar) hr (JVal.obj tpl.2) hclean
    rw [substJ] at h1
    rw [substKVs_eq_substObj] at h1
    exact h1
  · match hAc : dlookup tpl.2 "action" with
    | some (JVal.s a) =>
      rw [hAc] at hact
      rw [Bool.and_eq_true] at hact
      refine ⟨a, ?_, contains_mem hact.1⟩
      rw [dlookup_substObj hp tpl.2 "action" hkeys, hAc, Option.map_some']
      rw [substJ, substText_id_of_braceFree hact.2 hp]
    | some (JVal.n _) => rw [hAc] at hact; simp at hact
    | some (JVal.b _) => rw [hAc] at hact; simp at hact
    | some (JVal.arr _) => rw [hAc] at hact; simp at hact
    | some (JVal.obj _) => rw [hAc] at hact; simp at hact
    | none => rw [hAc] at hact; simp at hact

theorem patsBraced_nil : patsBraced [] := by
  intro pr h
  simp at h

theorem patsBraced_cons {p r : String} {t : List (String × String)}
    (h1 : p.data.head? = some '\x7b') (h2 : patsBraced t) : patsBraced ((p, r) :: t) := by
  intro pr hpr
  rcases List.mem_cons.mp hpr with h | h
  · subst h; exact h1
  · exact h2 pr h

theorem repsClean_nil : repsClean [] := by
  intro pr h
  simp at h

theorem repsClean_cons {p r : String} {t : List (String × String)}
    (h1 : strCleanB r = true) (h2 : repsClean t) : repsClean ((p, r) :: t) := by
  intro pr hpr
  rcases List.mem_cons.mp hpr with h | h
  · subst h; exact h1
  · exact h2 pr h

/-! Vocabulary facts, decided once each. -/

set_option maxRecDepth 20000 in
theorem TOPICS_clean : TOPICS.all strCleanB = true := by decide

set_option maxRecDepth 20000 in
theorem TASKS_clean : TASKS.all strCleanB = true := by decide

set_option maxRecDepth 20000 in
theorem PROJECTS_clean : PROJECTS.all strCleanB = true := by decide

set_option maxRecDepth 20000 in
theorem PRIORITIES_clean : PRIORITIES.all strCleanB = true := by decide

set_option maxRecDepth 20000 in
theorem PERSON_NAMES_clean : PERSON_NAMES.all strCleanB = true := by decide

set_option maxRecDepth 20000 in
theorem PROJECT_REFERENCES_fst_clean :
    PROJECT_REFERENCES.all (fun pr => strCleanB pr.1) = true := by decide

set_option maxRecDepth 20000 in
theorem TIMES_clean : TIMES.all strCleanB = true := by decide

set_option maxRecDepth 20000 in
theorem RELATIVE_TIMES_clean : RELATIVE_TIMES.all strCleanB = true := by decide

set_option maxRecDepth 20000 in
theorem DURATIONS_fst_clean : DURATIONS.all (fun d => strCleanB d.1) = true := by decide

set_option maxRecDepth 20000 in
theorem block_names_clean : Timed.block_names.all strCleanB = true := by decide

set_option maxRecDepth 20000 in
theorem people_clean : Timed.people.all strCleanB = true := by decide

set_option maxRecDepth 20000 in
theorem LEVEL_QUERY_TYPES_fst_clean :
    LEVEL_QUERY_TYPES.all (fun q => strCleanB q.1) = true := by decide

set_option maxRecDepth 20000 in
theorem DIMENSIONS_clean : DIMENSIONS.all strCleanB = true := by decide

set_option maxRecDepth 20000 in
theorem JOURNAL_ENTRY_TYPES_fst_clean :
    JOURNAL_ENTRY_TYPES.all (fun q => strCleanB q.1) = true := by decide

set_option maxRecDepth 20000 in
theorem GRATITUDE_CONTENT_clean : GRATITUDE_CONTENT.all strCleanB = true := by decide

set_option maxRecDepth 20000 in
theorem FEELINGS_clean : FEELINGS.all strCleanB = true := by decide

set_option maxRecDepth 20000 in
theorem LEARNING_CONTENT_clean : LEARNING_CONTENT.all strCleanB = true := by decide

set_option maxRecDepth 20000 in
theorem GENERAL_CONTENT_clean : GENERAL_CONTENT.all strCleanB = true := by decide

set_option maxRecDepth 20000 in
theorem WORKOUT_TYPES_fst_clean :
    WORKOUT_TYPES.all (fun q => strCleanB q.1) = true := by decide

set_option maxRecDepth 20000 in
theorem EXERCISES_clean : EXERCISES.all strCleanB = true := by decide

set_option maxRecDepth 20000 in
theorem NAVIGATION_DESTINATIONS_fst_clean :
    NAVIGATION_DESTINATIONS.all (fun q => strCleanB q.1) = true := by decide

/-! Template-pool checks, decided once each. -/

set_option maxRecDepth 40000 in
theorem simple_tpl_check : Simple.all_templates.all (rawTemplateOK rawActs) = true := by decide

set_option maxRecDepth 40000 in
theorem project_tpl_check : Project.all_templates.all (rawTemplateOK rawActs) = true := by decide

set_option maxRecDepth 40000 in
theorem timed_task_tpl_check :
    Timed.timed_task_templates.all (rawTemplateOK rawActs) = true := by decide

set_option maxRecDepth 40000 in
theorem relative_task_tpl_check :
    Timed.relative_task_templates.all (rawTemplateOK rawActs) = true := by decide

set_option maxRecDepth 40000 in
theorem block_range_tpl_check :
    Timed.block_range_templates.all (rawTemplateOK rawActs) = true := by decide

set_option maxRecDepth 40000 in
theorem block_duration_tpl_check :
    Timed.block_duration_templates.all (rawTemplateOK rawActs) = true := by decide

set_option maxRecDepth 40000 in
theorem meeting_tpl_check :
    Timed.meeting_templates.all (rawTemplateOK rawActs) = true := by decide

set_option maxRecDepth 40000 in
theorem timed_project_tpl_check :
    Timed.timed_task_project_templates.all (rawTemplateOK rawActs) = true := by decide

set_option maxRecDepth 40000 in
theorem modification_tpl_check :
    Modification.all_templates.all (rawTemplateOK rawActs) = true := by decide

set_option maxRecDepth 40000 in
theorem batch_tpl_check : Batch.all_templates.all (rawTemplateOK rawActs) = true := by decide

theorem strGood_mk {nm : String} {ps : List (String × JVal)} (hmem : nm ∈ valid_functions)
    (hp : pcleanB ps = true) : StrGoodP (make_function_call nm ps) :=
  ⟨nm, ps, rfl, hmem, hp⟩

theorem pcleanB_nil : pcleanB [] = true := rfl

theorem pcleanB_cons {k : String} {v : JVal} {rest : List (String × JVal)}
    (hk : strCleanB k = true) (hv : strCleanB (escape v) = true)
    (hr : pcleanB rest = true) : pcleanB ((k, v) :: rest) = true := by
  unfold pcleanB at *
  rw [List.all_cons, hr]
  rw [hk, hv]
  rfl

theorem escape_n_clean (i : Int) : strCleanB (escape (JVal.n i)) = true :=
  escape_clean rfl

theorem escape_s_clean {v : String} (hv : strCleanB v = true) :
    strCleanB (escape (JVal.s v)) = true := hv

theorem hourStr_clean (h : Nat) : strCleanB (Timed.hourStr h) = true := by
  unfold Timed.hourStr strCleanB
  rw [strAll_append]
  have h1 : strAll cleanChar (natStr h) = true :=
    strAll_of_sub (natDigitsAux_chars h h) (by decide)
  rw [h1]
  by_cases hc : 12 ≤ h
  · rw [if_pos hc]; decide
  · rw [if_neg hc]; decide

theorem simple_step_good (g : RNG) : GoodOutP ((Simple.step g).1.output) := by
  simp only [Simple.step, choose, RNG.next]
  show RawGoodP rawActs _
  refine substObj_rawGood (all_getD_mod simple_tpl_check (by decide) _) ?_ ?_
  · exact patsBraced_cons (by decide) (patsBraced_cons (by decide)
      (patsBraced_cons (by decide) (patsBraced_cons (by decide) patsBraced_nil)))
  · exact repsClean_cons (all_getD_mod TOPICS_clean (by decide) _)
      (repsClean_cons (all_getD_mod TASKS_clean (by decide) _)
      (repsClean_cons (all_getD_mod PROJECTS_clean (by decide) _)
      (repsClean_cons (all_getD_mod PRIORITIES_clean (by decide) _) repsClean_nil)))

theorem project_step_good (g : RNG) : GoodOutP ((Project.step g).1.output) := by
  simp only [Project.step, choose, RNG.next]
  show RawGoodP rawActs _
  refine substObj_rawGood (all_getD_mod project_tpl_check (by decide) _) ?_ ?_
  · exact patsBraced_cons (by decide) (patsBraced_cons (by decide)
      (patsBraced_cons (by decide) patsBraced_nil))
  · exact repsClean_cons (all_getD_mod PROJECT_REFERENCES_fst_clean (by decide) _)
      (repsClean_cons (all_getD_mod TOPICS_clean (by decide) _)
      (repsClean_cons (all_getD_mod TASKS_clean (by decide) _) repsClean_nil))

theorem timed_step_good (g : RNG) : GoodOutP ((Timed.step g).1.output) := by
  simp only [Timed.step, choose, RNG.next]
  split
  · show RawGoodP rawActs _
    refine substObj_rawGood (all_getD_mod timed_task_tpl_check (by decide) _) ?_ ?_
    · exact patsBraced_cons (by decide) (patsBraced_cons (by decide) patsBraced_nil)
    · exact repsClean_cons (all_getD_mod TASKS_clean (by decide) _)
        (repsClean_cons (all_getD_mod TIMES_clean (by decide) _) repsClean_nil)
  · split
    · show RawGoodP rawActs _
      refine substObj_rawGood (all_getD_mod relative_task_tpl_check (by decide) _) ?_ ?_
      · exact patsBraced_cons (by decide) (patsBraced_cons (by decide) patsBraced_nil)
      · exact repsClean_cons (all_getD_mod TASKS_clean (by decide) _)
          (repsClean_cons (all_getD_mod RELATIVE_TIMES_clean (by decide) _) repsClean_nil)
    · split
      · show RawGoodP rawActs _
        refine substObj_rawGood (all_getD_mod block_range_tpl_check (by decide) _) ?_ ?_
        · exact patsBraced_cons (by decide) (patsBraced_cons (by decide)
            (patsBraced_cons (by decide) patsBraced_nil))
        · exact repsClean_cons (hourStr_clean _)
            (repsClean_cons (hourStr_clean _)
            (repsClean_cons (all_getD_mod block_names_clean (by decide) _) repsClean_nil))
      · split
        · show RawGoodP rawActs _
          refine substObj_rawGood (all_getD_mod block_duration_tpl_check (by decide) _) ?_ ?_
          · exact patsBraced_cons (by decide) (patsBraced_cons (by decide)
              (patsBraced_cons (by decide) patsBraced_nil))
          · exact repsClean_cons (all_getD_mod DURATIONS_fst_clean (by decide) _)
              (repsClean_cons (all_getD_mod block_names_clean (by decide) _)
              (repsClean_cons (all_getD_mod TIMES_clean (by decide) _) repsClean_nil))
        · split
          · show RawGoodP rawActs _
            refine substObj_rawGood
              (all_getD_mod timed_project_tpl_check (by decide) _) ?_ ?_
            · exact patsBraced_cons (by decide) (patsBraced_cons (by decide)
                (patsBraced_cons (by decide) patsBraced_nil))
            · exact repsClean_cons (all_getD_mod TASKS_clean (by decide) _)
                (repsClean_cons (all_getD_mod TIMES_clean (by decide) _)
                (repsClean_cons
                  (all_getD_mod PROJECT_REFERENCES_fst_clean (by decide) _) repsClean_nil))
          · show RawGoodP rawActs _
            refine substObj_rawGood (all_getD_mod meeting_tpl_check (by decide) _) ?_ ?_
            · exact patsBraced_cons (by decide) (patsBraced_cons (by decide)
                (patsBraced_cons (by decide) patsBraced_nil))
            · exact repsClean_cons (all_getD_mod people_clean (by decide) _)
                (repsClean_cons (all_getD_mod TIMES_clean (by decide) _)
                (repsClean_cons
                  (all_getD_mod RELATIVE_TIMES_clean (by decide) _) repsClean_nil))

theorem modification_step_good (g : RNG) : GoodOutP ((Modification.step g).1.output) := by
  simp only [Modification.step, choose, RNG.next]
  show RawGoodP rawActs _
  refine substObj_rawGood (all_getD_mod modification_tpl_check (by decide) _) ?_ ?_
  · exact patsBraced_cons (by decide) (patsBraced_cons (by decide)
      (patsBraced_cons (by decide) (patsBraced_cons (by decide)
      (patsBraced_cons (by decide) patsBraced_nil))))
  · exact repsClean_cons (all_getD_mod TIMES_clean (by decide) _)
      (repsClean_cons (all_getD_mod RELATIVE_TIMES_clean (by decide) _)
      (repsClean_cons (all_getD_mod PROJECTS_clean (by decide) _)
      (repsClean_cons (all_getD_mod PERSON_NAMES_clean (by decide) _)
      (repsClean_cons (all_getD_mod TASKS_clean (by decide) _) repsClean_nil))))

theorem length_eraseIdx_pos {α : Type} {xs : List α} {i : Nat} (h2 : 2 ≤ xs.length)
    (hi : i < xs.length) : 0 < (xs.eraseIdx i).length := by
  rw [List.length_eraseIdx]
  rw [if_pos hi]
  omega

theorem mem_TASKS_clean {t : String} (h : t ∈ TASKS) : strCleanB t = true :=
  List.all_eq_true.mp TASKS_clean t h

theorem batch_step_good (g : RNG) : GoodOutP ((Batch.step g).1.output) := by
  simp only [Batch.step, sampleDistinct3, choose, RNG.next]
  show RawGoodP rawActs _
  have hT3 : 3 ≤ TASKS.length := by decide
  have hi1 : g.f 1 % TASKS.length < TASKS.length := Nat.mod_lt _ (by omega)
  have h1pos : 0 < (TASKS.eraseIdx (g.f 1 % TASKS.length)).length :=
    length_eraseIdx_pos (by omega) hi1
  have hsub1 := List.eraseIdx_subset TASKS (g.f 1 % TASKS.length)
  have h1len : (TASKS.eraseIdx (g.f 1 % TASKS.length)).length = TASKS.length - 1 := by
    rw [List.length_eraseIdx, if_pos hi1]
  have hi2 : g.f 2 % (TASKS.eraseIdx (g.f 1 % TASKS.length)).length
      < (TASKS.eraseIdx (g.f 1 % TASKS.length)).length := Nat.mod_lt _ h1pos
  have h2pos : 0 < ((TASKS.eraseIdx (g.f 1 % TASKS.length)).eraseIdx
      (g.f 2 % (TASKS.eraseIdx (g.f 1 % TASKS.length)).length)).length :=
    length_eraseIdx_pos (by omega) hi2
  have hsub2 := List.eraseIdx_subset (TASKS.eraseIdx (g.f 1 % TASKS.length))
      (g.f 2 % (TASKS.eraseIdx (g.f 1 % TASKS.length)).length)
  refine substObj_rawGood (all_getD_mod batch_tpl_check (by decide) _) ?_ ?_
  · exact patsBraced_cons (by decide) (patsBraced_cons (by decide)
      (patsBraced_cons (by decide) (patsBraced_cons (by decide)
      (patsBraced_cons (by decide) patsBraced_nil))))
  · refine repsClean_cons (mem_TASKS_clean (mem_getD_mod (by omega) _)) ?_
    refine repsClean_cons (mem_TASKS_clean (hsub1 (mem_getD_mod h1pos _))) ?_
    refine repsClean_cons (mem_TASKS_clean (hsub1 (hsub2 (mem_getD_mod h2pos _)))) ?_
    exact repsClean_cons (all_getD_mod TOPICS_clean (by decide) _)
      (repsClean_cons (all_getD_mod PROJECT_REFERENCES_fst_clean (by decide) _) repsClean_nil)

theorem level_step_good (g : RNG) : GoodOutP ((LevelSystem.step g).1.output) := by
  simp only [LevelSystem.step, choose, RNG.next]
  split
  · show StrGoodP _
    refine strGood_mk (by decide) ?_
    refine pcleanB_cons (by decide)
      (escape_s_clean (all_getD_mod LEVEL_QUERY_TYPES_fst_clean (by decide) _)) ?_
    exact pcleanB_cons (by decide)
      (escape_s_clean (all_getD_mod DIMENSIONS_clean (by decide) _)) pcleanB_nil
  · show StrGoodP _
    refine strGood_mk (by decide) ?_
    exact pcleanB_cons (by decide)
      (escape_s_clean (all_getD_mod LEVEL_QUERY_TYPES_fst_clean (by decide) _)) pcleanB_nil

theorem deep_start_good (g : RNG) : GoodOutP ((DeepWork.stepStart g).1.output) := by
  simp only [DeepWork.stepStart, choose, RNG.next]
  exact strGood_mk (by decide) pcleanB_nil

theorem deep_duration_good (g : RNG) : GoodOutP ((DeepWork.stepDuration g).1.output) := by
  simp only [DeepWork.stepDuration, choose, RNG.next]
  exact strGood_mk (by decide) (pcleanB_cons (by decide) (escape_n_clean _) pcleanB_nil)

theorem deep_pomodoro_good (g : RNG) : GoodOutP ((DeepWork.stepPomodoro g).1.output) := by
  simp only [DeepWork.stepPomodoro, choose, RNG.next]
  exact strGood_mk (by decide) (pcleanB_cons (by decide) (escape_n_clean _)
    (pcleanB_cons (by decide) (by decide) pcleanB_nil))

theorem deep_stop_good (g : RNG) : GoodOutP ((DeepWork.stepStop g).1.output) := by
  simp only [DeepWork.stepStop, choose, RNG.next]
  exact strGood_mk (by decide) pcleanB_nil

theorem deep_extend_good (g : RNG) : GoodOutP ((DeepWork.stepExtend g).1.output) := by
  simp only [DeepWork.stepExtend, choose, RNG.next]
  exact strGood_mk (by decide) (pcleanB_cons (by decide) (escape_n_clean _) pcleanB_nil)

theorem asciiLower_clean {c : Char} (hc : cleanChar c = true) :
    cleanChar (asciiLower c) = true := by
  unfold asciiLower
  match h : lowerTable.find? (fun p => p.1 == c) with
  | none => rw [h]; exact hc
  | some p =>
    rw [h]
    have hm := List.mem_of_find?_eq_some h
    have : lowerTable.all (fun p => cleanChar p.2) = true := by decide
    exact List.all_eq_true.mp this p hm

theorem asciiUpper_clean {c : Char} (hc : cleanChar c = true) :
    cleanChar (asciiUpper c) = true := by
  unfold asciiUpper
  match h : lowerTable.find? (fun p => p.2 == c) with
  | none => rw [h]; exact hc
  | some p =>
    rw [h]
    have hm := List.mem_of_find?_eq_some h
    have : lowerTable.all (fun p => cleanChar p.1) = true := by decide
    exact List.all_eq_true.mp this p hm

theorem pyCapitalize_clean {str : String} (hs : strCleanB str = true) :
    strCleanB (pyCapitalize str) = true := by
  unfold pyCapitalize
  unfold strCleanB strAll at hs
  rw [List.all_eq_true] at hs
  match hd : str.data with
  | [] => decide
  | c :: rest =>
    show strAll cleanChar ⟨asciiUpper c :: rest.map asciiLower⟩ = true
    unfold strAll
    rw [List.all_eq_true]
    intro x hx
    rcases List.mem_cons.mp hx with h | h
    · subst h
      exact asciiUpper_clean (hs c (hd ▸ List.mem_cons_self c rest))
    · rcases List.mem_map.mp h with ⟨y, hy, hye⟩
      rw [← hye]
      exact asciiLower_clean (hs y (hd ▸ List.mem_cons_of_mem c hy))

theorem contentFor_clean (et : String) (g : RNG) :
    strCleanB (Journal.contentFor et g).1 = true := by
  unfold Journal.contentFor
  split_ifs <;> (simp only [choose, RNG.next])
  · exact all_getD_mod GRATITUDE_CONTENT_clean (by decide) _
  · exact all_getD_mod FEELINGS_clean (by decide) _
  · exact all_getD_mod LEARNING_CONTENT_clean (by decide) _
  · exact all_getD_mod GENERAL_CONTENT_clean (by decide) _

theorem journal_title_clean {P Q : Prop} [Decidable P] [Decidable Q] {content : String}
    (hc : strCleanB content = true) :
    strCleanB (if P then "Feeling " ++ content
      else if Q then pyCapitalize content
      else (⟨content.data.take 47⟩ : String) ++ "...") = true := by
  split_ifs
  · unfold strCleanB at hc ⊢
    rw [strAll_append, hc]
    rw [show strAll cleanChar "Feeling " = true from by decide]
    rfl
  · exact pyCapitalize_clean hc
  · unfold strCleanB at hc ⊢
    rw [strAll_append]
    have h1 : strAll cleanChar (⟨content.data.take 47⟩ : String) = true := by
      unfold strAll at hc ⊢
      rw [List.all_eq_true] at hc ⊢
      intro x hx
      exact hc x (List.take_subset 47 content.data hx)
    rw [h1]
    decide

theorem journal_meta_clean (et : String) (het : strCleanB et = true) :
    strCleanB (escape (JVal.obj [("entryType", JVal.s et)])) = true := by
  refine escape_strAll (by decide) ?_
  rw [vAll, vAllKVs, vAllKVs]
  rw [show strAll cleanChar "entryType" = true from by decide]
  rw [show vAll cleanChar (JVal.s et) = true from het]
  rfl

theorem journal_step_good (g : RNG) : GoodOutP ((Journal.step g).1.output) := by
  simp only [Journal.step, choose, RNG.next]
  show StrGoodP _
  refine strGood_mk (by decide) ?_
  refine pcleanB_cons (by decide) (by decide) ?_
  refine pcleanB_cons (by decide)
    (escape_s_clean (journal_title_clean (contentFor_clean _ _))) ?_
  exact pcleanB_cons (by decide)
    (journal_meta_clean _ (all_getD_mod JOURNAL_ENTRY_TYPES_fst_clean (by decide) _)) pcleanB_nil

theorem workout_basic_good (g : RNG) : GoodOutP ((Workout.stepBasic g).1.output) := by
  simp only [Workout.stepBasic, choose, RNG.next]
  exact strGood_mk (by decide) (pcleanB_cons (by decide)
    (escape_s_clean (all_getD_mod WORKOUT_TYPES_fst_clean (by decide) _)) pcleanB_nil)

theorem workout_duration_good (g : RNG) : GoodOutP ((Workout.stepDuration g).1.output) := by
  simp only [Workout.stepDuration, choose, RNG.next]
  exact strGood_mk (by decide) (pcleanB_cons (by decide)
    (escape_s_clean (all_getD_mod WORKOUT_TYPES_fst_clean (by decide) _))
    (pcleanB_cons (by decide) (escape_n_clean _) pcleanB_nil))

theorem workout_distance_good (g : RNG) : GoodOutP ((Workout.stepDistance g).1.output) := by
  simp only [Workout.stepDistance, choose, RNG.next]
  exact strGood_mk (by decide) (pcleanB_cons (by decide) (by decide)
    (pcleanB_cons (by decide) (escape_n_clean _) pcleanB_nil))

theorem workout_strength_good (g : RNG) : GoodOutP ((Workout.stepStrength g).1.output) := by
  simp only [Workout.stepStrength, choose, RNG.next]
  exact strGood_mk (by decide) (pcleanB_cons (by decide) (by decide)
    (pcleanB_cons (by decide)
      (escape_s_clean (all_getD_mod EXERCISES_clean (by decide) _))
    (pcleanB_cons (by decide) (escape_n_clean _)
    (pcleanB_cons (by decide) (escape_n_clean _) pcleanB_nil))))

theorem navigation_step_good (g : RNG) : GoodOutP ((Navigation.step g).1.output) := by
  simp only [Navigation.step, choose, RNG.next]
  exact strGood_mk (by decide) (pcleanB_cons (by decide)
    (escape_s_clean (all_getD_mod NAVIGATION_DESTINATIONS_fst_clean (by decide) _)) pcleanB_nil)

/-! ### Lemmas: the assembled corpus -/

theorem generate_simple_good (n : Nat) (g : RNG) :
    ∀ e ∈ (generate_simple_creation_examples n g).1, GoodOutP e.output :=
  genList_mem (fun ex => GoodOutP ex.output) simple_step_good n g

theorem generate_project_good (n : Nat) (g : RNG) :
    ∀ e ∈ (generate_project_specific_examples n g).1, GoodOutP e.output :=
  genList_mem (fun ex => GoodOutP ex.output) project_step_good n g

theorem generate_timed_good (n : Nat) (g : RNG) :
    ∀ e ∈ (generate_timed_creation_examples n g).1, GoodOutP e.output :=
  genList_mem (fun ex => GoodOutP ex.output) timed_step_good n g

theorem generate_modification_good (n : Nat) (g : RNG) :
    ∀ e ∈ (generate_modification_examples n g).1, GoodOutP e.output :=
  genList_mem (fun ex => GoodOutP ex.output) modification_step_good n g

theorem generate_level_good (n : Nat) (g : RNG) :
    ∀ e ∈ (generate_level_system_examples n g).1, GoodOutP e.output :=
  genList_mem (fun ex => GoodOutP ex.output) level_step_good n g

theorem generate_deep_good (n : Nat) (g : RNG) :
    ∀ ex ∈ (generate_deep_work_examples n g).1, GoodOutP ex.output := by
  intro ex hex
  unfold generate_deep_work_examples at hex
  rcases List.mem_append.mp hex with h | h
  rotate_left
  · exact genList_mem (fun e2 => GoodOutP e2.output) deep_extend_good _ _ ex h
  rcases List.mem_append.mp h with h | h
  rotate_left
  · exact genList_mem (fun e2 => GoodOutP e2.output) deep_stop_good _ _ ex h
  rcases List.mem_append.mp h with h | h
  rotate_left
  · exact genList_mem (fun e2 => GoodOutP e2.output) deep_pomodoro_good _ _ ex h
  rcases List.mem_append.mp h with h | h
  · exact genList_mem (fun e2 => GoodOutP e2.output) deep_start_good _ _ ex h
  · exact genList_mem (fun e2 => GoodOutP e2.output) deep_duration_good _ _ ex h

theorem generate_journal_good (n : Nat) (g : RNG) :
    ∀ e ∈ (generate_journal_examples n g).1, GoodOutP e.output :=
  genList_mem (fun ex => GoodOutP ex.output) journal_step_good n g

theorem generate_workout_good (n : Nat) (g : RNG) :
    ∀ ex ∈ (generate_workout_examples n g).1, GoodOutP ex.output := by
  intro ex hex
  unfold generate_workout_examples at hex
  rcases List.mem_append.mp hex with h | h
  rotate_left
  · exact genList_mem (fun e2 => GoodOutP e2.output) workout_strength_good _ _ ex h
  rcases List.mem_append.mp h with h | h
  rotate_left
  · exact genList_mem (fun e2 => GoodOutP e2.output) workout_distance_good _ _ ex h
  rcases List.mem_append.mp h with h | h
  · exact genList_mem (fun e2 => GoodOutP e2.output) workout_basic_good _ _ ex h
  · exact genList_mem (fun e2 => GoodOutP e2.output) workout_duration_good _ _ ex h

theorem generate_navigation_good (n : Nat) (g : RNG) :
    ∀ e ∈ (generate_navigation_examples n g).1, GoodOutP e.output :=
  genList_mem (fun ex => GoodOutP ex.output) navigation_step_good n g

theorem generate_batch_good (n : Nat) (g : RNG) :
    ∀ e ∈ (generate_batch_examples n g).1, GoodOutP e.output :=
  genList_mem (fun ex => GoodOutP ex.output) batch_step_good n g

theorem gen_phase_good (g : RNG) : ∀ e ∈ (gen_phase g).1, GoodOutP e.output := by
  intro e he
  unfold gen_phase at he
  rcases List.mem_append.mp he with h | h
  rotate_left
  · exact generate_batch_good _ _ e h
  rcases List.mem_append.mp h with h | h
  rotate_left
  · exact generate_navigation_good _ _ e h
  rcases List.mem_append.mp h with h | h
  rotate_left
  · exact generate_workout_good _ _ e h
  rcases List.mem_append.mp h with h | h
  rotate_left
  · exact generate_journal_good _ _ e h
  rcases List.mem_append.mp h with h | h
  rotate_left
  · exact generate_deep_good _ _ e h
  rcases List.mem_append.mp h with h | h
  rotate_left
  · exact generate_level_good _ _ e h
  rcases List.mem_append.mp h with h | h
  rotate_left
  · exact generate_modification_good _ _ e h
  rcases List.mem_append.mp h with h | h
  rotate_left
  · exact generate_timed_good _ _ e h
  rcases List.mem_append.mp h with h | h
  · exact generate_simple_good _ _ e h
  · exact generate_project_good _ _ e h

theorem deep_work_length (n : Nat) (g : RNG) :
    (generate_deep_work_examples n g).1.length = n / 4 + n / 3 + n / 10 + n / 5 + n / 6 := by
  unfold generate_deep_work_examples
  simp only [List.length_append, genList_length]

theorem workout_length (n : Nat) (g : RNG) :
    (generate_workout_examples n g).1.length = n / 3 + n / 3 + n / 6 + n / 6 := by
  unfold generate_workout_examples
  simp only [List.length_append, genList_length]

theorem gen_phase_length (g : RNG) : (gen_phase g).1.length = 15647 := by
  unfold gen_phase generate_simple_creation_examples generate_project_specific_examples
    generate_timed_creation_examples generate_modification_examples
    generate_level_system_examples generate_journal_examples
    generate_navigation_examples generate_batch_examples
  simp only [List.length_append, genList_length, deep_work_length, workout_length]

theorem good_not_search {ex : Example} (h : GoodOutP ex.output) : ¬ isSearchExample ex := by
  rintro ⟨d, hout, hact⟩
  rw [hout] at h
  obtain ⟨-, a, ha, hmem⟩ := h
  rw [ha] at hact
  have haeq : a = "search" := by
    injection hact with h1
    injection h1
  rw [haeq] at hmem
  exact absurd hmem (by decide)

theorem gen_phase_no_search (g : RNG) : ∀ e ∈ (gen_phase g).1, ¬ isSearchExample e :=
  fun e he => good_not_search (gen_phase_good g e he)

theorem first_example_mem (g : RNG) : (Simple.step g).1 ∈ (gen_phase g).1 := by
  have h1 : (Simple.step g).1 ∈ (generate_simple_creation_examples 4000 g).1 := by
    unfold generate_simple_creation_examples
    rw [show (4000 : Nat) = 3999 + 1 from rfl, genList_succ_fst]
    exact List.mem_cons_self _ _
  unfold gen_phase
  exact List.mem_append_left _ (List.mem_append_left _ (List.mem_append_left _
    (List.mem_append_left _ (List.mem_append_left _ (List.mem_append_left _
    (List.mem_append_left _ (List.mem_append_left _ (List.mem_append_left _ h1))))))))

/-! ### Lemmas: batch item distinctness -/

theorem replaceStr_id_braced {s : String} (pat rep : String)
    (hs : braceFreeB s = true) (hpat : pat.data.head? = some '\x7b') :
    replaceStr s pat rep = s :=
  replaceStr_id_of_braceFree rep hs hpat

theorem replaceAux_id_of_not_occurs (pat rep : List Char) :
    ∀ s : List Char, occursIn s pat = false → replaceAux pat rep 0 s = s := by
  intro s
  induction s with
  | nil => intro _; rfl
  | cons c rest ih =>
    intro h
    rw [occursIn] at h
    rcases Bool.or_eq_false_iff.mp h with ⟨h1, h2⟩
    rw [replaceAux]
    rw [if_neg ?_]
    · exact congrArg (c :: ·) (ih h2)
    · rintro ⟨-, hpre⟩
      rw [h1] at hpre
      exact Bool.false_ne_true hpre

theorem replaceStr_id_of_not_occurs {s pat : String} (rep : String)
    (h : occursIn s.data pat.data = false) : replaceStr s pat rep = s := by
  unfold replaceStr replaceCore
  rw [replaceAux_id_of_not_occurs pat.data rep.data s.data h]

theorem substText_pat1 {t1 t2 t3 topic pr : String} (h : braceFreeB t1 = true) :
    substText "\x7btask1\x7d"
      [("\x7btask1\x7d", t1), ("\x7btask2\x7d", t2), ("\x7btask3\x7d", t3),
       ("\x7btopic\x7d", topic), ("\x7bproject_ref\x7d", pr)] = t1 := by
  unfold substText
  simp only [List.foldl_cons, List.foldl_nil]
  rw [replaceStr_self t1 (by decide)]
  rw [replaceStr_id_braced "\x7btask2\x7d" t2 h rfl]
  rw [replaceStr_id_braced "\x7btask3\x7d" t3 h rfl]
  rw [replaceStr_id_braced "\x7btopic\x7d" topic h rfl]
  rw [replaceStr_id_braced "\x7bproject_ref\x7d" pr h rfl]

theorem substText_pat2 {t1 t2 t3 topic pr : String} (h : braceFreeB t2 = true) :
    substText "\x7btask2\x7d"
      [("\x7btask1\x7d", t1), ("\x7btask2\x7d", t2), ("\x7btask3\x7d", t3),
       ("\x7btopic\x7d", topic), ("\x7bproject_ref\x7d", pr)] = t2 := by
  unfold substText
  simp only [List.foldl_cons, List.foldl_nil]
  rw [replaceStr_id_of_not_occurs t1 (by decide)]
  rw [replaceStr_self t2 (by decide)]
  rw [replaceStr_id_braced "\x7btask3\x7d" t3 h rfl]
  rw [replaceStr_id_braced "\x7btopic\x7d" topic h rfl]
  rw [replaceStr_id_braced "\x7bproject_ref\x7d" pr h rfl]

theorem substText_pat3 {t1 t2 t3 topic pr : String} (h : braceFreeB t3 = true) :
    substText "\x7btask3\x7d"
      [("\x7btask1\x7d", t1), ("\x7btask2\x7d", t2), ("\x7btask3\x7d", t3),
       ("\x7btopic\x7d", topic), ("\x7bproject_ref\x7d", pr)] = t3 := by
  unfold substText
  simp only [List.foldl_cons, List.foldl_nil]
  rw [replaceStr_id_of_not_occurs t1 (by decide)]
  rw [replaceStr_id_of_not_occurs t2 (by decide)]
  rw [replaceStr_self t3 (by decide)]
  rw [replaceStr_id_braced "\x7btopic\x7d" topic h rfl]
  rw [replaceStr_id_braced "\x7bproject_ref\x7d" pr h rfl]

theorem substText_patTopic {t1 t2 t3 topic pr : String} (h : braceFreeB topic = true) :
    substText "\x7btopic\x7d"
      [("\x7btask1\x7d", t1), ("\x7btask2\x7d", t2), ("\x7btask3\x7d", t3),
       ("\x7btopic\x7d", topic), ("\x7bproject_ref\x7d", pr)] = topic := by
  unfold substText
  simp only [List.foldl_cons, List.foldl_nil]
  rw [replaceStr_id_of_not_occurs t1 (by decide)]
  rw [replaceStr_id_of_not_occurs t2 (by decide)]
  rw [replaceStr_id_of_not_occurs t3 (by decide)]
  rw [replaceStr_self topic (by decide)]
  rw [replaceStr_id_braced "\x7bproject_ref\x7d" pr h rfl]

theorem getD_not_mem_eraseIdx {α : Type} [Inhabited α] :
    ∀ {xs : List α}, xs.Nodup → ∀ {i : Nat}, i < xs.length →
      xs.getD i default ∉ xs.eraseIdx i := by
  intro xs
  induction xs with
  | nil => intro _ i hi; simp at hi
  | cons x t ih =>
    intro hnd i hi
    rcases List.nodup_cons.mp hnd with ⟨hx, hndt⟩
    match i with
    | 0 =>
      simp only [List.getD_cons_zero, List.eraseIdx_cons_zero]
      exact hx
    | i + 1 =>
      simp only [List.getD_cons_succ, List.eraseIdx_cons_succ]
      have hit : i < t.length := by
        simp only [List.length_cons] at hi
        omega
      intro hmem
      rcases List.mem_cons.mp hmem with h | h
      · have hmem2 : t.getD i default ∈ t := by
          rw [List.getD_eq_getElem?_getD, List.getElem?_eq_getElem hit, Option.getD_some]
          exact List.getElem_mem hit
        rw [h] at hmem2
        exact hx hmem2
      · exact ih hndt hit h

theorem nodup_eraseIdx {α : Type} {xs : List α} (h : xs.Nodup) (i : Nat) :
    (xs.eraseIdx i).Nodup :=
  List.Nodup.sublist (List.eraseIdx_sublist xs i) h

set_option maxRecDepth 40000 in
theorem TASKS_nodup : TASKS.Nodup := by decide

theorem TASKS_braceFree : TASKS.all braceFreeB = true := by decide

theorem TOPICS_braceFree : TOPICS.all braceFreeB = true := by decide

set_option maxRecDepth 40000 in
theorem TOPICS_not_TASKS : TOPICS.all (fun t => !(TASKS.contains t)) = true := by decide

theorem substArr_eq_map (ps : List (String × String)) :
    ∀ vs : List JVal, substArr ps vs = vs.map (substJ ps) := by
  intro vs
  induction vs with
  | nil => rfl
  | cons v rest ih => rw [substArr, ih, List.map_cons]

theorem batchItemsOf_substObj {ps : List (String × String)} (hps : patsBraced ps)
    {d : JObj} (hk : keysBF d = true) :
    batchItemsOf (substObj ps d) = (batchItemsOf d).map (substJ ps) := by
  unfold batchItemsOf
  rw [dlookup_substObj hps d "items" hk]
  match h : dlookup d "items" with
  | none => simp
  | some (JVal.arr vs) => simp [substJ, substArr_eq_map]
  | some (JVal.s v) => simp [substJ]
  | some (JVal.n v) => simp [substJ]
  | some (JVal.b v) => simp [substJ]
  | some (JVal.obj o) => simp [substJ]

theorem itemObjs_map_aux {ps : List (String × String)} :
    ∀ vs : List JVal, vs.all batchItemOK = true →
      (vs.map (substJ ps)).filterMap (fun v =>
          match v with
          | JVal.obj o => some o
          | _ => none)
        = (vs.filterMap (fun v =>
          match v with
          | JVal.obj o => some o
          | _ => none)).map (substKVs ps) := by
  intro vs
  induction vs with
  | nil => intro _; rfl
  | cons v rest ih =>
    intro hall
    rw [List.all_cons] at hall
    rcases Bool.and_eq_true_iff.mp hall with ⟨hv, hrest⟩
    match v with
    | JVal.obj o =>
      simp only [List.map_cons, List.filterMap_cons, substJ]
      rw [ih hrest]
    | JVal.s c => simp [batchItemOK] at hv
    | JVal.n c => simp [batchItemOK] at hv
    | JVal.b c => simp [batchItemOK] at hv
    | JVal.arr c => simp [batchItemOK] at hv

theorem mem_itemObjs {d : JObj} {o : JObj} (h : o ∈ itemObjs d) :
    JVal.obj o ∈ batchItemsOf d := by
  unfold itemObjs at h
  rcases List.mem_filterMap.mp h with ⟨v, hv, hfv⟩
  match v with
  | JVal.obj o2 =>
    simp only [Option.some.injEq] at hfv
    rw [← hfv]
    exact hv
  | JVal.s c => simp at hfv
  | JVal.n c => simp at hfv
  | JVal.b c => simp at hfv
  | JVal.arr c => simp at hfv

theorem itemTitleStr_substKVs {ps : List (String × String)} (hps : patsBraced ps)
    {o : JObj} (hok : batchItemOK (JVal.obj o) = true) :
    itemTitleStr (substKVs ps o) = substText (itemTitleStr o) ps := by
  rw [show batchItemOK (JVal.obj o)
      = (keysBF o && (match dlookup o "title" with
         | some (JVal.s _) => true
         | _ => false)) from rfl] at hok
  rcases Bool.and_eq_true_iff.mp hok with ⟨hk, ht⟩
  rw [substKVs_eq_substObj]
  unfold itemTitleStr
  rw [dlookup_substObj hps o "title" hk]
  match h : dlookup o "title" with
  | some (JVal.s t) => rfl
  | none => rw [h] at ht; simp at ht
  | some (JVal.n c) => rw [h] at ht; simp at ht
  | some (JVal.b c) => rw [h] at ht; simp at ht
  | some (JVal.arr c) => rw [h] at ht; simp at ht
  | some (JVal.obj c) => rw [h] at ht; simp at ht

theorem itemTitles_substObj {ps : List (String × String)} (hps : patsBraced ps)
    {d : JObj} (hd : batchShapeOK d = true) :
    (batchItemsOf (substObj ps d)).length = (batchItemsOf d).length ∧
    itemTitles (substObj ps d) = (itemTitles d).map (fun t => substText t ps) := by
  rcases Bool.and_eq_true_iff.mp hd with ⟨hk, hall⟩
  have hitems := batchItemsOf_substObj hps hk
  constructor
  · rw [hitems, List.length_map]
  · unfold itemTitles
    have hobjs : itemObjs (substObj ps d) = (itemObjs d).map (substKVs ps) := by
      unfold itemObjs
      rw [hitems]
      exact itemObjs_map_aux _ hall
    rw [hobjs, List.map_map, List.map_map]
    apply List.map_congr_left
    intro o ho
    have hmem : JVal.obj o ∈ batchItemsOf d := mem_itemObjs ho
    have hok : batchItemOK (JVal.obj o) = true := List.all_eq_true.mp hall _ hmem
    show itemTitleStr (substKVs ps o) = substText (itemTitleStr o) ps
    exact itemTitleStr_substKVs hps hok

set_option maxRecDepth 40000 in
theorem batch_titles_check : Batch.all_templates.all batchTplOK = true := by decide

theorem batch_titles_core {t1 t2 t3 topic pr : String} {tpl : RawTemplate}
    (htpl : batchTplOK tpl = true)
    (hm1 : t1 ∈ TASKS) (hmt : topic ∈ TOPICS)
    (h12 : t1 ≠ t2) (h13 : t1 ≠ t3) (h23 : t2 ≠ t3)
    (hbf1 : braceFreeB t1 = true) (hbf2 : braceFreeB t2 = true)
    (hbf3 : braceFreeB t3 = true) :
    BatchGoodP (Out.raw (substObj
      [("\x7btask1\x7d", t1), ("\x7btask2\x7d", t2), ("\x7btask3\x7d", t3),
       ("\x7btopic\x7d", topic), ("\x7bproject_ref\x7d", pr)] tpl.2)) := by
  rcases Bool.and_eq_true_iff.mp htpl with ⟨hsl, htl⟩
  rcases Bool.and_eq_true_iff.mp hsl with ⟨hshape, hlen23⟩
  have hps : patsBraced
      [("\x7btask1\x7d", t1), ("\x7btask2\x7d", t2), ("\x7btask3\x7d", t3),
       ("\x7btopic\x7d", topic), ("\x7bproject_ref\x7d", pr)] :=
    patsBraced_cons (by decide) (patsBraced_cons (by decide)
      (patsBraced_cons (by decide) (patsBraced_cons (by decide)
      (patsBraced_cons (by decide) patsBraced_nil))))
  obtain ⟨hlen_eq, htitles_eq⟩ := itemTitles_substObj hps hshape
  have hbft : braceFreeB topic = true := List.all_eq_true.mp TOPICS_braceFree _ hmt
  have htopic_ne1 : topic ≠ t1 := by
    intro he
    have hcon := List.all_eq_true.mp TOPICS_not_TASKS _ hmt
    rw [Bool.not_eq_true'] at hcon
    rw [he] at hcon
    rw [show TASKS.contains t1 = TASKS.elem t1 from rfl] at hcon
    rw [List.elem_iff.mpr hm1] at hcon
    exact absurd hcon (by decide)
  have hlen2or3 : (batchItemsOf tpl.2).length = 2 ∨ (batchItemsOf tpl.2).length = 3 := by
    rcases Bool.or_eq_true_iff.mp hlen23 with h | h
    · exact Or.inl (by simpa using h)
    · exact Or.inr (by simpa using h)
  refine ⟨?_, ?_, ?_⟩
  · rw [hlen_eq]
    rcases hlen2or3 with h | h <;> rw [h] <;> decide
  · rw [hlen_eq]
    rcases hlen2or3 with h | h <;> rw [h] <;> decide
  · rw [htitles_eq]
    rcases Bool.or_eq_true_iff.mp htl with hAB | hC
    · rcases Bool.or_eq_true_iff.mp hAB with hA | hB
      · have hT : itemTitles tpl.2 = ["\x7btask1\x7d", "\x7btask2\x7d"] := by
          simpa using hA
        rw [hT]
        simp only [List.map_cons, List.map_nil]
        rw [substText_pat1 hbf1, substText_pat2 hbf2]
        exact List.nodup_cons.mpr ⟨by simpa using h12, List.nodup_singleton _⟩
      · have hT : itemTitles tpl.2
            = ["\x7btask1\x7d", "\x7btask2\x7d", "\x7btask3\x7d"] := by
          simpa using hB
        rw [hT]
        simp only [List.map_cons, List.map_nil]
        rw [substText_pat1 hbf1, substText_pat2 hbf2, substText_pat3 hbf3]
        refine List.nodup_cons.mpr ⟨?_, List.nodup_cons.mpr
          ⟨by simpa using h23, List.nodup_singleton _⟩⟩
        intro hmem
        rcases List.mem_cons.mp hmem with h | h
        · exact h12 h
        · rw [List.mem_singleton] at h
          exact h13 h
    · have hT : itemTitles tpl.2 = ["\x7btopic\x7d", "\x7btask1\x7d"] := by
        simpa using hC
      rw [hT]
      simp only [List.map_cons, List.map_nil]
      rw [substText_patTopic hbft, substText_pat1 hbf1]
      exact List.nodup_cons.mpr ⟨by simpa using htopic_ne1, List.nodup_singleton _⟩

theorem batch_step_items (g : RNG) : BatchGoodP ((Batch.step g).1.output) := by
  simp only [Batch.step, sampleDistinct3, choose, RNG.next]
  show BatchGoodP (Out.raw _)
  have hT3 : 3 ≤ TASKS.length := by decide
  have hi1 : g.f 1 % TASKS.length < TASKS.length := Nat.mod_lt _ (by omega)
  have h1pos : 0 < (TASKS.eraseIdx (g.f 1 % TASKS.length)).length :=
    length_eraseIdx_pos (by omega) hi1
  have hsub1 := List.eraseIdx_subset TASKS (g.f 1 % TASKS.length)
  have h1len : (TASKS.eraseIdx (g.f 1 % TASKS.length)).length = TASKS.length - 1 := by
    rw [List.length_eraseIdx, if_pos hi1]
  have hi2 : g.f 2 % (TASKS.eraseIdx (g.f 1 % TASKS.length)).length
      < (TASKS.eraseIdx (g.f 1 % TASKS.length)).length := Nat.mod_lt _ h1pos
  have h2pos : 0 < ((TASKS.eraseIdx (g.f 1 % TASKS.length)).eraseIdx
      (g.f 2 % (TASKS.eraseIdx (g.f 1 % TASKS.length)).length)).length :=
    length_eraseIdx_pos (by omega) hi2
  have hsub2 := List.eraseIdx_subset (TASKS.eraseIdx (g.f 1 % TASKS.length))
      (g.f 2 % (TASKS.eraseIdx (g.f 1 % TASKS.length)).length)
  have ht1mem : TASKS.getD (g.f 1 % TASKS.length) default ∈ TASKS :=
    mem_getD_mod (by omega) _
  have ht2mem1 : (TASKS.eraseIdx (g.f 1 % TASKS.length)).getD
      (g.f 2 % (TASKS.eraseIdx (g.f 1 % TASKS.length)).length) default
      ∈ TASKS.eraseIdx (g.f 1 % TASKS.length) := mem_getD_mod h1pos _
  have ht3mem2 : ((TASKS.eraseIdx (g.f 1 % TASKS.length)).eraseIdx
      (g.f 2 % (TASKS.eraseIdx (g.f 1 % TASKS.length)).length)).getD
      (g.f 3 % ((TASKS.eraseIdx (g.f 1 % TASKS.length)).eraseIdx
        (g.f 2 % (TASKS.eraseIdx (g.f 1 % TASKS.length)).length)).length) default
      ∈ (TASKS.eraseIdx (g.f 1 % TASKS.length)).eraseIdx
        (g.f 2 % (TASKS.eraseIdx (g.f 1 % TASKS.length)).length) :=
    mem_getD_mod h2pos _
  have hnd1 : (TASKS.eraseIdx (g.f 1 % TASKS.length)).Nodup :=
    nodup_eraseIdx TASKS_nodup _
  have hn1 : TASKS.getD (g.f 1 % TASKS.length) default
      ∉ TASKS.eraseIdx (g.f 1 % TASKS.length) :=
    getD_not_mem_eraseIdx TASKS_nodup hi1
  have hn2 : (TASKS.eraseIdx (g.f 1 % TASKS.length)).getD
      (g.f 2 % (TASKS.eraseIdx (g.f 1 % TASKS.length)).length) default
      ∉ (TASKS.eraseIdx (g.f 1 % TASKS.length)).eraseIdx
        (g.f 2 % (TASKS.eraseIdx (g.f 1 % TASKS.length)).length) :=
    getD_not_mem_eraseIdx hnd1 hi2
  have htopicmem : TOPICS.getD (g.f 4 % TOPICS.length) default ∈ TOPICS :=
    mem_getD_mod (by decide) _
  apply batch_titles_core (all_getD_mod batch_titles_check (by decide) _)
  · exact ht1mem
  · exact htopicmem
  · exact fun he => hn1 (he.symm ▸ ht2mem1)
  · exact fun he => hn1 (he.symm ▸ hsub2 ht3mem2)
  · exact fun he => hn2 (he.symm ▸ ht3mem2)
  · exact List.all_eq_true.mp TASKS_braceFree _ ht1mem
  · exact List.all_eq_true.mp TASKS_braceFree _ (hsub1 ht2mem1)
  · exact List.all_eq_true.mp TASKS_braceFree _ (hsub1 (hsub2 ht3mem2))

theorem batch_examples_items (n : Nat) (g : RNG) :
    ∀ ex ∈ (generate_batch_examples n g).1, BatchGoodP ex.output :=
  genList_mem (fun e => BatchGoodP e.output) batch_step_items n g

/-! ### Lemmas: the legacy bridge is key-order independent -/

theorem mem_of_dlookup :
    ∀ {d : JObj} {k : String} {v : JVal}, dlookup d k = some v → (k, v) ∈ d := by
  intro d
  induction d with
  | nil =>
    intro k v h
    rw [show dlookup ([] : JObj) k = none from rfl] at h
    exact Option.noConfusion h
  | cons kv0 rest ih =>
    intro k v h
    obtain ⟨k0, v0⟩ := kv0
    rw [dlookup_cons] at h
    by_cases hk : (k0 == k) = true
    · rw [if_pos hk] at h
      rw [← eq_of_beq hk, ← Option.some.inj h]
      exact List.mem_cons_self _ _
    · rw [if_neg hk] at h
      exact List.mem_cons_of_mem _ (ih h)

theorem dlookup_eq_some_of_mem :
    ∀ {d : JObj}, NodupKeys d → ∀ {k : String} {v : JVal},
      (k, v) ∈ d → dlookup d k = some v := by
  intro d
  induction d with
  | nil => intro _ k v hm; simp at hm
  | cons kv0 rest ih =>
    intro hnd k v hm
    obtain ⟨k0, v0⟩ := kv0
    have hnd' : (k0 :: rest.map Prod.fst).Nodup := hnd
    rcases List.nodup_cons.mp hnd' with ⟨hk0notin, hndrest⟩
    rcases List.mem_cons.mp hm with h | h
    · have h1 : k = k0 ∧ v = v0 := by simpa using h
      rw [dlookup_cons, if_pos (by simp [h1.1]), h1.2]
    · have hkne : ¬((k0 == k) = true) := by
        intro hbeq
        have hke : k0 = k := by simpa using hbeq
        apply hk0notin
        rw [hke]
        exact List.mem_map.mpr ⟨(k, v), h, rfl⟩
      rw [dlookup_cons, if_neg hkne]
      exact ih hndrest h

theorem nodupKeys_perm {d dtwo : JObj} (hp : d.Perm dtwo) (hnd : NodupKeys d) :
    NodupKeys dtwo :=
  (List.Perm.nodup_iff (hp.map Prod.fst)).mp hnd

theorem dlookup_perm {d dtwo : JObj} (hnd : NodupKeys d) (hp : d.Perm dtwo) :
    ∀ k, dlookup dtwo k = dlookup d k := by
  intro k
  match h : dlookup d k with
  | some v =>
    exact dlookup_eq_some_of_mem (nodupKeys_perm hp hnd)
      (hp.subset (mem_of_dlookup h))
  | none =>
    have h1 : d.find? (fun kv => kv.1 == k) = none := by
      match hf : d.find? (fun kv => kv.1 == k) with
      | none => exact hf
      | some kv =>
        unfold dlookup at h
        rw [hf] at h
        simp at h
    have h2 : ∀ kv ∈ dtwo, ¬((fun kv => kv.1 == k) kv = true) := by
      intro kv hkv
      exact List.find?_eq_none.mp h1 kv (hp.symm.subset hkv)
    unfold dlookup
    rw [List.find?_eq_none.mpr h2]
    rfl

theorem from_dict_perm {d dtwo : JObj} (hnd : NodupKeys d) (hp : d.Perm dtwo) :
    make_function_call_from_dict dtwo = make_function_call_from_dict d := by
  have hl := dlookup_perm hnd hp
  unfold make_function_call_from_dict
  rw [hl "action"]
  split
  · simp only [optParam, hl]
  · simp only [optParam, hl]
  · simp only [hl]
  · simp only [optParam, filterEntriesOf, hl]
  · simp only [batchItemsOf, hl]
  · simp only [hl]
  · rfl

/-! ### Lemmas: whitespace-free serialization -/

theorem make_function_call_wsFree {nm : String} {ps : List (String × JVal)}
    (hnm : wsFreeStr nm = true)
    (hps : ps.all (fun kv => wsFreeStr kv.1 && vWsFree kv.2) = true) :
    wsFreeStr (make_function_call nm ps) = true := by
  have hfix : jsonFixedChars.all wsFreeChar = true := by decide
  unfold make_function_call wsFreeStr
  rw [strAll_append, strAll_append, strAll_append, strAll_append]
  have h1 : strAll wsFreeChar "<start_function_call>call:" = true := by decide
  have h2 : strAll wsFreeChar "\x7b" = true := by decide
  have h3 : strAll wsFreeChar "\x7d<end_function_call>" = true := by decide
  rw [h1, h3]
  unfold wsFreeStr at hnm
  rw [hnm, h2]
  have hcj : strAll wsFreeChar (commaJoin (ps.map
      (fun kv => kv.1 ++ ":<escape>" ++ escape kv.2 ++ "<escape>"))) = true := by
    apply commaJoin_strAll (by decide)
    intro x hx
    rcases List.mem_map.mp hx with ⟨kv, hkv, hxe⟩
    have hcl := List.all_eq_true.mp hps kv hkv
    rcases Bool.and_eq_true_iff.mp hcl with ⟨hck, hcv⟩
    rw [← hxe]
    show strAll wsFreeChar (kv.1 ++ ":<escape>" ++ escape kv.2 ++ "<escape>") = true
    rw [strAll_append, strAll_append, strAll_append]
    unfold wsFreeStr at hck
    rw [hck]
    rw [escape_strAll hfix hcv]
    have hc1 : strAll wsFreeChar ":<escape>" = true := by decide
    have hc2 : strAll wsFreeChar "<escape>" = true := by decide
    rw [hc1, hc2]
    rfl
  rw [hcj]
  rfl

/-! ### Lemmas: corpus split sizes and the encoded outputs -/

theorem shuffled_length (g : RNG) : (shuffled_corpus g).1.length = 15647 :=
  (pyShuffle_length (gen_phase g).1 (gen_phase g).2).trans (gen_phase_length g)

theorem train_length (g : RNG) : (train_examples g).length = 14082 := by
  show ((shuffled_corpus g).1.take (split_index (shuffled_corpus g).1.length)).length
    = 14082
  rw [List.length_take, shuffled_length, show split_index 15647 = 14082 from rfl]
  omega

theorem valid_length (g : RNG) : (valid_examples g).length = 1565 := by
  show ((shuffled_corpus g).1.drop (split_index (shuffled_corpus g).1.length)).length
    = 1565
  rw [List.length_drop, shuffled_length, show split_index 15647 = 14082 from rfl]

theorem good_encode {o : Out} (h : GoodOutP o) :
    matchesCallPattern (encodeOut o) ∧ callNameOf (encodeOut o) ∈ valid_functions := by
  match o with
  | Out.raw d =>
    rcases h with ⟨hclean, -⟩
    exact from_dict_good d hclean
  | Out.str s =>
    rcases h with ⟨nm, ps, hs, hnm, hps⟩
    have hv : (!(nm == "") && nm.data.all isWordChar && braceFreeB nm) = true := by
      have hall : valid_functions.all
          (fun x => !(x == "") && x.data.all isWordChar && braceFreeB x) = true := by
        decide
      exact List.all_eq_true.mp hall _ hnm
    rcases Bool.and_eq_true_iff.mp hv with ⟨h12, hbf⟩
    rcases Bool.and_eq_true_iff.mp h12 with ⟨hne, hwc⟩
    have hnz : nm ≠ "" := by
      intro he
      rw [he] at hne
      simp at hne
    show matchesCallPattern s ∧ callNameOf s ∈ valid_functions
    rw [hs]
    refine ⟨mfc_matches hnz hwc hps, ?_⟩
    rw [callNameOf_mfc nm ps hbf]
    exact hnm

theorem first_batch_mem (g : RNG) :
    (Batch.step g).1 ∈ (generate_batch_examples 1 g).1 := by
  unfold generate_batch_examples
  rw [show (1 : Nat) = 0 + 1 from rfl, genList_succ_fst]
  exact List.mem_cons_self _ _

/-! ### The claims -/

/-- Claim C1 (corrected): the assembled corpus is the concatenation of the
outputs of the TEN generators `main` actually calls, at their fixed target
counts, totalling 15647 examples; the search category generator is never
invoked, so no search raw descriptor reaches the merged corpus before
shuffling (the spec counts 11 categories including search). -/
theorem claim_C1 (g : RNG) :
    (gen_phase g).1 =
      (let a := generate_simple_creation_examples 4000 g
       let b := generate_project_specific_examples 2500 a.2
       let c := generate_timed_creation_examples 2000 b.2
       let d := generate_modification_examples 1500 c.2
       let e := generate_level_system_examples 2000 d.2
       let f := generate_deep_work_examples 1000 e.2
       let h := generate_journal_examples 1000 f.2
       let i := generate_workout_examples 500 h.2
       let j := generate_navigation_examples 600 i.2
       let k := generate_batch_examples 500 j.2
       a.1 ++ b.1 ++ c.1 ++ d.1 ++ e.1 ++ f.1 ++ h.1 ++ i.1 ++ j.1 ++ k.1) ∧
    (gen_phase g).1.length = 15647 ∧
    (∀ e ∈ (gen_phase g).1, ¬ isSearchExample e) :=
  ⟨rfl, gen_phase_length g, gen_phase_no_search g⟩

/-- Counterexample to C1 as stated: the search generator\x27s first example on
the all-zero stream is not in the merged corpus of the same run. -/
theorem claim_C1_cex : ((Search.step g0).1 ∈ (gen_phase g0).1) = False :=
  eq_false (fun hmem => gen_phase_no_search g0 _ hmem ⟨_, rfl, rfl⟩)

/-- Claim C2 (corrected): the eight loop generators return exactly N
examples for every target count, but the deep-work and workout generators
run five (resp. four) sub-loops of sizes `n // k`, so deep-work at its
actual call count 1000 returns 1049 examples and workout at 500 returns
498, not their targets. -/
theorem claim_C2 (n : Nat) (g : RNG) :
    (generate_simple_creation_examples n g).1.length = n ∧
    (generate_project_specific_examples n g).1.length = n ∧
    (generate_timed_creation_examples n g).1.length = n ∧
    (generate_modification_examples n g).1.length = n ∧
    (generate_search_examples n g).1.length = n ∧
    (generate_level_system_examples n g).1.length = n ∧
    (generate_journal_examples n g).1.length = n ∧
    (generate_navigation_examples n g).1.length = n ∧
    (generate_batch_examples n g).1.length = n ∧
    (generate_deep_work_examples n g).1.length
      = n / 4 + n / 3 + n / 10 + n / 5 + n / 6 ∧
    (generate_workout_examples n g).1.length = n / 3 + n / 3 + n / 6 + n / 6 ∧
    (generate_deep_work_examples 1000 g).1.length = 1049 ∧
    (generate_workout_examples 500 g).1.length = 498 :=
  ⟨genList_length Simple.step n g, genList_length Project.step n g,
   genList_length Timed.step n g, genList_length Modification.step n g,
   genList_length Search.step n g, genList_length LevelSystem.step n g,
   genList_length Journal.step n g, genList_length Navigation.step n g,
   genList_length Batch.step n g, deep_work_length n g, workout_length n g,
   by rw [deep_work_length], by rw [workout_length]⟩

/-- Counterexample to C2 as stated: the deep-work generator called with its
target count 1000 does not return 1000 examples. -/
theorem claim_C2_cex :
    ((generate_deep_work_examples 1000 g0).1.length = 1000) = False :=
  eq_false (fun h => absurd ((deep_work_length 1000 g0).symm.trans h) (by decide))

/-- Claim C3 (corrected): the split index is floor(0.9 x T) = 14082 at the
actual corpus size T = 15647, but the validation set then has
T - floor(0.9 x T) = 1565 examples, which is ceil(0.1 x T), not
floor(0.1 x T) = 1564: the two spec formulas are inconsistent at this T. -/
theorem claim_C3 (g : RNG) :
    split_index (shuffled_corpus g).1.length
      = 9 * (shuffled_corpus g).1.length / 10 ∧
    (shuffled_corpus g).1.length = 15647 ∧
    split_index 15647 = 14082 ∧
    (train_examples g).length = 14082 ∧
    (valid_examples g).length = 1565 :=
  ⟨rfl, shuffled_length g, rfl, train_length g, valid_length g⟩

/-- Counterexample to C3 as stated: at T = 15647 the validation set size is
not floor(0.1 x T) = 15647 / 10. -/
theorem claim_C3_cex : ((valid_examples g0).length = 15647 / 10) = False :=
  eq_false (fun h => absurd ((valid_length g0).symm.trans h) (by decide))

/-- Claim C4 (confirmed): |train| + |valid| = T, train and validation are
the take/drop halves of one shuffled sequence (so they are index-disjoint
and keep the post-shuffle order with no re-shuffle), their concatenation is
the shuffled corpus, and the shuffled corpus is a permutation of the
generated corpus. -/
theorem claim_C4 (g : RNG) :
    (train_examples g).length + (valid_examples g).length
      = (shuffled_corpus g).1.length ∧
    train_examples g ++ valid_examples g = (shuffled_corpus g).1 ∧
    ((shuffled_corpus g).1).Perm (gen_phase g).1 ∧
    train_examples g
      = (shuffled_corpus g).1.take (split_index (shuffled_corpus g).1.length) ∧
    valid_examples g
      = (shuffled_corpus g).1.drop (split_index (shuffled_corpus g).1.length) := by
  refine ⟨?_, ?_, ?_, rfl, rfl⟩
  · rw [train_length, valid_length, shuffled_length]
  · exact List.take_append_drop _ _
  · unfold shuffled_corpus
    exact pyShuffle_perm _ _

/-- Claim C5 (confirmed): every encoded output of the generated corpus
decomposes as the anchored wire pattern
start-marker, call:, a nonempty word-character name, a braced newline-free
body, end-marker, and its function name is in the 12-name allow-list. -/
theorem claim_C5 (g : RNG) :
    ∀ e ∈ (gen_phase g).1,
      matchesCallPattern (encodeOut e.output) ∧
      callNameOf (encodeOut e.output) ∈ valid_functions :=
  fun e he => good_encode (gen_phase_good g e he)

/-- Witness for C5: the first corpus example on the all-zero stream. -/
theorem claim_C5_witness :
    matchesCallPattern (encodeOut ((Simple.step g0).1).output) ∧
    callNameOf (encodeOut ((Simple.step g0).1).output) ∈ valid_functions :=
  claim_C5 g0 _ (first_example_mem g0)

/-- Claim C6 (confirmed): every batch-generator example is a raw descriptor
whose item list has 2 or 3 entries and whose item titles are pairwise
distinct (three distinct tasks are drawn without replacement, and in the
mixed templates the topic pool is disjoint from the task pool). -/
theorem claim_C6 (n : Nat) (g : RNG) :
    ∀ ex ∈ (generate_batch_examples n g).1,
      ∃ d : JObj, ex.output = Out.raw d ∧
        2 ≤ (batchItemsOf d).length ∧ (batchItemsOf d).length ≤ 3 ∧
        (itemTitles d).Nodup := by
  intro ex hex
  have h := batch_examples_items n g ex hex
  match ho : ex.output with
  | Out.raw d =>
    rw [ho] at h
    exact ⟨d, rfl, h.1, h.2.1, h.2.2⟩
  | Out.str str =>
    rw [ho] at h
    exact h.elim

/-- Witness for C6: the first batch example on the all-zero stream. -/
theorem claim_C6_witness :
    ∃ d : JObj, ((Batch.step g0).1).output = Out.raw d ∧
      2 ≤ (batchItemsOf d).length ∧ (batchItemsOf d).length ≤ 3 ∧
      (itemTitles d).Nodup :=
  claim_C6 1 g0 _ (first_batch_mem g0)

/-- Claim C7 (confirmed): the legacy bridge equals the spec-side table
encoder on every descriptor, and for descriptors with pairwise-distinct
keys its output is invariant under any reordering (permutation) of the
descriptor\x27s key-value pairs: parameter order comes from the table, never
from input order. -/
theorem claim_C7 :
    (∀ d : JObj, make_function_call_from_dict d = specEncodeFromTable d) ∧
    (∀ d dtwo : JObj, NodupKeys d → d.Perm dtwo →
      make_function_call_from_dict dtwo = make_function_call_from_dict d) :=
  ⟨fun _ => rfl, fun _ _ hnd hp => from_dict_perm hnd hp⟩

/-- Claim C8 (confirmed): encoding is a pure function of the name and the
parameter list (identical inputs give byte-identical strings); booleans
serialize as lower-case true/false, ints as their decimal text, composite
values compactly with insertion order kept; and on whitespace-free inputs
the encoder emits no whitespace of its own. -/
theorem claim_C8 :
    (∀ (nm1 nm2 : String) (ps1 ps2 : List (String × JVal)),
        nm1 = nm2 → ps1 = ps2 →
        make_function_call nm1 ps1 = make_function_call nm2 ps2) ∧
    (∀ b : Bool, escape (JVal.b b) = if b then "true" else "false") ∧
    (∀ i : Int, escape (JVal.n i) = intStr i) ∧
    (∀ kvs : List (String × JVal),
        escape (JVal.obj kvs) = "\x7b" ++ dumpsKVs kvs ++ "\x7d") ∧
    (∀ vs : List JVal, escape (JVal.arr vs) = "[" ++ dumpsArr vs ++ "]") ∧
    (∀ (nm : String) (ps : List (String × JVal)),
        wsFreeStr nm = true →
        ps.all (fun kv => wsFreeStr kv.1 && vWsFree kv.2) = true →
        wsFreeStr (make_function_call nm ps) = true) :=
  ⟨fun _ _ _ _ h1 h2 => by rw [h1, h2],
   fun _ => rfl, fun _ => rfl, fun _ => rfl, fun _ => rfl,
   fun _ _ hnm hps => make_function_call_wsFree hnm hps⟩

/-- Claim C9 (confirmed): the validator only returns findings; whatever it
reports (here: a non-empty findings list), the assembler still shuffles the
full example list, splits it by take/drop into two halves whose
concatenation is the whole shuffled list, and the shuffled list is a
permutation of the original corpus - nothing is removed or corrected. -/
theorem claim_C9 (es : List Example) (g : RNG)
    (hbad : validate_examples es ≠ []) :
    (assemble_split es g).1 ++ (assemble_split es g).2 = (pyShuffle es g).1 ∧
    ((pyShuffle es g).1).Perm es ∧
    (assemble_split es g).1.length + (assemble_split es g).2.length
      = es.length := by
  refine ⟨List.take_append_drop _ _, pyShuffle_perm es g, ?_⟩
  rw [show (assemble_split es g).1
      = ((pyShuffle es g).1).take (split_index ((pyShuffle es g).1).length) from rfl]
  rw [show (assemble_split es g).2
      = ((pyShuffle es g).1).drop (split_index ((pyShuffle es g).1).length) from rfl]
  rw [List.length_take, List.length_drop, pyShuffle_length]
  have hs : split_index ((pyShuffle es g).1).length ≤ es.length := by
    rw [pyShuffle_length]
    unfold split_index
    omega
  rw [pyShuffle_length] at hs
  omega

/-- Witness for C9: a one-example corpus whose output fails validation
(no start marker); it is still shuffled and split whole. -/
theorem claim_C9_witness :
    validate_examples [⟨"x", Out.str "oops"⟩] ≠ [] ∧
    ((assemble_split [⟨"x", Out.str "oops"⟩] g0).1 ++
        (assemble_split [⟨"x", Out.str "oops"⟩] g0).2
      = (pyShuffle [(⟨"x", Out.str "oops"⟩ : Example)] g0).1 ∧
    ((pyShuffle [(⟨"x", Out.str "oops"⟩ : Example)] g0).1).Perm
        [⟨"x", Out.str "oops"⟩] ∧
    (assemble_split [⟨"x", Out.str "oops"⟩] g0).1.length +
        (assemble_split [⟨"x", Out.str "oops"⟩] g0).2.length = 1) :=
  ⟨by decide, claim_C9 [⟨"x", Out.str "oops"⟩] g0 (by decide)⟩

/-- Claim C10 (confirmed, implicit): `escape` is the identity on string
values - no quoting or character escaping - so a string parameter value is
embedded verbatim between the literal escape markers of the wire string,
whatever characters it contains. -/
theorem claim_C10 :
    (∀ s : String, escape (JVal.s s) = s) ∧
    (∀ nm k s : String,
        make_function_call nm [(k, JVal.s s)]
          = "<start_function_call>call:" ++ nm ++ "\x7b" ++
            (k ++ ":<escape>" ++ s ++ "<escape>") ++ "\x7d<end_function_call>") :=
  ⟨fun _ => rfl, fun _ _ _ => rfl⟩

end CosmoGen
